import Mathlib

/-!
# OpenGL shadow-state cache (`video_core/renderer_opengl/gl_state.cpp`)

A shallow embedding of `OpenGLState`: the state descriptor, the process-wide
shadow `cur_state`, and the operations that reconcile a descriptor against the
shadow.  Every operation is a pure function from the shadow before the call to
the shadow after it together with the list of device calls it issued, in the
order of issue.

Conventions.
* `GLenum`, `GLuint`, `GLboolean` values are natural numbers and `GLint`,
  `GLsizei` values are integers.  The operations only store, compare and forward
  them, so no arithmetic can overflow; the single sum in the source,
  `GL_CLIP_DISTANCE0 + i`, ranges over the indices of `clip_distance`, an array
  with as many entries as the device has clip planes.
* A `GLfloat` is represented by its bit pattern: the blend colour is only
  stored and forwarded.
* The lengths of `texture_units` and `clip_distance`, the capability flags of
  `gl_vars.h` and the unit tables `TextureUnits::*` / `ImageUnits::*` are
  declared in headers and are parameters of the development.

The key operations of the configuration layer (`android/jni/config/layer.h`,
`layer.cpp`) are embedded in the namespace `Config`.
-/

namespace OpenGL

abbrev GLenum := Nat
abbrev GLuint := Nat
abbrev GLint := Int
abbrev GLsizei := Int
abbrev GLboolean := Nat
abbrev GLfloat := Nat

/-! ## OpenGL enumerants used by `gl_state.cpp` -/

def GL_FALSE : GLboolean := 0
def GL_TRUE : GLboolean := 1
def GL_ZERO : GLenum := 0
def GL_ONE : GLenum := 1
def GL_LESS : GLenum := 0x0201
def GL_ALWAYS : GLenum := 0x0207
def GL_BACK : GLenum := 0x0405
def GL_CCW : GLenum := 0x0901
def GL_CULL_FACE : GLenum := 0x0B44
def GL_DEPTH_TEST : GLenum := 0x0B71
def GL_STENCIL_TEST : GLenum := 0x0B90
def GL_BLEND : GLenum := 0x0BE2
def GL_COLOR_LOGIC_OP : GLenum := 0x0BF2
def GL_SCISSOR_TEST : GLenum := 0x0C11
def GL_TEXTURE_2D : GLenum := 0x0DE1
def GL_COPY : GLenum := 0x1503
def GL_KEEP : GLenum := 0x1E00
def GL_CLIP_DISTANCE0 : GLenum := 0x3000
def GL_FUNC_ADD : GLenum := 0x8006
def GL_R32UI : GLenum := 0x8236
def GL_TEXTURE0 : GLenum := 0x84C0
def GL_TEXTURE_CUBE_MAP : GLenum := 0x8513
def GL_ARRAY_BUFFER : GLenum := 0x8892
def GL_READ_ONLY : GLenum := 0x88B8
def GL_READ_WRITE : GLenum := 0x88BA
def GL_UNIFORM_BUFFER : GLenum := 0x8A11
def GL_TEXTURE_BUFFER : GLenum := 0x8C2A
def GL_READ_FRAMEBUFFER : GLenum := 0x8CA8
def GL_DRAW_FRAMEBUFFER : GLenum := 0x8CA9

/-- The device calls issued by `gl_state.cpp`, one constructor per entry point,
with the arguments of the call. -/
inductive GLCall where
  | glEnable (cap : GLenum)
  | glDisable (cap : GLenum)
  | glCullFace (mode : GLenum)
  | glFrontFace (mode : GLenum)
  | glDepthFunc (func : GLenum)
  | glDepthMask (flag : GLboolean)
  | glColorMask (red green blue alpha : GLboolean)
  | glStencilFunc (func : GLenum) (ref : GLint) (mask : GLuint)
  | glStencilOp (sfail dpfail dppass : GLenum)
  | glStencilMask (mask : GLuint)
  | glBlendColor (red green blue alpha : GLfloat)
  | glBlendFuncSeparate (srcRGB dstRGB srcAlpha dstAlpha : GLenum)
  | glBlendEquationSeparate (modeRGB modeAlpha : GLenum)
  | glLogicOp (opcode : GLenum)
  | glActiveTexture (texture : GLenum)
  | glBindTexture (target : GLenum) (texture : GLuint)
  | glBindSampler (unit : GLuint) (sampler : GLuint)
  | glBindImageTexture (unit : GLuint) (texture : GLuint) (level : GLint)
      (layered : GLboolean) (layer : GLint) (access : GLenum) (fmt : GLenum)
  | glBindFramebuffer (target : GLenum) (framebuffer : GLuint)
  | glBindVertexArray (array : GLuint)
  | glBindBuffer (target : GLenum) (buffer : GLuint)
  | glUseProgram (program : GLuint)
  | glBindProgramPipeline (pipeline : GLuint)
  | glScissor (x y : GLint) (width height : GLsizei)
  | glViewport (x y : GLint) (width height : GLsizei)
  deriving DecidableEq, Repr

/-- An entry of the `TextureUnits` table: the unit number (`.id`) and the
enumerant `Enum()` that `glActiveTexture` takes for it. -/
structure TextureUnit where
  id : GLuint
  Enum : GLenum

/-- What `gl_state.cpp` reads from its environment: the capability flags of
`gl_vars.h` and glad, and the `TextureUnits` / `ImageUnits` tables. -/
structure Env where
  GLES : Bool
  AllowShadow : Bool
  GLAD_GL_EXT_clip_cull_distance : Bool
  PicaTexture : Nat → TextureUnit
  TextureCube : TextureUnit
  TextureBufferLUT_LF : TextureUnit
  TextureBufferLUT_RG : TextureUnit
  TextureBufferLUT_RGBA : TextureUnit
  ShadowBuffer : GLuint
  ShadowTexturePX : GLuint
  ShadowTextureNX : GLuint
  ShadowTexturePY : GLuint
  ShadowTextureNY : GLuint
  ShadowTexturePZ : GLuint
  ShadowTextureNZ : GLuint

/-! ## The state descriptor -/

structure CullState where
  enabled : Bool
  mode : GLenum
  front_face : GLenum
  deriving DecidableEq, Repr

structure DepthState where
  test_enabled : Bool
  test_func : GLenum
  write_mask : GLboolean
  deriving DecidableEq, Repr

structure ColorMask where
  red_enabled : GLboolean
  green_enabled : GLboolean
  blue_enabled : GLboolean
  alpha_enabled : GLboolean
  deriving DecidableEq, Repr

structure StencilState where
  test_enabled : Bool
  test_func : GLenum
  test_ref : GLint
  test_mask : GLuint
  write_mask : GLuint
  action_stencil_fail : GLenum
  action_depth_fail : GLenum
  action_depth_pass : GLenum
  deriving DecidableEq, Repr

structure BlendColor where
  red : GLfloat
  green : GLfloat
  blue : GLfloat
  alpha : GLfloat
  deriving DecidableEq, Repr

structure BlendState where
  enabled : Bool
  rgb_equation : GLenum
  a_equation : GLenum
  src_rgb_func : GLenum
  dst_rgb_func : GLenum
  src_a_func : GLenum
  dst_a_func : GLenum
  color : BlendColor
  deriving DecidableEq, Repr

/-- One element of `texture_units`. -/
structure TextureUnitState where
  texture_2d : GLuint
  sampler : GLuint
  deriving DecidableEq, Repr

structure TextureCubeUnit where
  texture_cube : GLuint
  sampler : GLuint
  deriving DecidableEq, Repr

structure TextureBufferLUT where
  texture_buffer : GLuint
  deriving DecidableEq, Repr

structure DrawState where
  read_framebuffer : GLuint
  draw_framebuffer : GLuint
  vertex_array : GLuint
  vertex_buffer : GLuint
  uniform_buffer : GLuint
  shader_program : GLuint
  program_pipeline : GLuint
  deriving DecidableEq, Repr

structure ScissorState where
  enabled : Bool
  x : GLint
  y : GLint
  width : GLsizei
  height : GLsizei
  deriving DecidableEq, Repr

structure ViewportState where
  x : GLint
  y : GLint
  width : GLsizei
  height : GLsizei
  deriving DecidableEq, Repr

/-- The class `OpenGLState`, with `nTex = ARRAY_SIZE(texture_units)` and
`nClip = clip_distance.size()`. -/
structure OpenGLState (nTex nClip : Nat) where
  cull : CullState
  depth : DepthState
  color_mask : ColorMask
  stencil : StencilState
  blend : BlendState
  logic_op : GLenum
  texture_units : Fin nTex → TextureUnitState
  texture_cube_unit : TextureCubeUnit
  texture_buffer_lut_lf : TextureBufferLUT
  texture_buffer_lut_rg : TextureBufferLUT
  texture_buffer_lut_rgba : TextureBufferLUT
  image_shadow_buffer : GLuint
  image_shadow_texture_px : GLuint
  image_shadow_texture_nx : GLuint
  image_shadow_texture_py : GLuint
  image_shadow_texture_ny : GLuint
  image_shadow_texture_pz : GLuint
  image_shadow_texture_nz : GLuint
  draw : DrawState
  scissor : ScissorState
  viewport : ViewportState
  clip_distance : Fin nClip → Bool
  renderbuffer : GLuint
  deriving DecidableEq

/-- The constructor `OpenGLState::OpenGLState()`.  It assigns every member except
`texture_buffer_lut_lf`; the value that member is left with is the argument. -/
def OpenGLState.ctor (nTex nClip : Nat) (texture_buffer_lut_lf : TextureBufferLUT) :
    OpenGLState nTex nClip where
  cull := { enabled := true, mode := GL_BACK, front_face := GL_CCW }
  depth := { test_enabled := false, test_func := GL_LESS, write_mask := GL_TRUE }
  color_mask :=
    { red_enabled := GL_TRUE, green_enabled := GL_TRUE, blue_enabled := GL_TRUE,
      alpha_enabled := GL_TRUE }
  stencil :=
    { test_enabled := false, test_func := GL_ALWAYS, test_ref := 0, test_mask := 0xFF,
      write_mask := 0xFF, action_depth_fail := GL_KEEP, action_depth_pass := GL_KEEP,
      action_stencil_fail := GL_KEEP }
  blend :=
    { enabled := false, rgb_equation := GL_FUNC_ADD, a_equation := GL_FUNC_ADD,
      src_rgb_func := GL_ONE, dst_rgb_func := GL_ZERO, src_a_func := GL_ONE,
      dst_a_func := GL_ZERO, color := { red := 0, green := 0, blue := 0, alpha := 0 } }
  logic_op := GL_COPY
  texture_units := fun _ => { texture_2d := 0, sampler := 0 }
  texture_cube_unit := { texture_cube := 0, sampler := 0 }
  texture_buffer_lut_lf := texture_buffer_lut_lf
  texture_buffer_lut_rg := { texture_buffer := 0 }
  texture_buffer_lut_rgba := { texture_buffer := 0 }
  image_shadow_buffer := 0
  image_shadow_texture_px := 0
  image_shadow_texture_nx := 0
  image_shadow_texture_py := 0
  image_shadow_texture_ny := 0
  image_shadow_texture_pz := 0
  image_shadow_texture_nz := 0
  draw :=
    { read_framebuffer := 0, draw_framebuffer := 0, vertex_array := 0, vertex_buffer := 0,
      uniform_buffer := 0, shader_program := 0, program_pipeline := 0 }
  scissor := { enabled := false, x := 0, y := 0, width := 0, height := 0 }
  viewport := { x := 0, y := 0, width := 0, height := 0 }
  clip_distance := fun _ => false
  renderbuffer := 0

/-! ## The reconcilers

`self` is the descriptor the member function is called on (`*this`) and
`cur_state` the shadow before the call.  The result is the shadow after the
call and the device calls issued, in order.  The body of a function is the
list of its statements, each contributing the calls it issues. -/

/-- Part of `Apply`, lines 97-136: culling, depth test, depth mask, color mask, stencil
test and stencil mask. -/
def OpenGLState.Apply.rasterizer {nTex nClip : Nat} (self : OpenGLState nTex nClip) :
    List GLCall :=
  List.flatten [
    -- Culling
    if self.cull.enabled then [.glEnable GL_CULL_FACE] else [.glDisable GL_CULL_FACE],
    [.glCullFace self.cull.mode],
    [.glFrontFace self.cull.front_face],
    -- Depth test
    if self.depth.test_enabled then [.glEnable GL_DEPTH_TEST] else [.glDisable GL_DEPTH_TEST],
    [.glDepthFunc self.depth.test_func],
    -- Depth mask
    [.glDepthMask self.depth.write_mask],
    -- Color mask
    [.glColorMask self.color_mask.red_enabled self.color_mask.green_enabled
      self.color_mask.blue_enabled self.color_mask.alpha_enabled],
    -- Stencil test
    if self.stencil.test_enabled then [.glEnable GL_STENCIL_TEST]
    else [.glDisable GL_STENCIL_TEST],
    [.glStencilFunc self.stencil.test_func self.stencil.test_ref self.stencil.test_mask],
    [.glStencilOp self.stencil.action_stencil_fail self.stencil.action_depth_fail
      self.stencil.action_depth_pass],
    -- Stencil mask
    [.glStencilMask self.stencil.write_mask]]

/-- Part of `Apply`, lines 138-167: blending and the logic op. -/
def OpenGLState.Apply.blending {nTex nClip : Nat} (env : Env)
    (self cur_state : OpenGLState nTex nClip) : List GLCall :=
  List.flatten [
    -- Blending
    if self.blend.enabled ≠ cur_state.blend.enabled then
      List.flatten [
        if self.blend.enabled then [.glEnable GL_BLEND] else [.glDisable GL_BLEND],
        -- GLES does not support glLogicOp
        if !env.GLES then
          (if self.blend.enabled then [.glDisable GL_COLOR_LOGIC_OP]
           else [.glEnable GL_COLOR_LOGIC_OP])
        else []]
    else [],
    [.glBlendColor self.blend.color.red self.blend.color.green self.blend.color.blue
      self.blend.color.alpha],
    [.glBlendFuncSeparate self.blend.src_rgb_func self.blend.dst_rgb_func
      self.blend.src_a_func self.blend.dst_a_func],
    [.glBlendEquationSeparate self.blend.rgb_equation self.blend.a_equation],
    -- GLES does not support glLogicOp
    if !env.GLES then
      (if self.logic_op ≠ cur_state.logic_op then [.glLogicOp self.logic_op] else [])
    else []]

/-- Part of `Apply`, lines 169-205: the texture units, the cube unit and the texture
buffer LUTs. -/
def OpenGLState.Apply.textures {nTex nClip : Nat} (env : Env)
    (self cur_state : OpenGLState nTex nClip) : List GLCall :=
  List.flatten [
    -- Textures
    (List.finRange nTex).foldl (fun (tr : List GLCall) i => tr ++ List.flatten [
      if (self.texture_units i).texture_2d ≠ (cur_state.texture_units i).texture_2d then
        [.glActiveTexture (env.PicaTexture i.val).Enum,
         .glBindTexture GL_TEXTURE_2D (self.texture_units i).texture_2d]
      else [],
      if (self.texture_units i).sampler ≠ (cur_state.texture_units i).sampler then
        [.glBindSampler i.val (self.texture_units i).sampler]
      else []]) [],
    if self.texture_cube_unit.texture_cube ≠ cur_state.texture_cube_unit.texture_cube then
      [.glActiveTexture env.TextureCube.Enum,
       .glBindTexture GL_TEXTURE_CUBE_MAP self.texture_cube_unit.texture_cube]
    else [],
    if self.texture_cube_unit.sampler ≠ cur_state.texture_cube_unit.sampler then
      [.glBindSampler env.TextureCube.id self.texture_cube_unit.sampler]
    else [],
    -- Texture buffer LUTs
    if self.texture_buffer_lut_lf.texture_buffer ≠ cur_state.texture_buffer_lut_lf.texture_buffer
    then
      [.glActiveTexture env.TextureBufferLUT_LF.Enum,
       .glBindTexture GL_TEXTURE_BUFFER self.texture_buffer_lut_lf.texture_buffer]
    else [],
    if self.texture_buffer_lut_rg.texture_buffer ≠ cur_state.texture_buffer_lut_rg.texture_buffer
    then
      [.glActiveTexture env.TextureBufferLUT_RG.Enum,
       .glBindTexture GL_TEXTURE_BUFFER self.texture_buffer_lut_rg.texture_buffer]
    else [],
    if self.texture_buffer_lut_rgba.texture_buffer ≠
        cur_state.texture_buffer_lut_rgba.texture_buffer then
      [.glActiveTexture env.TextureBufferLUT_RGBA.Enum,
       .glBindTexture GL_TEXTURE_BUFFER self.texture_buffer_lut_rgba.texture_buffer]
    else []]

/-- Part of `Apply`, lines 207-243: the shadow images. -/
def OpenGLState.Apply.shadowImages {nTex nClip : Nat} (env : Env)
    (self cur_state : OpenGLState nTex nClip) : List GLCall :=
  -- Shadow Images
  if env.AllowShadow then
    List.flatten [
      if self.image_shadow_buffer ≠ cur_state.image_shadow_buffer then
        [.glBindImageTexture env.ShadowBuffer self.image_shadow_buffer 0 GL_FALSE 0
          GL_READ_WRITE GL_R32UI]
      else [],
      if self.image_shadow_texture_px ≠ cur_state.image_shadow_texture_px then
        [.glBindImageTexture env.ShadowTexturePX self.image_shadow_texture_px 0 GL_FALSE 0
          GL_READ_ONLY GL_R32UI]
      else [],
      if self.image_shadow_texture_nx ≠ cur_state.image_shadow_texture_nx then
        [.glBindImageTexture env.ShadowTextureNX self.image_shadow_texture_nx 0 GL_FALSE 0
          GL_READ_ONLY GL_R32UI]
      else [],
      if self.image_shadow_texture_py ≠ cur_state.image_shadow_texture_py then
        [.glBindImageTexture env.ShadowTexturePY self.image_shadow_texture_py 0 GL_FALSE 0
          GL_READ_ONLY GL_R32UI]
      else [],
      if self.image_shadow_texture_ny ≠ cur_state.image_shadow_texture_ny then
        [.glBindImageTexture env.ShadowTextureNY self.image_shadow_texture_ny 0 GL_FALSE 0
          GL_READ_ONLY GL_R32UI]
      else [],
      if self.image_shadow_texture_pz ≠ cur_state.image_shadow_texture_pz then
        [.glBindImageTexture env.ShadowTexturePZ self.image_shadow_texture_pz 0 GL_FALSE 0
          GL_READ_ONLY GL_R32UI]
      else [],
      if self.image_shadow_texture_nz ≠ cur_state.image_shadow_texture_nz then
        [.glBindImageTexture env.ShadowTextureNZ self.image_shadow_texture_nz 0 GL_FALSE 0
          GL_READ_ONLY GL_R32UI]
      else []]
  else []

/-- Part of `Apply`, lines 245-276: framebuffers, vertex array, vertex buffer, uniform
buffer, shader program and program pipeline. -/
def OpenGLState.Apply.drawBindings {nTex nClip : Nat}
    (self cur_state : OpenGLState nTex nClip) : List GLCall :=
  List.flatten [
    -- Framebuffer
    if self.draw.read_framebuffer ≠ cur_state.draw.read_framebuffer then
      [.glBindFramebuffer GL_READ_FRAMEBUFFER self.draw.read_framebuffer]
    else [],
    if self.draw.draw_framebuffer ≠ cur_state.draw.draw_framebuffer then
      [.glBindFramebuffer GL_DRAW_FRAMEBUFFER self.draw.draw_framebuffer]
    else [],
    -- Vertex array
    if self.draw.vertex_array ≠ cur_state.draw.vertex_array then
      [.glBindVertexArray self.draw.vertex_array]
    else [],
    -- Vertex buffer
    if self.draw.vertex_buffer ≠ cur_state.draw.vertex_buffer then
      [.glBindBuffer GL_ARRAY_BUFFER self.draw.vertex_buffer]
    else [],
    -- Uniform buffer
    if self.draw.uniform_buffer ≠ cur_state.draw.uniform_buffer then
      [.glBindBuffer GL_UNIFORM_BUFFER self.draw.uniform_buffer]
    else [],
    -- Shader program
    if self.draw.shader_program ≠ cur_state.draw.shader_program then
      [.glUseProgram self.draw.shader_program]
    else [],
    -- Program pipeline
    if self.draw.program_pipeline ≠ cur_state.draw.program_pipeline then
      [.glBindProgramPipeline self.draw.program_pipeline]
    else []]

/-- Part of `Apply`, lines 278-287: scissor test, scissor rectangle and viewport. -/
def OpenGLState.Apply.scissorViewport {nTex nClip : Nat} (self : OpenGLState nTex nClip) :
    List GLCall :=
  List.flatten [
    -- Scissor test
    if self.scissor.enabled then [.glEnable GL_SCISSOR_TEST] else [.glDisable GL_SCISSOR_TEST],
    [.glScissor self.scissor.x self.scissor.y self.scissor.width self.scissor.height],
    [.glViewport self.viewport.x self.viewport.y self.viewport.width self.viewport.height]]

/-- Part of `Apply`, lines 289-300: the clip distances. -/
def OpenGLState.Apply.clipDistances {nTex nClip : Nat} (env : Env)
    (self cur_state : OpenGLState nTex nClip) : List GLCall :=
  -- Clip distance
  if !env.GLES || env.GLAD_GL_EXT_clip_cull_distance then
    (List.finRange nClip).foldl (fun (tr : List GLCall) i => tr ++
      (if self.clip_distance i ≠ cur_state.clip_distance i then
        (if self.clip_distance i then [.glEnable (GL_CLIP_DISTANCE0 + i.val)]
         else [.glDisable (GL_CLIP_DISTANCE0 + i.val)])
       else [])) []
  else []

/-- The function `OpenGLState::Apply() const`: the statements of lines 97-300 in order, then
`cur_state = *this`. -/
def OpenGLState.Apply {nTex nClip : Nat} (env : Env) (self cur_state : OpenGLState nTex nClip) :
    OpenGLState nTex nClip × List GLCall :=
  -- the pair of `*this`, assigned to `cur_state` by the last statement, and the calls
  (self,
   List.flatten [
    OpenGLState.Apply.rasterizer self,
    OpenGLState.Apply.blending env self cur_state,
    OpenGLState.Apply.textures env self cur_state,
    OpenGLState.Apply.shadowImages env self cur_state,
    OpenGLState.Apply.drawBindings self cur_state,
    OpenGLState.Apply.scissorViewport self,
    OpenGLState.Apply.clipDistances env self cur_state])

/-- The function `OpenGLState::SubApply() const`. -/
def OpenGLState.SubApply {nTex nClip : Nat} (self cur_state : OpenGLState nTex nClip) :
    OpenGLState nTex nClip × List GLCall :=
  -- the pair of `*this`, assigned to `cur_state` by the last statement, and the calls
  (self,
   List.flatten [
    -- Depth mask
    [.glDepthMask self.depth.write_mask],
    -- Stencil mask
    [.glStencilMask self.stencil.write_mask],
    -- Color mask
    [.glColorMask self.color_mask.red_enabled self.color_mask.green_enabled
      self.color_mask.blue_enabled self.color_mask.alpha_enabled],
    -- Framebuffer
    if self.draw.read_framebuffer ≠ cur_state.draw.read_framebuffer then
      [.glBindFramebuffer GL_READ_FRAMEBUFFER self.draw.read_framebuffer]
    else [],
    if self.draw.draw_framebuffer ≠ cur_state.draw.draw_framebuffer then
      [.glBindFramebuffer GL_DRAW_FRAMEBUFFER self.draw.draw_framebuffer]
    else [],
    -- Scissor test
    if self.scissor.enabled then [.glEnable GL_SCISSOR_TEST] else [.glDisable GL_SCISSOR_TEST],
    [.glScissor self.scissor.x self.scissor.y self.scissor.width self.scissor.height],
    [.glViewport self.viewport.x self.viewport.y self.viewport.width self.viewport.height]])

/-! ## The binding helpers

Each takes the shadow before the call and returns the value the function
returns, the shadow after the call and the device calls issued. -/

/-- The function `OpenGLState::BindVertexArray`. -/
def OpenGLState.BindVertexArray {nTex nClip : Nat} (array : GLuint)
    (cur_state : OpenGLState nTex nClip) : GLuint × OpenGLState nTex nClip × List GLCall :=
  let previous := cur_state.draw.vertex_array
  let tr : List GLCall := [.glBindVertexArray array]
  let cur_state := { cur_state with draw := { cur_state.draw with vertex_array := array } }
  (previous, cur_state, tr)

/-- The function `OpenGLState::BindUniformBuffer`. -/
def OpenGLState.BindUniformBuffer {nTex nClip : Nat} (buffer : GLuint)
    (cur_state : OpenGLState nTex nClip) : GLuint × OpenGLState nTex nClip × List GLCall :=
  let previous := cur_state.draw.uniform_buffer
  let tr : List GLCall := [.glBindBuffer GL_UNIFORM_BUFFER buffer]
  let cur_state := { cur_state with draw := { cur_state.draw with uniform_buffer := buffer } }
  (previous, cur_state, tr)

/-- The function `OpenGLState::BindTexture2D`; `index` ranges over the elements of
`texture_units`. -/
def OpenGLState.BindTexture2D {nTex nClip : Nat} (env : Env) (index : Fin nTex)
    (texture : GLuint) (cur_state : OpenGLState nTex nClip) :
    GLuint × OpenGLState nTex nClip × List GLCall :=
  let previous := (cur_state.texture_units index).texture_2d
  let tr : List GLCall :=
    [.glActiveTexture (env.PicaTexture index.val).Enum, .glBindTexture GL_TEXTURE_2D texture]
  let cur_state :=
    { cur_state with
      texture_units := Function.update cur_state.texture_units index
        { cur_state.texture_units index with texture_2d := texture } }
  (previous, cur_state, tr)

/-- The function `OpenGLState::BindSampler`; `index` ranges over the elements of
`texture_units`. -/
def OpenGLState.BindSampler {nTex nClip : Nat} (index : Fin nTex) (sampler : GLuint)
    (cur_state : OpenGLState nTex nClip) : GLuint × OpenGLState nTex nClip × List GLCall :=
  let previous := (cur_state.texture_units index).sampler
  let tr : List GLCall := [.glBindSampler index.val sampler]
  let cur_state :=
    { cur_state with
      texture_units := Function.update cur_state.texture_units index
        { cur_state.texture_units index with sampler := sampler } }
  (previous, cur_state, tr)

/-- The function `OpenGLState::BindTextureCube`. -/
def OpenGLState.BindTextureCube {nTex nClip : Nat} (env : Env) (texture_cube : GLuint)
    (cur_state : OpenGLState nTex nClip) : GLuint × OpenGLState nTex nClip × List GLCall :=
  let previous := cur_state.texture_cube_unit.texture_cube
  let tr : List GLCall :=
    [.glActiveTexture env.TextureCube.Enum, .glBindTexture GL_TEXTURE_CUBE_MAP texture_cube]
  let cur_state :=
    { cur_state with
      texture_cube_unit := { cur_state.texture_cube_unit with texture_cube := texture_cube } }
  (previous, cur_state, tr)

/-- The function `OpenGLState::BindReadFramebuffer`. -/
def OpenGLState.BindReadFramebuffer {nTex nClip : Nat} (framebuffer : GLuint)
    (cur_state : OpenGLState nTex nClip) : GLuint × OpenGLState nTex nClip × List GLCall :=
  let previous := cur_state.draw.read_framebuffer
  let tr : List GLCall := [.glBindFramebuffer GL_READ_FRAMEBUFFER framebuffer]
  let cur_state :=
    { cur_state with draw := { cur_state.draw with read_framebuffer := framebuffer } }
  (previous, cur_state, tr)

/-- The function `OpenGLState::BindDrawFramebuffer`. -/
def OpenGLState.BindDrawFramebuffer {nTex nClip : Nat} (framebuffer : GLuint)
    (cur_state : OpenGLState nTex nClip) : GLuint × OpenGLState nTex nClip × List GLCall :=
  let previous := cur_state.draw.draw_framebuffer
  if previous ≠ framebuffer then
    let tr : List GLCall := [.glBindFramebuffer GL_DRAW_FRAMEBUFFER framebuffer]
    let cur_state :=
      { cur_state with draw := { cur_state.draw with draw_framebuffer := framebuffer } }
    (previous, cur_state, tr)
  else
    (previous, cur_state, [])

/-- The function `OpenGLState::BindShaderProgram`. -/
def OpenGLState.BindShaderProgram {nTex nClip : Nat} (program : GLuint)
    (cur_state : OpenGLState nTex nClip) : GLuint × OpenGLState nTex nClip × List GLCall :=
  let previous := cur_state.draw.shader_program
  let tr : List GLCall := [.glUseProgram program]
  let cur_state := { cur_state with draw := { cur_state.draw with shader_program := program } }
  (previous, cur_state, tr)

/-! ## The invalidation hooks

A hook threads the pair of the shadow and the calls issued so far through its
statements. -/

/-- Part of `ResetTexture`, lines 399-405: the loop over the texture units. -/
def OpenGLState.ResetTexture.units {nTex nClip : Nat} (env : Env) (handle : GLuint)
    (st : OpenGLState nTex nClip × List GLCall) : OpenGLState nTex nClip × List GLCall :=
  (List.finRange nTex).foldl (fun (st : OpenGLState nTex nClip × List GLCall) i =>
    if (st.1.texture_units i).texture_2d = handle then
      ({ st.1 with
          texture_units := Function.update st.1.texture_units i
            { st.1.texture_units i with texture_2d := 0 } },
       st.2 ++ [.glActiveTexture (env.PicaTexture i.val).Enum, .glBindTexture GL_TEXTURE_2D 0])
    else st) st

/-- Part of `ResetTexture`, lines 407-411: the cube unit. -/
def OpenGLState.ResetTexture.cube {nTex nClip : Nat} (env : Env) (handle : GLuint)
    (st : OpenGLState nTex nClip × List GLCall) : OpenGLState nTex nClip × List GLCall :=
  if st.1.texture_cube_unit.texture_cube = handle then
    ({ st.1 with texture_cube_unit := { st.1.texture_cube_unit with texture_cube := 0 } },
     st.2 ++ [.glActiveTexture env.TextureCube.Enum, .glBindTexture GL_TEXTURE_CUBE_MAP 0])
  else st

/-- Part of `ResetTexture`, lines 414-448: the body of `if (AllowShadow)`. -/
def OpenGLState.ResetTexture.shadowImages {nTex nClip : Nat} (env : Env) (handle : GLuint)
    (st : OpenGLState nTex nClip × List GLCall) : OpenGLState nTex nClip × List GLCall :=
  let st : OpenGLState nTex nClip × List GLCall :=
    if st.1.image_shadow_buffer = handle then
      ({ st.1 with image_shadow_buffer := 0 },
       st.2 ++ [.glBindImageTexture env.ShadowBuffer 0 0 GL_FALSE 0 GL_READ_WRITE GL_R32UI])
    else st
  let st : OpenGLState nTex nClip × List GLCall :=
    if st.1.image_shadow_texture_px = handle then
      ({ st.1 with image_shadow_texture_px := 0 },
       st.2 ++ [.glBindImageTexture env.ShadowTexturePX 0 0 GL_FALSE 0 GL_READ_ONLY GL_R32UI])
    else st
  let st : OpenGLState nTex nClip × List GLCall :=
    if st.1.image_shadow_texture_nx = handle then
      ({ st.1 with image_shadow_texture_nx := 0 },
       st.2 ++ [.glBindImageTexture env.ShadowTextureNX 0 0 GL_FALSE 0 GL_READ_ONLY GL_R32UI])
    else st
  let st : OpenGLState nTex nClip × List GLCall :=
    if st.1.image_shadow_texture_py = handle then
      ({ st.1 with image_shadow_texture_py := 0 },
       st.2 ++ [.glBindImageTexture env.ShadowTexturePY 0 0 GL_FALSE 0 GL_READ_ONLY GL_R32UI])
    else st
  let st : OpenGLState nTex nClip × List GLCall :=
    if st.1.image_shadow_texture_ny = handle then
      ({ st.1 with image_shadow_texture_ny := 0 },
       st.2 ++ [.glBindImageTexture env.ShadowTextureNY 0 0 GL_FALSE 0 GL_READ_ONLY GL_R32UI])
    else st
  let st : OpenGLState nTex nClip × List GLCall :=
    if st.1.image_shadow_texture_pz = handle then
      ({ st.1 with image_shadow_texture_pz := 0 },
       st.2 ++ [.glBindImageTexture env.ShadowTexturePZ 0 0 GL_FALSE 0 GL_READ_ONLY GL_R32UI])
    else st
  let st : OpenGLState nTex nClip × List GLCall :=
    if st.1.image_shadow_texture_nz = handle then
      ({ st.1 with image_shadow_texture_nz := 0 },
       st.2 ++ [.glBindImageTexture env.ShadowTextureNZ 0 0 GL_FALSE 0 GL_READ_ONLY GL_R32UI])
    else st
  st

/-- The function `OpenGLState::ResetTexture`. -/
def OpenGLState.ResetTexture {nTex nClip : Nat} (env : Env) (handle : GLuint)
    (cur_state : OpenGLState nTex nClip) : OpenGLState nTex nClip × List GLCall :=
  let st := OpenGLState.ResetTexture.units env handle (cur_state, [])
  let st := OpenGLState.ResetTexture.cube env handle st
  let st := if env.AllowShadow then OpenGLState.ResetTexture.shadowImages env handle st else st
  st

/-- Part of `ResetSampler`, lines 453-458: the loop over the texture units. -/
def OpenGLState.ResetSampler.units {nTex nClip : Nat} (handle : GLuint)
    (st : OpenGLState nTex nClip × List GLCall) : OpenGLState nTex nClip × List GLCall :=
  (List.finRange nTex).foldl (fun (st : OpenGLState nTex nClip × List GLCall) i =>
    if (st.1.texture_units i).sampler = handle then
      ({ st.1 with
          texture_units := Function.update st.1.texture_units i
            { st.1.texture_units i with sampler := 0 } },
       st.2 ++ [.glBindSampler i.val 0])
    else st) st

/-- The function `OpenGLState::ResetSampler`. -/
def OpenGLState.ResetSampler {nTex nClip : Nat} (env : Env) (handle : GLuint)
    (cur_state : OpenGLState nTex nClip) : OpenGLState nTex nClip × List GLCall :=
  let st := OpenGLState.ResetSampler.units handle (cur_state, [])
  let st : OpenGLState nTex nClip × List GLCall :=
    if st.1.texture_cube_unit.sampler = handle then
      ({ st.1 with texture_cube_unit := { st.1.texture_cube_unit with sampler := 0 } },
       st.2 ++ [.glBindSampler env.TextureCube.id 0])
    else st
  st

/-- The function `OpenGLState::ResetProgram`. -/
def OpenGLState.ResetProgram {nTex nClip : Nat} (handle : GLuint)
    (cur_state : OpenGLState nTex nClip) : OpenGLState nTex nClip × List GLCall :=
  if cur_state.draw.shader_program = handle then
    ({ cur_state with draw := { cur_state.draw with shader_program := 0 } }, [.glUseProgram 0])
  else (cur_state, [])

/-- The function `OpenGLState::ResetPipeline`. -/
def OpenGLState.ResetPipeline {nTex nClip : Nat} (handle : GLuint)
    (cur_state : OpenGLState nTex nClip) : OpenGLState nTex nClip × List GLCall :=
  if cur_state.draw.program_pipeline = handle then
    ({ cur_state with draw := { cur_state.draw with program_pipeline := 0 } },
     [.glBindProgramPipeline 0])
  else (cur_state, [])

/-- The function `OpenGLState::ResetBuffer`. -/
def OpenGLState.ResetBuffer {nTex nClip : Nat} (handle : GLuint)
    (cur_state : OpenGLState nTex nClip) : OpenGLState nTex nClip × List GLCall :=
  let st : OpenGLState nTex nClip × List GLCall := (cur_state, [])
  let st : OpenGLState nTex nClip × List GLCall :=
    if st.1.draw.vertex_buffer = handle then
      ({ st.1 with draw := { st.1.draw with vertex_buffer := 0 } },
       st.2 ++ [.glBindBuffer GL_ARRAY_BUFFER 0])
    else st
  let st : OpenGLState nTex nClip × List GLCall :=
    if st.1.draw.uniform_buffer = handle then
      ({ st.1 with draw := { st.1.draw with uniform_buffer := 0 } },
       st.2 ++ [.glBindBuffer GL_UNIFORM_BUFFER 0])
    else st
  st

/-- The function `OpenGLState::ResetVertexArray`. -/
def OpenGLState.ResetVertexArray {nTex nClip : Nat} (handle : GLuint)
    (cur_state : OpenGLState nTex nClip) : OpenGLState nTex nClip × List GLCall :=
  if cur_state.draw.vertex_array = handle then
    ({ cur_state with draw := { cur_state.draw with vertex_array := 0 } },
     [.glBindVertexArray 0])
  else (cur_state, [])

/-- The function `OpenGLState::ResetFramebuffer`. -/
def OpenGLState.ResetFramebuffer {nTex nClip : Nat} (handle : GLuint)
    (cur_state : OpenGLState nTex nClip) : OpenGLState nTex nClip × List GLCall :=
  let st : OpenGLState nTex nClip × List GLCall := (cur_state, [])
  let st : OpenGLState nTex nClip × List GLCall :=
    if st.1.draw.read_framebuffer = handle then
      ({ st.1 with draw := { st.1.draw with read_framebuffer := 0 } },
       st.2 ++ [.glBindFramebuffer GL_READ_FRAMEBUFFER 0])
    else st
  let st : OpenGLState nTex nClip × List GLCall :=
    if st.1.draw.draw_framebuffer = handle then
      ({ st.1 with draw := { st.1.draw with draw_framebuffer := 0 } },
       st.2 ++ [.glBindFramebuffer GL_DRAW_FRAMEBUFFER 0])
    else st
  st

/-! ## A sample environment and sample states -/

/-- A desktop environment with three texture units in use by the fragment
shader emulation, the shadow-image capability and a sample unit table. -/
def sampleEnv : Env where
  GLES := false
  AllowShadow := true
  GLAD_GL_EXT_clip_cull_distance := false
  PicaTexture := fun unit => { id := unit, Enum := GL_TEXTURE0 + unit }
  TextureCube := { id := 6, Enum := GL_TEXTURE0 + 6 }
  TextureBufferLUT_LF := { id := 3, Enum := GL_TEXTURE0 + 3 }
  TextureBufferLUT_RG := { id := 4, Enum := GL_TEXTURE0 + 4 }
  TextureBufferLUT_RGBA := { id := 5, Enum := GL_TEXTURE0 + 5 }
  ShadowBuffer := 0
  ShadowTexturePX := 1
  ShadowTextureNX := 2
  ShadowTexturePY := 3
  ShadowTextureNY := 4
  ShadowTexturePZ := 5
  ShadowTextureNZ := 6

/-- A descriptor as the constructor leaves it, with three texture units and two
clip distances, the member the constructor does not assign being 0. -/
def sampleState : OpenGLState 3 2 := OpenGLState.ctor 3 2 { texture_buffer := 0 }

/-- The sample descriptor with shader program 7 instead of 0, all else equal. -/
def sampleProgram7 : OpenGLState 3 2 :=
  { sampleState with draw := { sampleState.draw with shader_program := 7 } }

/-- A shadow in which texture unit 1, the cube unit and the +X shadow image
hold the handle 5 and texture unit 2 holds the handle 9. -/
def sampleTextures : OpenGLState 3 2 :=
  { sampleState with
    texture_units := fun i =>
      if i = 1 then { texture_2d := 5, sampler := 0 }
      else if i = 2 then { texture_2d := 9, sampler := 0 }
      else { texture_2d := 0, sampler := 0 }
    texture_cube_unit := { texture_cube := 5, sampler := 0 }
    image_shadow_texture_px := 5 }

/-- A shadow with read framebuffer 5 and draw framebuffer 9. -/
def sampleFramebuffers : OpenGLState 3 2 :=
  { sampleState with draw := { sampleState.draw with read_framebuffer := 5, draw_framebuffer := 9 } }

/-! ## Vocabulary for the statements about traces -/

/-- The calls `Apply` issues on every invocation, whatever the shadow holds, in
the order of issue, with the values of the descriptor `D`: the four enable
toggles (face culling, depth test, stencil test, scissor test) and the thirteen
parameter calls. -/
def unconditionalCalls {nTex nClip : Nat} (D : OpenGLState nTex nClip) : List GLCall :=
  (if D.cull.enabled then [.glEnable GL_CULL_FACE] else [.glDisable GL_CULL_FACE]) ++
  [.glCullFace D.cull.mode, .glFrontFace D.cull.front_face] ++
  (if D.depth.test_enabled then [.glEnable GL_DEPTH_TEST] else [.glDisable GL_DEPTH_TEST]) ++
  [.glDepthFunc D.depth.test_func, .glDepthMask D.depth.write_mask,
   .glColorMask D.color_mask.red_enabled D.color_mask.green_enabled D.color_mask.blue_enabled
     D.color_mask.alpha_enabled] ++
  (if D.stencil.test_enabled then [.glEnable GL_STENCIL_TEST]
   else [.glDisable GL_STENCIL_TEST]) ++
  [.glStencilFunc D.stencil.test_func D.stencil.test_ref D.stencil.test_mask,
   .glStencilOp D.stencil.action_stencil_fail D.stencil.action_depth_fail
     D.stencil.action_depth_pass,
   .glStencilMask D.stencil.write_mask,
   .glBlendColor D.blend.color.red D.blend.color.green D.blend.color.blue D.blend.color.alpha,
   .glBlendFuncSeparate D.blend.src_rgb_func D.blend.dst_rgb_func D.blend.src_a_func
     D.blend.dst_a_func,
   .glBlendEquationSeparate D.blend.rgb_equation D.blend.a_equation] ++
  (if D.scissor.enabled then [.glEnable GL_SCISSOR_TEST] else [.glDisable GL_SCISSOR_TEST]) ++
  [.glScissor D.scissor.x D.scissor.y D.scissor.width D.scissor.height,
   .glViewport D.viewport.x D.viewport.y D.viewport.width D.viewport.height]

/-- The thirteen parameter calls of the unconditional group, in the order of
issue, with the values of the descriptor `D`. -/
def parameterCalls {nTex nClip : Nat} (D : OpenGLState nTex nClip) : List GLCall :=
  [.glCullFace D.cull.mode,
   .glFrontFace D.cull.front_face,
   .glDepthFunc D.depth.test_func,
   .glDepthMask D.depth.write_mask,
   .glColorMask D.color_mask.red_enabled D.color_mask.green_enabled D.color_mask.blue_enabled
     D.color_mask.alpha_enabled,
   .glStencilFunc D.stencil.test_func D.stencil.test_ref D.stencil.test_mask,
   .glStencilOp D.stencil.action_stencil_fail D.stencil.action_depth_fail
     D.stencil.action_depth_pass,
   .glStencilMask D.stencil.write_mask,
   .glBlendColor D.blend.color.red D.blend.color.green D.blend.color.blue D.blend.color.alpha,
   .glBlendFuncSeparate D.blend.src_rgb_func D.blend.dst_rgb_func D.blend.src_a_func
     D.blend.dst_a_func,
   .glBlendEquationSeparate D.blend.rgb_equation D.blend.a_equation,
   .glScissor D.scissor.x D.scissor.y D.scissor.width D.scissor.height,
   .glViewport D.viewport.x D.viewport.y D.viewport.width D.viewport.height]

/-- A call that sets one of the thirteen parameters: cull mode, front face,
depth function, depth write-mask, color write-mask, stencil function, stencil
op, stencil write-mask, blend color, blend func, blend equation, scissor
rectangle, viewport rectangle. -/
def GLCall.isParameterCall : GLCall → Bool
  | .glCullFace _ => true
  | .glFrontFace _ => true
  | .glDepthFunc _ => true
  | .glDepthMask _ => true
  | .glColorMask _ _ _ _ => true
  | .glStencilFunc _ _ _ => true
  | .glStencilOp _ _ _ => true
  | .glStencilMask _ => true
  | .glBlendColor _ _ _ _ => true
  | .glBlendFuncSeparate _ _ _ _ => true
  | .glBlendEquationSeparate _ _ => true
  | .glScissor _ _ _ _ => true
  | .glViewport _ _ _ _ => true
  | _ => false

/-- A call within the scope of `SubApply`: a depth, stencil or color
write-mask, a framebuffer bind, the scissor-test toggle, the scissor rectangle
or the viewport. -/
def GLCall.inSubApplyScope : GLCall → Bool
  | .glDepthMask _ => true
  | .glStencilMask _ => true
  | .glColorMask _ _ _ _ => true
  | .glBindFramebuffer _ _ => true
  | .glEnable cap => cap == GL_SCISSOR_TEST
  | .glDisable cap => cap == GL_SCISSOR_TEST
  | .glScissor _ _ _ _ => true
  | .glViewport _ _ _ _ => true
  | _ => false

/-- The fields of a descriptor that `Apply` compares with the shadow before it
issues their device call. -/
inductive DiffedField (nTex nClip : Nat) where
  | blend_enabled
  | logic_op
  | texture_2d (i : Fin nTex)
  | sampler (i : Fin nTex)
  | texture_cube
  | texture_cube_sampler
  | texture_buffer_lut_lf
  | texture_buffer_lut_rg
  | texture_buffer_lut_rgba
  | image_shadow_buffer
  | image_shadow_texture_px
  | image_shadow_texture_nx
  | image_shadow_texture_py
  | image_shadow_texture_ny
  | image_shadow_texture_pz
  | image_shadow_texture_nz
  | read_framebuffer
  | draw_framebuffer
  | vertex_array
  | vertex_buffer
  | uniform_buffer
  | shader_program
  | program_pipeline
  | clip_distance (i : Fin nClip)
  deriving DecidableEq

/-- Whether the descriptors `A` and `B` hold different values in the field. -/
def DiffedField.differs {nTex nClip : Nat} (A B : OpenGLState nTex nClip) :
    DiffedField nTex nClip → Bool
  | .blend_enabled => decide (A.blend.enabled ≠ B.blend.enabled)
  | .logic_op => decide (A.logic_op ≠ B.logic_op)
  | .texture_2d i => decide ((A.texture_units i).texture_2d ≠ (B.texture_units i).texture_2d)
  | .sampler i => decide ((A.texture_units i).sampler ≠ (B.texture_units i).sampler)
  | .texture_cube =>
      decide (A.texture_cube_unit.texture_cube ≠ B.texture_cube_unit.texture_cube)
  | .texture_cube_sampler => decide (A.texture_cube_unit.sampler ≠ B.texture_cube_unit.sampler)
  | .texture_buffer_lut_lf =>
      decide (A.texture_buffer_lut_lf.texture_buffer ≠ B.texture_buffer_lut_lf.texture_buffer)
  | .texture_buffer_lut_rg =>
      decide (A.texture_buffer_lut_rg.texture_buffer ≠ B.texture_buffer_lut_rg.texture_buffer)
  | .texture_buffer_lut_rgba =>
      decide (A.texture_buffer_lut_rgba.texture_buffer ≠
        B.texture_buffer_lut_rgba.texture_buffer)
  | .image_shadow_buffer => decide (A.image_shadow_buffer ≠ B.image_shadow_buffer)
  | .image_shadow_texture_px => decide (A.image_shadow_texture_px ≠ B.image_shadow_texture_px)
  | .image_shadow_texture_nx => decide (A.image_shadow_texture_nx ≠ B.image_shadow_texture_nx)
  | .image_shadow_texture_py => decide (A.image_shadow_texture_py ≠ B.image_shadow_texture_py)
  | .image_shadow_texture_ny => decide (A.image_shadow_texture_ny ≠ B.image_shadow_texture_ny)
  | .image_shadow_texture_pz => decide (A.image_shadow_texture_pz ≠ B.image_shadow_texture_pz)
  | .image_shadow_texture_nz => decide (A.image_shadow_texture_nz ≠ B.image_shadow_texture_nz)
  | .read_framebuffer => decide (A.draw.read_framebuffer ≠ B.draw.read_framebuffer)
  | .draw_framebuffer => decide (A.draw.draw_framebuffer ≠ B.draw.draw_framebuffer)
  | .vertex_array => decide (A.draw.vertex_array ≠ B.draw.vertex_array)
  | .vertex_buffer => decide (A.draw.vertex_buffer ≠ B.draw.vertex_buffer)
  | .uniform_buffer => decide (A.draw.uniform_buffer ≠ B.draw.uniform_buffer)
  | .shader_program => decide (A.draw.shader_program ≠ B.draw.shader_program)
  | .program_pipeline => decide (A.draw.program_pipeline ≠ B.draw.program_pipeline)
  | .clip_distance i => decide (A.clip_distance i ≠ B.clip_distance i)

/-- The device calls that bring the field to the value it has in `D`, under the
capabilities of `env`: none for the logic op on GLES, for a shadow image
without `AllowShadow`, and for a clip distance on GLES without the
clip-distance extension. -/
def DiffedField.calls {nTex nClip : Nat} (env : Env) (D : OpenGLState nTex nClip) :
    DiffedField nTex nClip → List GLCall
  | .blend_enabled =>
      (if D.blend.enabled then [.glEnable GL_BLEND] else [.glDisable GL_BLEND]) ++
      (if !env.GLES then
        (if D.blend.enabled then [.glDisable GL_COLOR_LOGIC_OP]
         else [.glEnable GL_COLOR_LOGIC_OP])
       else [])
  | .logic_op => if !env.GLES then [.glLogicOp D.logic_op] else []
  | .texture_2d i =>
      [.glActiveTexture (env.PicaTexture i.val).Enum,
       .glBindTexture GL_TEXTURE_2D (D.texture_units i).texture_2d]
  | .sampler i => [.glBindSampler i.val (D.texture_units i).sampler]
  | .texture_cube =>
      [.glActiveTexture env.TextureCube.Enum,
       .glBindTexture GL_TEXTURE_CUBE_MAP D.texture_cube_unit.texture_cube]
  | .texture_cube_sampler => [.glBindSampler env.TextureCube.id D.texture_cube_unit.sampler]
  | .texture_buffer_lut_lf =>
      [.glActiveTexture env.TextureBufferLUT_LF.Enum,
       .glBindTexture GL_TEXTURE_BUFFER D.texture_buffer_lut_lf.texture_buffer]
  | .texture_buffer_lut_rg =>
      [.glActiveTexture env.TextureBufferLUT_RG.Enum,
       .glBindTexture GL_TEXTURE_BUFFER D.texture_buffer_lut_rg.texture_buffer]
  | .texture_buffer_lut_rgba =>
      [.glActiveTexture env.TextureBufferLUT_RGBA.Enum,
       .glBindTexture GL_TEXTURE_BUFFER D.texture_buffer_lut_rgba.texture_buffer]
  | .image_shadow_buffer =>
      if env.AllowShadow then
        [.glBindImageTexture env.ShadowBuffer D.image_shadow_buffer 0 GL_FALSE 0 GL_READ_WRITE
          GL_R32UI]
      else []
  | .image_shadow_texture_px =>
      if env.AllowShadow then
        [.glBindImageTexture env.ShadowTexturePX D.image_shadow_texture_px 0 GL_FALSE 0
          GL_READ_ONLY GL_R32UI]
      else []
  | .image_shadow_texture_nx =>
      if env.AllowShadow then
        [.glBindImageTexture env.ShadowTextureNX D.image_shadow_texture_nx 0 GL_FALSE 0
          GL_READ_ONLY GL_R32UI]
      else []
  | .image_shadow_texture_py =>
      if env.AllowShadow then
        [.glBindImageTexture env.ShadowTexturePY D.image_shadow_texture_py 0 GL_FALSE 0
          GL_READ_ONLY GL_R32UI]
      else []
  | .image_shadow_texture_ny =>
      if env.AllowShadow then
        [.glBindImageTexture env.ShadowTextureNY D.image_shadow_texture_ny 0 GL_FALSE 0
          GL_READ_ONLY GL_R32UI]
      else []
  | .image_shadow_texture_pz =>
      if env.AllowShadow then
        [.glBindImageTexture env.ShadowTexturePZ D.image_shadow_texture_pz 0 GL_FALSE 0
          GL_READ_ONLY GL_R32UI]
      else []
  | .image_shadow_texture_nz =>
      if env.AllowShadow then
        [.glBindImageTexture env.ShadowTextureNZ D.image_shadow_texture_nz 0 GL_FALSE 0
          GL_READ_ONLY GL_R32UI]
      else []
  | .read_framebuffer => [.glBindFramebuffer GL_READ_FRAMEBUFFER D.draw.read_framebuffer]
  | .draw_framebuffer => [.glBindFramebuffer GL_DRAW_FRAMEBUFFER D.draw.draw_framebuffer]
  | .vertex_array => [.glBindVertexArray D.draw.vertex_array]
  | .vertex_buffer => [.glBindBuffer GL_ARRAY_BUFFER D.draw.vertex_buffer]
  | .uniform_buffer => [.glBindBuffer GL_UNIFORM_BUFFER D.draw.uniform_buffer]
  | .shader_program => [.glUseProgram D.draw.shader_program]
  | .program_pipeline => [.glBindProgramPipeline D.draw.program_pipeline]
  | .clip_distance i =>
      if !env.GLES || env.GLAD_GL_EXT_clip_cull_distance then
        (if D.clip_distance i then [.glEnable (GL_CLIP_DISTANCE0 + i.val)]
         else [.glDisable (GL_CLIP_DISTANCE0 + i.val)])
      else []

/-- Whether the device of `env` has the state behind the field: the logic op
only off GLES, the shadow images only with `AllowShadow`, the clip distances
only off GLES or with the clip-distance extension. -/
def DiffedField.capable {nTex nClip : Nat} (env : Env) : DiffedField nTex nClip → Bool
  | .logic_op => !env.GLES
  | .image_shadow_buffer => env.AllowShadow
  | .image_shadow_texture_px => env.AllowShadow
  | .image_shadow_texture_nx => env.AllowShadow
  | .image_shadow_texture_py => env.AllowShadow
  | .image_shadow_texture_ny => env.AllowShadow
  | .image_shadow_texture_pz => env.AllowShadow
  | .image_shadow_texture_nz => env.AllowShadow
  | .clip_distance _ => !env.GLES || env.GLAD_GL_EXT_clip_cull_distance
  | _ => true

/-- The calls of a diffed field when the selection `d` holds of it, none
otherwise. -/
def DiffedField.issue {nTex nClip : Nat} (env : Env) (D : OpenGLState nTex nClip)
    (d : DiffedField nTex nClip → Bool) (F : DiffedField nTex nClip) : List GLCall :=
  if d F then F.calls env D else []

/-- The three blend parameter calls, with the values of the descriptor `D`. -/
def blendParameterCalls {nTex nClip : Nat} (D : OpenGLState nTex nClip) : List GLCall :=
  [.glBlendColor D.blend.color.red D.blend.color.green D.blend.color.blue D.blend.color.alpha,
   .glBlendFuncSeparate D.blend.src_rgb_func D.blend.dst_rgb_func D.blend.src_a_func
     D.blend.dst_a_func,
   .glBlendEquationSeparate D.blend.rgb_equation D.blend.a_equation]

/-- The emission sequence of `Apply` for the descriptor `D` when exactly the
diffed fields selected by `d` are issued: the unconditional calls, with the
calls of each selected field at the place of that field. -/
def emission {nTex nClip : Nat} (env : Env) (D : OpenGLState nTex nClip)
    (d : DiffedField nTex nClip → Bool) : List GLCall :=
  OpenGLState.Apply.rasterizer D ++
  DiffedField.issue env D d .blend_enabled ++
  blendParameterCalls D ++
  DiffedField.issue env D d .logic_op ++
  (List.finRange nTex).flatMap (fun i =>
    DiffedField.issue env D d (.texture_2d i) ++ DiffedField.issue env D d (.sampler i)) ++
  DiffedField.issue env D d .texture_cube ++
  DiffedField.issue env D d .texture_cube_sampler ++
  DiffedField.issue env D d .texture_buffer_lut_lf ++
  DiffedField.issue env D d .texture_buffer_lut_rg ++
  DiffedField.issue env D d .texture_buffer_lut_rgba ++
  DiffedField.issue env D d .image_shadow_buffer ++
  DiffedField.issue env D d .image_shadow_texture_px ++
  DiffedField.issue env D d .image_shadow_texture_nx ++
  DiffedField.issue env D d .image_shadow_texture_py ++
  DiffedField.issue env D d .image_shadow_texture_ny ++
  DiffedField.issue env D d .image_shadow_texture_pz ++
  DiffedField.issue env D d .image_shadow_texture_nz ++
  DiffedField.issue env D d .read_framebuffer ++
  DiffedField.issue env D d .draw_framebuffer ++
  DiffedField.issue env D d .vertex_array ++
  DiffedField.issue env D d .vertex_buffer ++
  DiffedField.issue env D d .uniform_buffer ++
  DiffedField.issue env D d .shader_program ++
  DiffedField.issue env D d .program_pipeline ++
  OpenGLState.Apply.scissorViewport D ++
  (List.finRange nClip).flatMap (fun i => DiffedField.issue env D d (.clip_distance i))

/-- The fields of a descriptor that `Apply` sends to the device: the seventeen
it sends on every call, and the diffed ones. -/
inductive AppliedField (nTex nClip : Nat) where
  | cull_enabled
  | cull_mode
  | cull_front_face
  | depth_test_enabled
  | depth_test_func
  | depth_write_mask
  | color_mask
  | stencil_test_enabled
  | stencil_test_func
  | stencil_action
  | stencil_write_mask
  | blend_color
  | blend_func
  | blend_equation
  | scissor_enabled
  | scissor_rect
  | viewport
  | diffed (F : DiffedField nTex nClip)
  deriving DecidableEq

/-- The device calls that bring the field to the value it has in `D`. -/
def AppliedField.calls {nTex nClip : Nat} (env : Env) (D : OpenGLState nTex nClip) :
    AppliedField nTex nClip → List GLCall
  | .cull_enabled =>
      if D.cull.enabled then [.glEnable GL_CULL_FACE] else [.glDisable GL_CULL_FACE]
  | .cull_mode => [.glCullFace D.cull.mode]
  | .cull_front_face => [.glFrontFace D.cull.front_face]
  | .depth_test_enabled =>
      if D.depth.test_enabled then [.glEnable GL_DEPTH_TEST] else [.glDisable GL_DEPTH_TEST]
  | .depth_test_func => [.glDepthFunc D.depth.test_func]
  | .depth_write_mask => [.glDepthMask D.depth.write_mask]
  | .color_mask =>
      [.glColorMask D.color_mask.red_enabled D.color_mask.green_enabled
        D.color_mask.blue_enabled D.color_mask.alpha_enabled]
  | .stencil_test_enabled =>
      if D.stencil.test_enabled then [.glEnable GL_STENCIL_TEST]
      else [.glDisable GL_STENCIL_TEST]
  | .stencil_test_func =>
      [.glStencilFunc D.stencil.test_func D.stencil.test_ref D.stencil.test_mask]
  | .stencil_action =>
      [.glStencilOp D.stencil.action_stencil_fail D.stencil.action_depth_fail
        D.stencil.action_depth_pass]
  | .stencil_write_mask => [.glStencilMask D.stencil.write_mask]
  | .blend_color =>
      [.glBlendColor D.blend.color.red D.blend.color.green D.blend.color.blue
        D.blend.color.alpha]
  | .blend_func =>
      [.glBlendFuncSeparate D.blend.src_rgb_func D.blend.dst_rgb_func D.blend.src_a_func
        D.blend.dst_a_func]
  | .blend_equation => [.glBlendEquationSeparate D.blend.rgb_equation D.blend.a_equation]
  | .scissor_enabled =>
      if D.scissor.enabled then [.glEnable GL_SCISSOR_TEST] else [.glDisable GL_SCISSOR_TEST]
  | .scissor_rect => [.glScissor D.scissor.x D.scissor.y D.scissor.width D.scissor.height]
  | .viewport => [.glViewport D.viewport.x D.viewport.y D.viewport.width D.viewport.height]
  | .diffed F => F.calls env D

/-- The place of a field in the emission order: cull and front face (0-2),
depth (3-4), the depth and color masks (5-6), stencil with its write mask
(7-10), blend enable and op (11-15), the texture units by increasing index, each
with its 2D texture before its sampler, the cube unit, the buffer LUTs (LF, RG,
RGBA), the shadow images (buffer, +X, -X, +Y, -Y, +Z, -Z), read framebuffer, draw
framebuffer, vertex array, vertex buffer, uniform buffer, shader program,
program pipeline, scissor, viewport, and the clip distances by increasing
index. -/
def AppliedField.rank {nTex nClip : Nat} : AppliedField nTex nClip → Nat
  | .cull_enabled => 0
  | .cull_mode => 1
  | .cull_front_face => 2
  | .depth_test_enabled => 3
  | .depth_test_func => 4
  | .depth_write_mask => 5
  | .color_mask => 6
  | .stencil_test_enabled => 7
  | .stencil_test_func => 8
  | .stencil_action => 9
  | .stencil_write_mask => 10
  | .diffed .blend_enabled => 11
  | .blend_color => 12
  | .blend_func => 13
  | .blend_equation => 14
  | .diffed .logic_op => 15
  | .diffed (.texture_2d i) => 16 + 2 * i.val
  | .diffed (.sampler i) => 17 + 2 * i.val
  | .diffed .texture_cube => 16 + 2 * nTex
  | .diffed .texture_cube_sampler => 17 + 2 * nTex
  | .diffed .texture_buffer_lut_lf => 18 + 2 * nTex
  | .diffed .texture_buffer_lut_rg => 19 + 2 * nTex
  | .diffed .texture_buffer_lut_rgba => 20 + 2 * nTex
  | .diffed .image_shadow_buffer => 21 + 2 * nTex
  | .diffed .image_shadow_texture_px => 22 + 2 * nTex
  | .diffed .image_shadow_texture_nx => 23 + 2 * nTex
  | .diffed .image_shadow_texture_py => 24 + 2 * nTex
  | .diffed .image_shadow_texture_ny => 25 + 2 * nTex
  | .diffed .image_shadow_texture_pz => 26 + 2 * nTex
  | .diffed .image_shadow_texture_nz => 27 + 2 * nTex
  | .diffed .read_framebuffer => 28 + 2 * nTex
  | .diffed .draw_framebuffer => 29 + 2 * nTex
  | .diffed .vertex_array => 30 + 2 * nTex
  | .diffed .vertex_buffer => 31 + 2 * nTex
  | .diffed .uniform_buffer => 32 + 2 * nTex
  | .diffed .shader_program => 33 + 2 * nTex
  | .diffed .program_pipeline => 34 + 2 * nTex
  | .scissor_enabled => 35 + 2 * nTex
  | .scissor_rect => 36 + 2 * nTex
  | .viewport => 37 + 2 * nTex
  | .diffed (.clip_distance i) => 38 + 2 * nTex + i.val

/-- Whether `Apply` issues the field when the shadow is `S` and the candidate
`D`: always for the seventeen unconditional fields, and for a diffed field when
its values differ. -/
def AppliedField.issued {nTex nClip : Nat} (D S : OpenGLState nTex nClip) :
    AppliedField nTex nClip → Bool
  | .diffed F => DiffedField.differs D S F
  | _ => true

/-- All the applied fields, in the order of `Apply`. -/
def AppliedField.all (nTex nClip : Nat) : List (AppliedField nTex nClip) :=
  [.cull_enabled, .cull_mode, .cull_front_face, .depth_test_enabled, .depth_test_func,
   .depth_write_mask, .color_mask, .stencil_test_enabled, .stencil_test_func, .stencil_action,
   .stencil_write_mask, .diffed .blend_enabled, .blend_color, .blend_func, .blend_equation,
   .diffed .logic_op] ++
  (List.finRange nTex).flatMap (fun i => [.diffed (.texture_2d i), .diffed (.sampler i)]) ++
  [.diffed .texture_cube, .diffed .texture_cube_sampler, .diffed .texture_buffer_lut_lf,
   .diffed .texture_buffer_lut_rg, .diffed .texture_buffer_lut_rgba,
   .diffed .image_shadow_buffer, .diffed .image_shadow_texture_px,
   .diffed .image_shadow_texture_nx, .diffed .image_shadow_texture_py,
   .diffed .image_shadow_texture_ny, .diffed .image_shadow_texture_pz,
   .diffed .image_shadow_texture_nz, .diffed .read_framebuffer, .diffed .draw_framebuffer,
   .diffed .vertex_array, .diffed .vertex_buffer, .diffed .uniform_buffer,
   .diffed .shader_program, .diffed .program_pipeline, .scissor_enabled, .scissor_rect,
   .viewport] ++
  (List.finRange nClip).map (fun i => .diffed (.clip_distance i))

/-! ## The device

A model of the device state the calls of `gl_state.cpp` write, to state that
the shadow follows the device. -/

/-- A piece of device state that a single device call overwrites: the enable
flag of a capability, a parameter, or a binding point. -/
inductive Cell where
  | capability (cap : GLenum)
  | cull_face
  | front_face
  | depth_func
  | depth_mask
  | color_mask
  | stencil_func
  | stencil_op
  | stencil_mask
  | blend_color
  | blend_func
  | blend_equation
  | logic_op
  | texture (unit : GLenum) (target : GLenum)
  | sampler (unit : GLuint)
  | image (unit : GLuint)
  | framebuffer (target : GLenum)
  | vertex_array
  | buffer (target : GLenum)
  | program
  | program_pipeline
  | scissor
  | viewport
  deriving DecidableEq

/-- The device, as far as the calls of `gl_state.cpp` can tell: the active
texture unit and, for every cell, the call that last wrote it (`none` while it
has not been written).  The value of a cell is the arguments of that call. -/
structure Device where
  active_texture : GLenum
  cell : Cell → Option GLCall

/-- The device after the call `c` has been written to the cell `x`. -/
def Device.write (dev : Device) (x : Cell) (c : GLCall) : Device :=
  { dev with cell := Function.update dev.cell x (some c) }

/-- The effect of one device call: `glActiveTexture` selects the unit, a texture
bind writes the binding of its target on the selected unit, and every other call
writes the cell its arguments name. -/
def Device.exec (dev : Device) : GLCall → Device
  | .glEnable cap => dev.write (.capability cap) (.glEnable cap)
  | .glDisable cap => dev.write (.capability cap) (.glDisable cap)
  | .glCullFace mode => dev.write .cull_face (.glCullFace mode)
  | .glFrontFace mode => dev.write .front_face (.glFrontFace mode)
  | .glDepthFunc func => dev.write .depth_func (.glDepthFunc func)
  | .glDepthMask flag => dev.write .depth_mask (.glDepthMask flag)
  | .glColorMask r g b a => dev.write .color_mask (.glColorMask r g b a)
  | .glStencilFunc func ref mask => dev.write .stencil_func (.glStencilFunc func ref mask)
  | .glStencilOp sfail dpfail dppass => dev.write .stencil_op (.glStencilOp sfail dpfail dppass)
  | .glStencilMask mask => dev.write .stencil_mask (.glStencilMask mask)
  | .glBlendColor r g b a => dev.write .blend_color (.glBlendColor r g b a)
  | .glBlendFuncSeparate s d sa da => dev.write .blend_func (.glBlendFuncSeparate s d sa da)
  | .glBlendEquationSeparate m ma =>
      dev.write .blend_equation (.glBlendEquationSeparate m ma)
  | .glLogicOp opcode => dev.write .logic_op (.glLogicOp opcode)
  | .glActiveTexture texture => { dev with active_texture := texture }
  | .glBindTexture target texture =>
      dev.write (.texture dev.active_texture target) (.glBindTexture target texture)
  | .glBindSampler unit sampler => dev.write (.sampler unit) (.glBindSampler unit sampler)
  | .glBindImageTexture unit texture level layered layer access fmt =>
      dev.write (.image unit) (.glBindImageTexture unit texture level layered layer access fmt)
  | .glBindFramebuffer target framebuffer =>
      dev.write (.framebuffer target) (.glBindFramebuffer target framebuffer)
  | .glBindVertexArray array => dev.write .vertex_array (.glBindVertexArray array)
  | .glBindBuffer target buffer => dev.write (.buffer target) (.glBindBuffer target buffer)
  | .glUseProgram program => dev.write .program (.glUseProgram program)
  | .glBindProgramPipeline pipeline =>
      dev.write .program_pipeline (.glBindProgramPipeline pipeline)
  | .glScissor x y w h => dev.write .scissor (.glScissor x y w h)
  | .glViewport x y w h => dev.write .viewport (.glViewport x y w h)

/-- The device after a trace of calls. -/
def Device.run (dev : Device) (tr : List GLCall) : Device :=
  tr.foldl Device.exec dev

/-- The cell of the device that holds the field. -/
def AppliedField.cell {nTex nClip : Nat} (env : Env) : AppliedField nTex nClip → Cell
  | .cull_enabled => .capability GL_CULL_FACE
  | .cull_mode => .cull_face
  | .cull_front_face => .front_face
  | .depth_test_enabled => .capability GL_DEPTH_TEST
  | .depth_test_func => .depth_func
  | .depth_write_mask => .depth_mask
  | .color_mask => .color_mask
  | .stencil_test_enabled => .capability GL_STENCIL_TEST
  | .stencil_test_func => .stencil_func
  | .stencil_action => .stencil_op
  | .stencil_write_mask => .stencil_mask
  | .blend_color => .blend_color
  | .blend_func => .blend_func
  | .blend_equation => .blend_equation
  | .scissor_enabled => .capability GL_SCISSOR_TEST
  | .scissor_rect => .scissor
  | .viewport => .viewport
  | .diffed .blend_enabled => .capability GL_BLEND
  | .diffed .logic_op => .logic_op
  | .diffed (.texture_2d i) => .texture (env.PicaTexture i.val).Enum GL_TEXTURE_2D
  | .diffed (.sampler i) => .sampler i.val
  | .diffed .texture_cube => .texture env.TextureCube.Enum GL_TEXTURE_CUBE_MAP
  | .diffed .texture_cube_sampler => .sampler env.TextureCube.id
  | .diffed .texture_buffer_lut_lf => .texture env.TextureBufferLUT_LF.Enum GL_TEXTURE_BUFFER
  | .diffed .texture_buffer_lut_rg => .texture env.TextureBufferLUT_RG.Enum GL_TEXTURE_BUFFER
  | .diffed .texture_buffer_lut_rgba =>
      .texture env.TextureBufferLUT_RGBA.Enum GL_TEXTURE_BUFFER
  | .diffed .image_shadow_buffer => .image env.ShadowBuffer
  | .diffed .image_shadow_texture_px => .image env.ShadowTexturePX
  | .diffed .image_shadow_texture_nx => .image env.ShadowTextureNX
  | .diffed .image_shadow_texture_py => .image env.ShadowTexturePY
  | .diffed .image_shadow_texture_ny => .image env.ShadowTextureNY
  | .diffed .image_shadow_texture_pz => .image env.ShadowTexturePZ
  | .diffed .image_shadow_texture_nz => .image env.ShadowTextureNZ
  | .diffed .read_framebuffer => .framebuffer GL_READ_FRAMEBUFFER
  | .diffed .draw_framebuffer => .framebuffer GL_DRAW_FRAMEBUFFER
  | .diffed .vertex_array => .vertex_array
  | .diffed .vertex_buffer => .buffer GL_ARRAY_BUFFER
  | .diffed .uniform_buffer => .buffer GL_UNIFORM_BUFFER
  | .diffed .shader_program => .program
  | .diffed .program_pipeline => .program_pipeline
  | .diffed (.clip_distance i) => .capability (GL_CLIP_DISTANCE0 + i.val)

/-- The call that puts the cell of the field in the state the descriptor `S`
records for the field. -/
def AppliedField.setting {nTex nClip : Nat} (env : Env) (S : OpenGLState nTex nClip) :
    AppliedField nTex nClip → GLCall
  | .cull_enabled => if S.cull.enabled then .glEnable GL_CULL_FACE else .glDisable GL_CULL_FACE
  | .cull_mode => .glCullFace S.cull.mode
  | .cull_front_face => .glFrontFace S.cull.front_face
  | .depth_test_enabled =>
      if S.depth.test_enabled then .glEnable GL_DEPTH_TEST else .glDisable GL_DEPTH_TEST
  | .depth_test_func => .glDepthFunc S.depth.test_func
  | .depth_write_mask => .glDepthMask S.depth.write_mask
  | .color_mask =>
      .glColorMask S.color_mask.red_enabled S.color_mask.green_enabled
        S.color_mask.blue_enabled S.color_mask.alpha_enabled
  | .stencil_test_enabled =>
      if S.stencil.test_enabled then .glEnable GL_STENCIL_TEST else .glDisable GL_STENCIL_TEST
  | .stencil_test_func =>
      .glStencilFunc S.stencil.test_func S.stencil.test_ref S.stencil.test_mask
  | .stencil_action =>
      .glStencilOp S.stencil.action_stencil_fail S.stencil.action_depth_fail
        S.stencil.action_depth_pass
  | .stencil_write_mask => .glStencilMask S.stencil.write_mask
  | .blend_color =>
      .glBlendColor S.blend.color.red S.blend.color.green S.blend.color.blue
        S.blend.color.alpha
  | .blend_func =>
      .glBlendFuncSeparate S.blend.src_rgb_func S.blend.dst_rgb_func S.blend.src_a_func
        S.blend.dst_a_func
  | .blend_equation => .glBlendEquationSeparate S.blend.rgb_equation S.blend.a_equation
  | .scissor_enabled =>
      if S.scissor.enabled then .glEnable GL_SCISSOR_TEST else .glDisable GL_SCISSOR_TEST
  | .scissor_rect => .glScissor S.scissor.x S.scissor.y S.scissor.width S.scissor.height
  | .viewport => .glViewport S.viewport.x S.viewport.y S.viewport.width S.viewport.height
  | .diffed .blend_enabled => if S.blend.enabled then .glEnable GL_BLEND else .glDisable GL_BLEND
  | .diffed .logic_op => .glLogicOp S.logic_op
  | .diffed (.texture_2d i) => .glBindTexture GL_TEXTURE_2D (S.texture_units i).texture_2d
  | .diffed (.sampler i) => .glBindSampler i.val (S.texture_units i).sampler
  | .diffed .texture_cube => .glBindTexture GL_TEXTURE_CUBE_MAP S.texture_cube_unit.texture_cube
  | .diffed .texture_cube_sampler =>
      .glBindSampler env.TextureCube.id S.texture_cube_unit.sampler
  | .diffed .texture_buffer_lut_lf =>
      .glBindTexture GL_TEXTURE_BUFFER S.texture_buffer_lut_lf.texture_buffer
  | .diffed .texture_buffer_lut_rg =>
      .glBindTexture GL_TEXTURE_BUFFER S.texture_buffer_lut_rg.texture_buffer
  | .diffed .texture_buffer_lut_rgba =>
      .glBindTexture GL_TEXTURE_BUFFER S.texture_buffer_lut_rgba.texture_buffer
  | .diffed .image_shadow_buffer =>
      .glBindImageTexture env.ShadowBuffer S.image_shadow_buffer 0 GL_FALSE 0 GL_READ_WRITE
        GL_R32UI
  | .diffed .image_shadow_texture_px =>
      .glBindImageTexture env.ShadowTexturePX S.image_shadow_texture_px 0 GL_FALSE 0
        GL_READ_ONLY GL_R32UI
  | .diffed .image_shadow_texture_nx =>
      .glBindImageTexture env.ShadowTextureNX S.image_shadow_texture_nx 0 GL_FALSE 0
        GL_READ_ONLY GL_R32UI
  | .diffed .image_shadow_texture_py =>
      .glBindImageTexture env.ShadowTexturePY S.image_shadow_texture_py 0 GL_FALSE 0
        GL_READ_ONLY GL_R32UI
  | .diffed .image_shadow_texture_ny =>
      .glBindImageTexture env.ShadowTextureNY S.image_shadow_texture_ny 0 GL_FALSE 0
        GL_READ_ONLY GL_R32UI
  | .diffed .image_shadow_texture_pz =>
      .glBindImageTexture env.ShadowTexturePZ S.image_shadow_texture_pz 0 GL_FALSE 0
        GL_READ_ONLY GL_R32UI
  | .diffed .image_shadow_texture_nz =>
      .glBindImageTexture env.ShadowTextureNZ S.image_shadow_texture_nz 0 GL_FALSE 0
        GL_READ_ONLY GL_R32UI
  | .diffed .read_framebuffer => .glBindFramebuffer GL_READ_FRAMEBUFFER S.draw.read_framebuffer
  | .diffed .draw_framebuffer => .glBindFramebuffer GL_DRAW_FRAMEBUFFER S.draw.draw_framebuffer
  | .diffed .vertex_array => .glBindVertexArray S.draw.vertex_array
  | .diffed .vertex_buffer => .glBindBuffer GL_ARRAY_BUFFER S.draw.vertex_buffer
  | .diffed .uniform_buffer => .glBindBuffer GL_UNIFORM_BUFFER S.draw.uniform_buffer
  | .diffed .shader_program => .glUseProgram S.draw.shader_program
  | .diffed .program_pipeline => .glBindProgramPipeline S.draw.program_pipeline
  | .diffed (.clip_distance i) =>
      if S.clip_distance i then .glEnable (GL_CLIP_DISTANCE0 + i.val)
      else .glDisable (GL_CLIP_DISTANCE0 + i.val)

/-- Whether the device of `env` has the state behind the field. -/
def AppliedField.applied {nTex nClip : Nat} (env : Env) : AppliedField nTex nClip → Bool
  | .diffed F => F.capable env
  | _ => true

/-- The shadow `S` and the device agree on the field: the cell of the field is
in the state `S` records. -/
def Agrees {nTex nClip : Nat} (env : Env) (S : OpenGLState nTex nClip) (dev : Device)
    (t : AppliedField nTex nClip) : Prop :=
  dev.cell (t.cell env) = some (t.setting env S)

/-- The unit tables name distinct units: the texture units of `texture_units`
among themselves, the three buffer LUT units among themselves, the sampler unit
of the cube texture apart from those of `texture_units`, and the seven image
units among themselves. -/
def Env.Distinct (env : Env) (nTex : Nat) : Prop :=
  (∀ i j : Fin nTex, (env.PicaTexture i.val).Enum = (env.PicaTexture j.val).Enum → i = j) ∧
  (∀ i : Fin nTex, i.val ≠ env.TextureCube.id) ∧
  [env.TextureBufferLUT_LF.Enum, env.TextureBufferLUT_RG.Enum,
    env.TextureBufferLUT_RGBA.Enum].Nodup ∧
  [env.ShadowBuffer, env.ShadowTexturePX, env.ShadowTextureNX, env.ShadowTexturePY,
    env.ShadowTextureNY, env.ShadowTexturePZ, env.ShadowTextureNZ].Nodup

/-- Whether the binding slot behind the field holds the handle `H` in the
shadow `S`; no field other than a binding slot does. -/
def DiffedField.holds {nTex nClip : Nat} (S : OpenGLState nTex nClip) (H : GLuint) :
    DiffedField nTex nClip → Bool
  | .texture_2d i => decide ((S.texture_units i).texture_2d = H)
  | .sampler i => decide ((S.texture_units i).sampler = H)
  | .texture_cube => decide (S.texture_cube_unit.texture_cube = H)
  | .texture_cube_sampler => decide (S.texture_cube_unit.sampler = H)
  | .texture_buffer_lut_lf => decide (S.texture_buffer_lut_lf.texture_buffer = H)
  | .texture_buffer_lut_rg => decide (S.texture_buffer_lut_rg.texture_buffer = H)
  | .texture_buffer_lut_rgba => decide (S.texture_buffer_lut_rgba.texture_buffer = H)
  | .image_shadow_buffer => decide (S.image_shadow_buffer = H)
  | .image_shadow_texture_px => decide (S.image_shadow_texture_px = H)
  | .image_shadow_texture_nx => decide (S.image_shadow_texture_nx = H)
  | .image_shadow_texture_py => decide (S.image_shadow_texture_py = H)
  | .image_shadow_texture_ny => decide (S.image_shadow_texture_ny = H)
  | .image_shadow_texture_pz => decide (S.image_shadow_texture_pz = H)
  | .image_shadow_texture_nz => decide (S.image_shadow_texture_nz = H)
  | .read_framebuffer => decide (S.draw.read_framebuffer = H)
  | .draw_framebuffer => decide (S.draw.draw_framebuffer = H)
  | .vertex_array => decide (S.draw.vertex_array = H)
  | .vertex_buffer => decide (S.draw.vertex_buffer = H)
  | .uniform_buffer => decide (S.draw.uniform_buffer = H)
  | .shader_program => decide (S.draw.shader_program = H)
  | .program_pipeline => decide (S.draw.program_pipeline = H)
  | _ => false

/-- Whether the field is a binding slot that holds the handle `H` in `S`. -/
def AppliedField.holds {nTex nClip : Nat} (S : OpenGLState nTex nClip) (H : GLuint) :
    AppliedField nTex nClip → Bool
  | .diffed F => F.holds S H
  | _ => false

/-- The fields `SubApply` writes, in its order: the three write masks, the two
framebuffer bindings, the scissor test, the scissor rectangle and the
viewport. -/
def subApplyFields (nTex nClip : Nat) : List (AppliedField nTex nClip) :=
  [.depth_write_mask, .stencil_write_mask, .color_mask, .diffed .read_framebuffer,
   .diffed .draw_framebuffer, .scissor_enabled, .scissor_rect, .viewport]

/-- The slots `ResetTexture` scans, in its order: the 2D texture of every
texture unit, the cube texture and the seven shadow images. -/
def textureSlots (nTex nClip : Nat) : List (AppliedField nTex nClip) :=
  (List.finRange nTex).map (fun i => .diffed (.texture_2d i)) ++
  [.diffed .texture_cube, .diffed .image_shadow_buffer, .diffed .image_shadow_texture_px,
   .diffed .image_shadow_texture_nx, .diffed .image_shadow_texture_py,
   .diffed .image_shadow_texture_ny, .diffed .image_shadow_texture_pz,
   .diffed .image_shadow_texture_nz]

/-- The slots `ResetSampler` scans, in its order: the sampler of every texture
unit and the sampler of the cube unit. -/
def samplerSlots (nTex nClip : Nat) : List (AppliedField nTex nClip) :=
  (List.finRange nTex).map (fun i => .diffed (.sampler i)) ++ [.diffed .texture_cube_sampler]

/-- An operation that takes the shadow `S` to `S'` and issues the trace `tr`
keeps the shadow faithful on the fields `L`: on every device, each field of `L`
the device has, on which the shadow and the device agreed before the
operation, has them agree after it. -/
def Faithful {nTex nClip : Nat} (env : Env) (L : List (AppliedField nTex nClip))
    (S S' : OpenGLState nTex nClip) (tr : List GLCall) : Prop :=
  ∀ (dev : Device) (t : AppliedField nTex nClip), t ∈ L → t.applied env = true →
    Agrees env S dev t → Agrees env S' (dev.run tr) t

/-- The enable flag of the color logic op that goes with the blend enable of
`S`: off GLES, `Apply` disables the one where it enables the other. -/
def logicOpToggle {nTex nClip : Nat} (S : OpenGLState nTex nClip) : GLCall :=
  if S.blend.enabled then .glDisable GL_COLOR_LOGIC_OP else .glEnable GL_COLOR_LOGIC_OP

/-- A device on which the program binding has been written with program 0. -/
def sampleDevice : Device :=
  Device.write { active_texture := GL_TEXTURE0, cell := fun _ => none } .program
    (.glUseProgram 0)

/-! ## Vocabulary for the statements about the hooks -/

/-- Every field of the shadow `S'` is the field of `S` or, for a binding slot
the hooks scan, possibly 0: the fields that hold no scanned slot are those of
`S`, and each 2D texture, sampler, cube texture, cube sampler, shadow image and
draw binding is the one of `S` or 0. -/
def OpenGLState.ClearedFrom {nTex nClip : Nat} (S' S : OpenGLState nTex nClip) : Prop :=
  S'.cull = S.cull ∧ S'.depth = S.depth ∧ S'.color_mask = S.color_mask ∧
  S'.stencil = S.stencil ∧ S'.blend = S.blend ∧ S'.logic_op = S.logic_op ∧
  S'.texture_buffer_lut_lf = S.texture_buffer_lut_lf ∧
  S'.texture_buffer_lut_rg = S.texture_buffer_lut_rg ∧
  S'.texture_buffer_lut_rgba = S.texture_buffer_lut_rgba ∧
  S'.scissor = S.scissor ∧ S'.viewport = S.viewport ∧
  S'.clip_distance = S.clip_distance ∧ S'.renderbuffer = S.renderbuffer ∧
  (∀ i,
    ((S'.texture_units i).texture_2d = (S.texture_units i).texture_2d ∨
      (S'.texture_units i).texture_2d = 0) ∧
    ((S'.texture_units i).sampler = (S.texture_units i).sampler ∨
      (S'.texture_units i).sampler = 0)) ∧
  (S'.texture_cube_unit.texture_cube = S.texture_cube_unit.texture_cube ∨
    S'.texture_cube_unit.texture_cube = 0) ∧
  (S'.texture_cube_unit.sampler = S.texture_cube_unit.sampler ∨
    S'.texture_cube_unit.sampler = 0) ∧
  (S'.image_shadow_buffer = S.image_shadow_buffer ∨ S'.image_shadow_buffer = 0) ∧
  (S'.image_shadow_texture_px = S.image_shadow_texture_px ∨ S'.image_shadow_texture_px = 0) ∧
  (S'.image_shadow_texture_nx = S.image_shadow_texture_nx ∨ S'.image_shadow_texture_nx = 0) ∧
  (S'.image_shadow_texture_py = S.image_shadow_texture_py ∨ S'.image_shadow_texture_py = 0) ∧
  (S'.image_shadow_texture_ny = S.image_shadow_texture_ny ∨ S'.image_shadow_texture_ny = 0) ∧
  (S'.image_shadow_texture_pz = S.image_shadow_texture_pz ∨ S'.image_shadow_texture_pz = 0) ∧
  (S'.image_shadow_texture_nz = S.image_shadow_texture_nz ∨ S'.image_shadow_texture_nz = 0) ∧
  (S'.draw.read_framebuffer = S.draw.read_framebuffer ∨ S'.draw.read_framebuffer = 0) ∧
  (S'.draw.draw_framebuffer = S.draw.draw_framebuffer ∨ S'.draw.draw_framebuffer = 0) ∧
  (S'.draw.vertex_array = S.draw.vertex_array ∨ S'.draw.vertex_array = 0) ∧
  (S'.draw.vertex_buffer = S.draw.vertex_buffer ∨ S'.draw.vertex_buffer = 0) ∧
  (S'.draw.uniform_buffer = S.draw.uniform_buffer ∨ S'.draw.uniform_buffer = 0) ∧
  (S'.draw.shader_program = S.draw.shader_program ∨ S'.draw.shader_program = 0) ∧
  (S'.draw.program_pipeline = S.draw.program_pipeline ∨ S'.draw.program_pipeline = 0)

/-- The unbind calls of a binding slot: its calls for a descriptor that has 0 in
every binding slot. -/
def AppliedField.unbind {nTex nClip : Nat} (env : Env) (t : AppliedField nTex nClip) :
    List GLCall :=
  t.calls env (OpenGLState.ctor nTex nClip { texture_buffer := 0 })

end OpenGL

/-!
# Configuration layer (`android/jni/config/layer.h`, `layer.cpp`)

A shallow embedding of the key operations of `Config::Layer`: a layer is its
dirty flag and its map, and an operation that writes returns the layer after
the call.
-/

namespace Config

/-- The type `LayerMap`, `std::map<ConfigLocation, std::optional<std::string>>`,
by its lookup: `none` where the map has no entry for the location, `some o`
where it has one with the value `o`.  `ConfigLocation` is declared in
`config/config_info.h` and is a parameter; two locations are equal when the
order of the map does not tell them apart. -/
abbrev LayerMap (ConfigLocation : Type) := ConfigLocation → Option (Option String)

/-- The member `find` of the map, against `end()`. -/
def LayerMap.find {ConfigLocation : Type} (m : LayerMap ConfigLocation)
    (location : ConfigLocation) : Option (Option String) :=
  m location

/-- The member `operator[]` of the map: the map, with a value-initialised entry
inserted where it had none for the location, and the value of the entry. -/
def LayerMap.index {ConfigLocation : Type} [DecidableEq ConfigLocation]
    (m : LayerMap ConfigLocation) (location : ConfigLocation) :
    LayerMap ConfigLocation × Option String :=
  match m location with
  | some value => (m, value)
  | none => (Function.update m location (some none), none)

/-- Assignment through a reference to the value of the entry at the location. -/
def LayerMap.assign {ConfigLocation : Type} [DecidableEq ConfigLocation]
    (m : LayerMap ConfigLocation) (location : ConfigLocation) (value : Option String) :
    LayerMap ConfigLocation :=
  Function.update m location (some value)

/-- The specialisation `detail::TryParse<std::string>`, lines 35-38. -/
def detail.TryParse_string (str_value : String) : Option String :=
  some str_value

/-- The data members of the class `Layer` that the key operations read and
write: the dirty flag and the map.  The loader is used by `Load` and `Save`
only. -/
structure Layer (ConfigLocation : Type) where
  m_dirty : Bool
  m_map : LayerMap ConfigLocation

/-- The function `Layer::Exists`. -/
def Layer.Exists {ConfigLocation : Type} (self : Layer ConfigLocation)
    (location : ConfigLocation) : Bool :=
  match self.m_map.find location with
  | none => false
  | some second => second.isSome

/-- The function `Layer::DeleteKey`: the value returned and the layer after the
call. -/
def Layer.DeleteKey {ConfigLocation : Type} [DecidableEq ConfigLocation]
    (self : Layer ConfigLocation) (location : ConfigLocation) :
    Bool × Layer ConfigLocation :=
  match self.m_map.find location with
  | some (some _) =>
      (true, { self with m_map := self.m_map.assign location none, m_dirty := true })
  | _ => (false, self)

/-- The function template `Layer::Get<T>(const ConfigLocation&)`, lines 102-109;
`TryParse` is `detail::TryParse<T>`. -/
def Layer.Get {ConfigLocation T : Type} (TryParse : String → Option T)
    (self : Layer ConfigLocation) (location : ConfigLocation) : Option T :=
  match self.m_map.find location with
  | none => none
  | some none => none
  | some (some second) => TryParse second

/-- The function `Layer::Set(const ConfigLocation&, const std::string&)`, lines
129-135.  An optional differs from a string when it is empty or holds another
string. -/
def Layer.Set {ConfigLocation : Type} [DecidableEq ConfigLocation]
    (self : Layer ConfigLocation) (location : ConfigLocation) (new_value : String) :
    Layer ConfigLocation :=
  let (m_map, current_value) := self.m_map.index location
  if current_value ≠ some new_value then
    { self with m_map := m_map.assign location (some new_value), m_dirty := true }
  else
    { self with m_map := m_map }

/-- A layer, not dirty, whose only entry is the value `1` at the location
`(Core, cpu)`. -/
def sampleLayer : Layer (String × String) where
  m_dirty := false
  m_map := fun location => if location = ("Core", "cpu") then some (some "1") else none

end Config

namespace OpenGL

/-! ## General facts about lists -/

theorem foldl_append_eq_flatMap {α β : Type} (f : α → List β) (l : List α) (init : List β) :
    l.foldl (fun tr i => tr ++ f i) init = init ++ l.flatMap f := by
  induction l generalizing init with
  | nil => simp
  | cons a l ih => simp [List.foldl_cons, ih, List.flatMap_cons, List.append_assoc]

theorem flatMap_eq_nil_of_forall {α β : Type} (f : α → List β) (l : List α)
    (h : ∀ a, f a = []) : l.flatMap f = [] := by
  induction l with
  | nil => rfl
  | cons a l ih => simp [List.flatMap_cons, h a, ih]

theorem flatMap_eq_of_single {α β : Type} (f : α → List β) (l : List α) (a : α)
    (hl : l.Nodup) (ha : a ∈ l) (h : ∀ b, b ≠ a → f b = []) : l.flatMap f = f a := by
  induction l with
  | nil => simp at ha
  | cons b l ih =>
    rw [List.nodup_cons] at hl
    rw [List.flatMap_cons]
    by_cases hb : b = a
    · subst hb
      have : l.flatMap f = [] := by
        rw [List.flatMap_eq_nil_iff]
        intro c hc
        exact h c (fun hcb => hl.1 (hcb ▸ hc))
      rw [this, List.append_nil]
    · have ha2 : a ∈ l := by
        rcases List.mem_cons.mp ha with h1 | h1
        · exact absurd h1.symm hb
        · exact h1
      rw [h b hb, List.nil_append, ih hl.2 ha2]

theorem flatMap_finRange_single {n : Nat} {β : Type} (f : Fin n → List β) (i : Fin n)
    (h : ∀ j, j ≠ i → f j = []) : (List.finRange n).flatMap f = f i :=
  flatMap_eq_of_single f (List.finRange n) i (List.nodup_finRange n) (List.mem_finRange i) h

/-! ## The trace of `Apply` -/

theorem unconditionalCalls_eq {nTex nClip : Nat} (D : OpenGLState nTex nClip) :
    unconditionalCalls D =
      OpenGLState.Apply.rasterizer D ++ blendParameterCalls D ++
        OpenGLState.Apply.scissorViewport D := by
  simp [unconditionalCalls, OpenGLState.Apply.rasterizer, blendParameterCalls,
    OpenGLState.Apply.scissorViewport, List.flatten]

theorem Apply_trace_eq_emission {nTex nClip : Nat} (env : Env)
    (D S : OpenGLState nTex nClip) :
    (OpenGLState.Apply env D S).2 = emission env D (DiffedField.differs D S) := by
  simp only [OpenGLState.Apply, emission, OpenGLState.Apply.blending,
    OpenGLState.Apply.textures, OpenGLState.Apply.shadowImages,
    OpenGLState.Apply.drawBindings, OpenGLState.Apply.clipDistances,
    foldl_append_eq_flatMap, DiffedField.issue, DiffedField.calls, DiffedField.differs,
    blendParameterCalls, List.flatten, List.append_nil, List.nil_append, List.append_assoc,
    decide_eq_true_eq]
  cases env.GLES <;> cases env.AllowShadow <;> cases env.GLAD_GL_EXT_clip_cull_distance <;>
    simp

theorem flatMap_const_nil {α β : Type} (l : List α) :
    l.flatMap (fun _ => ([] : List β)) = [] :=
  flatMap_eq_nil_of_forall _ l (fun _ => rfl)

theorem emission_none {nTex nClip : Nat} (env : Env) (D : OpenGLState nTex nClip) :
    emission env D (fun _ => false) = unconditionalCalls D := by
  rw [unconditionalCalls_eq]
  simp [emission, DiffedField.issue, flatMap_const_nil]

theorem emission_single {nTex nClip : Nat} (env : Env) (D : OpenGLState nTex nClip)
    (F : DiffedField nTex nClip) :
    ∃ pre post, unconditionalCalls D = pre ++ post ∧
      emission env D (fun G => decide (G = F)) = pre ++ F.calls env D ++ post := by
  rw [unconditionalCalls_eq]
  cases F with
  | blend_enabled =>
    exact ⟨OpenGLState.Apply.rasterizer D,
      blendParameterCalls D ++ OpenGLState.Apply.scissorViewport D, by simp,
      by simp [emission, DiffedField.issue, flatMap_const_nil]⟩
  | texture_2d i =>
    refine ⟨OpenGLState.Apply.rasterizer D ++ blendParameterCalls D,
      OpenGLState.Apply.scissorViewport D, rfl, ?_⟩
    have h := flatMap_finRange_single (fun j : Fin nTex =>
      DiffedField.issue env D (fun G => decide (G = DiffedField.texture_2d i))
          (DiffedField.texture_2d j) ++
        DiffedField.issue env D (fun G => decide (G = DiffedField.texture_2d i))
          (DiffedField.sampler j)) i
      (by intro j hj; simp [DiffedField.issue, hj])
    simp only [emission, h]
    simp [DiffedField.issue, flatMap_const_nil]
  | sampler i =>
    refine ⟨OpenGLState.Apply.rasterizer D ++ blendParameterCalls D,
      OpenGLState.Apply.scissorViewport D, rfl, ?_⟩
    have h := flatMap_finRange_single (fun j : Fin nTex =>
      DiffedField.issue env D (fun G => decide (G = DiffedField.sampler i))
          (DiffedField.texture_2d j) ++
        DiffedField.issue env D (fun G => decide (G = DiffedField.sampler i))
          (DiffedField.sampler j)) i
      (by intro j hj; simp [DiffedField.issue, hj])
    simp only [emission, h]
    simp [DiffedField.issue, flatMap_const_nil]
  | clip_distance i =>
    refine ⟨OpenGLState.Apply.rasterizer D ++ blendParameterCalls D ++
      OpenGLState.Apply.scissorViewport D, [], by simp, ?_⟩
    have h := flatMap_finRange_single (fun j : Fin nClip =>
      DiffedField.issue env D (fun G => decide (G = DiffedField.clip_distance i))
          (DiffedField.clip_distance j)) i
      (by intro j hj; simp [DiffedField.issue, hj])
    simp only [emission, h]
    simp [DiffedField.issue, flatMap_const_nil]
  | _ =>
    exact ⟨OpenGLState.Apply.rasterizer D ++ blendParameterCalls D,
      OpenGLState.Apply.scissorViewport D, rfl,
      by simp [emission, DiffedField.issue, flatMap_const_nil]⟩

theorem filter_flatMap_eq_nil {α β : Type} (p : β → Bool) (f : α → List β) (l : List α)
    (h : ∀ a, (f a).filter p = []) : (l.flatMap f).filter p = [] := by
  induction l with
  | nil => rfl
  | cons a l ih => simp [List.flatMap_cons, List.filter_append, h a, ih]

theorem filter_isParameterCall_issue {nTex nClip : Nat} (env : Env)
    (D : OpenGLState nTex nClip) (d : DiffedField nTex nClip → Bool)
    (F : DiffedField nTex nClip) :
    (DiffedField.issue env D d F).filter GLCall.isParameterCall = [] := by
  unfold DiffedField.issue
  split
  · cases F <;> simp only [DiffedField.calls] <;> (repeat' split) <;>
      simp [GLCall.isParameterCall]
  · rfl

/-! ## Full reconciler -/

/-- C1. Shadow fidelity of `Apply`: for every environment (GLES, AllowShadow and
clip-distance flags, unit tables), every prior shadow `S` and every candidate
`D`, the shadow after `Apply(D)` is `D`, in every field. -/
theorem Apply_shadow_fidelity {nTex nClip : Nat} (env : Env) (S D : OpenGLState nTex nClip) :
    (OpenGLState.Apply env D S).1 = D :=
  rfl

/-- C3, as the code has it. For every descriptor `D` and prior shadow `S`, the
second of two consecutive `Apply(D)` issues exactly the unconditional calls (the
cull, depth-test, stencil-test and scissor-test toggles and the thirteen
parameter calls) and no call for any diffed field. -/
theorem Apply_idempotent {nTex nClip : Nat} (env : Env) (S D : OpenGLState nTex nClip) :
    (OpenGLState.Apply env D (OpenGLState.Apply env D S).1).2 = unconditionalCalls D := by
  have hd : DiffedField.differs D D = fun _ => false := by
    funext G
    cases G <;> simp [DiffedField.differs]
  have hS : (OpenGLState.Apply env D S).1 = D := rfl
  rw [hS, Apply_trace_eq_emission, hd]
  exact emission_none env D

/-- C3 as stated fails: the second of two consecutive `Apply` of the sample
descriptor issues the cull enable, depth-test disable, stencil-test disable and
scissor-test disable calls, which the claim counts in the diffed group. -/
theorem Apply_idempotent_counterexample :
    GLCall.glEnable GL_CULL_FACE ∈
      (OpenGLState.Apply sampleEnv sampleState
        (OpenGLState.Apply sampleEnv sampleState sampleState).1).2 ∧
    GLCall.glDisable GL_DEPTH_TEST ∈
      (OpenGLState.Apply sampleEnv sampleState
        (OpenGLState.Apply sampleEnv sampleState sampleState).1).2 ∧
    GLCall.glDisable GL_STENCIL_TEST ∈
      (OpenGLState.Apply sampleEnv sampleState
        (OpenGLState.Apply sampleEnv sampleState sampleState).1).2 ∧
    GLCall.glDisable GL_SCISSOR_TEST ∈
      (OpenGLState.Apply sampleEnv sampleState
        (OpenGLState.Apply sampleEnv sampleState sampleState).1).2 := by
  decide

/-- C4. Unconditional group of `Apply`: for every prior shadow `S` and candidate
`D`, the parameter calls in the trace of `Apply(D)` are exactly one call for
each of cull mode, front face, depth function, depth write-mask, color
write-mask, stencil function, stencil op, stencil write-mask, blend color,
blend func, blend equation, scissor rectangle and viewport, in this order, each
with the values of `D`; `S` does not occur in them. -/
theorem Apply_unconditional_group {nTex nClip : Nat} (env : Env)
    (S D : OpenGLState nTex nClip) :
    (OpenGLState.Apply env D S).2.filter GLCall.isParameterCall = parameterCalls D := by
  rw [Apply_trace_eq_emission]
  simp only [emission, List.filter_append, filter_isParameterCall_issue,
    filter_flatMap_eq_nil GLCall.isParameterCall _ _
      (fun i => filter_isParameterCall_issue env D _ (DiffedField.clip_distance i)),
    filter_flatMap_eq_nil GLCall.isParameterCall
      (fun i => DiffedField.issue env D (DiffedField.differs D S) (DiffedField.texture_2d i) ++
        DiffedField.issue env D (DiffedField.differs D S) (DiffedField.sampler i)) _
      (fun i => by simp [List.filter_append, filter_isParameterCall_issue]),
    List.append_nil, List.nil_append]
  simp only [OpenGLState.Apply.rasterizer, OpenGLState.Apply.scissorViewport,
    blendParameterCalls, parameterCalls, List.flatten, List.append_nil]
  cases D.cull.enabled <;> cases D.depth.test_enabled <;> cases D.stencil.test_enabled <;>
    cases D.scissor.enabled <;> simp [GLCall.isParameterCall, List.filter]

/-! ## Invalidation of textures -/

theorem flatMap_congr_mem {α β : Type} (f g : α → List β) (l : List α)
    (h : ∀ a ∈ l, f a = g a) : l.flatMap f = l.flatMap g := by
  induction l with
  | nil => rfl
  | cons a l ih =>
    rw [List.flatMap_cons, List.flatMap_cons, h a (List.mem_cons_self a l),
      ih (fun b hb => h b (List.mem_cons_of_mem a hb))]

/-- The loop of `ResetTexture` over a list of distinct units: the units of the
list that held the handle are zeroed, each with one unbind, by the values the
slots had before the loop. -/
theorem ResetTexture_units_foldl {nTex nClip : Nat} (env : Env) (handle : GLuint)
    (l : List (Fin nTex)) (hl : l.Nodup) (st : OpenGLState nTex nClip × List GLCall) :
    l.foldl (fun (st : OpenGLState nTex nClip × List GLCall) i =>
      if (st.1.texture_units i).texture_2d = handle then
        ({ st.1 with
            texture_units := Function.update st.1.texture_units i
              { st.1.texture_units i with texture_2d := 0 } },
         st.2 ++ [.glActiveTexture (env.PicaTexture i.val).Enum,
           .glBindTexture GL_TEXTURE_2D 0])
      else st) st =
    ({ st.1 with
        texture_units := fun i =>
          if i ∈ l ∧ (st.1.texture_units i).texture_2d = handle then
            { st.1.texture_units i with texture_2d := 0 }
          else st.1.texture_units i },
     st.2 ++ l.flatMap (fun i =>
       if (st.1.texture_units i).texture_2d = handle then
         [.glActiveTexture (env.PicaTexture i.val).Enum, .glBindTexture GL_TEXTURE_2D 0]
       else [])) := by
  induction l generalizing st with
  | nil => simp
  | cons a l ih =>
    rw [List.nodup_cons] at hl
    rw [List.foldl_cons, ih hl.2]
    by_cases ha : (st.1.texture_units a).texture_2d = handle
    · simp only [ha, if_true, List.flatMap_cons, List.append_assoc]
      refine Prod.ext ?_ ?_
      · simp only
        congr 1
        funext i
        by_cases hia : i = a
        · subst hia
          simp [hl.1, ha]
        · simp [hia, Function.update_noteq hia]
      · simp only
        congr 2
        apply flatMap_congr_mem
        intro b hb
        have hba : b ≠ a := fun h => hl.1 (h ▸ hb)
        simp [Function.update_noteq hba]
    · simp only [ha, if_false, List.flatMap_cons, List.nil_append]
      refine Prod.ext ?_ rfl
      simp only
      congr 1
      funext i
      by_cases hia : i = a
      · subst hia
        simp [ha]
      · simp [hia]

theorem ResetTexture_units_eq {nTex nClip : Nat} (env : Env) (handle : GLuint)
    (st : OpenGLState nTex nClip × List GLCall) :
    OpenGLState.ResetTexture.units env handle st =
    ({ st.1 with
        texture_units := fun i =>
          if (st.1.texture_units i).texture_2d = handle then
            { st.1.texture_units i with texture_2d := 0 }
          else st.1.texture_units i },
     st.2 ++ (List.finRange nTex).flatMap (fun i =>
       if (st.1.texture_units i).texture_2d = handle then
         [.glActiveTexture (env.PicaTexture i.val).Enum, .glBindTexture GL_TEXTURE_2D 0]
       else [])) := by
  unfold OpenGLState.ResetTexture.units
  rw [ResetTexture_units_foldl env handle _ (List.nodup_finRange nTex)]
  simp [List.mem_finRange]

theorem ResetTexture_cube_eq {nTex nClip : Nat} (env : Env) (handle : GLuint)
    (st : OpenGLState nTex nClip × List GLCall) :
    OpenGLState.ResetTexture.cube env handle st =
    ({ st.1 with
        texture_cube_unit :=
          if st.1.texture_cube_unit.texture_cube = handle then
            { st.1.texture_cube_unit with texture_cube := 0 }
          else st.1.texture_cube_unit },
     st.2 ++
       (if st.1.texture_cube_unit.texture_cube = handle then
         [.glActiveTexture env.TextureCube.Enum, .glBindTexture GL_TEXTURE_CUBE_MAP 0]
        else [])) := by
  unfold OpenGLState.ResetTexture.cube
  split <;> simp

theorem ResetTexture_shadowImages_eq {nTex nClip : Nat} (env : Env) (handle : GLuint)
    (st : OpenGLState nTex nClip × List GLCall) :
    OpenGLState.ResetTexture.shadowImages env handle st =
    ({ st.1 with
        image_shadow_buffer :=
          if st.1.image_shadow_buffer = handle then 0 else st.1.image_shadow_buffer
        image_shadow_texture_px :=
          if st.1.image_shadow_texture_px = handle then 0 else st.1.image_shadow_texture_px
        image_shadow_texture_nx :=
          if st.1.image_shadow_texture_nx = handle then 0 else st.1.image_shadow_texture_nx
        image_shadow_texture_py :=
          if st.1.image_shadow_texture_py = handle then 0 else st.1.image_shadow_texture_py
        image_shadow_texture_ny :=
          if st.1.image_shadow_texture_ny = handle then 0 else st.1.image_shadow_texture_ny
        image_shadow_texture_pz :=
          if st.1.image_shadow_texture_pz = handle then 0 else st.1.image_shadow_texture_pz
        image_shadow_texture_nz :=
          if st.1.image_shadow_texture_nz = handle then 0 else st.1.image_shadow_texture_nz },
     st.2 ++
       ((if st.1.image_shadow_buffer = handle then
          [.glBindImageTexture env.ShadowBuffer 0 0 GL_FALSE 0 GL_READ_WRITE GL_R32UI]
         else []) ++
        (if st.1.image_shadow_texture_px = handle then
          [.glBindImageTexture env.ShadowTexturePX 0 0 GL_FALSE 0 GL_READ_ONLY GL_R32UI]
         else []) ++
        (if st.1.image_shadow_texture_nx = handle then
          [.glBindImageTexture env.ShadowTextureNX 0 0 GL_FALSE 0 GL_READ_ONLY GL_R32UI]
         else []) ++
        (if st.1.image_shadow_texture_py = handle then
          [.glBindImageTexture env.ShadowTexturePY 0 0 GL_FALSE 0 GL_READ_ONLY GL_R32UI]
         else []) ++
        (if st.1.image_shadow_texture_ny = handle then
          [.glBindImageTexture env.ShadowTextureNY 0 0 GL_FALSE 0 GL_READ_ONLY GL_R32UI]
         else []) ++
        (if st.1.image_shadow_texture_pz = handle then
          [.glBindImageTexture env.ShadowTexturePZ 0 0 GL_FALSE 0 GL_READ_ONLY GL_R32UI]
         else []) ++
        (if st.1.image_shadow_texture_nz = handle then
          [.glBindImageTexture env.ShadowTextureNZ 0 0 GL_FALSE 0 GL_READ_ONLY GL_R32UI]
         else []))) := by
  unfold OpenGLState.ResetTexture.shadowImages
  by_cases h0 : st.1.image_shadow_buffer = handle <;>
  by_cases h1 : st.1.image_shadow_texture_px = handle <;>
  by_cases h2 : st.1.image_shadow_texture_nx = handle <;>
  by_cases h3 : st.1.image_shadow_texture_py = handle <;>
  by_cases h4 : st.1.image_shadow_texture_ny = handle <;>
  by_cases h5 : st.1.image_shadow_texture_pz = handle <;>
  by_cases h6 : st.1.image_shadow_texture_nz = handle <;>
  simp [h0, h1, h2, h3, h4, h5, h6]

theorem ResetTexture_eq {nTex nClip : Nat} (env : Env) (H : GLuint)
    (S : OpenGLState nTex nClip) :
    OpenGLState.ResetTexture env H S =
    ({ S with
        texture_units := fun i =>
          if (S.texture_units i).texture_2d = H then { S.texture_units i with texture_2d := 0 }
          else S.texture_units i
        texture_cube_unit :=
          if S.texture_cube_unit.texture_cube = H then
            { S.texture_cube_unit with texture_cube := 0 }
          else S.texture_cube_unit
        image_shadow_buffer :=
          if env.AllowShadow = true ∧ S.image_shadow_buffer = H then 0
          else S.image_shadow_buffer
        image_shadow_texture_px :=
          if env.AllowShadow = true ∧ S.image_shadow_texture_px = H then 0
          else S.image_shadow_texture_px
        image_shadow_texture_nx :=
          if env.AllowShadow = true ∧ S.image_shadow_texture_nx = H then 0
          else S.image_shadow_texture_nx
        image_shadow_texture_py :=
          if env.AllowShadow = true ∧ S.image_shadow_texture_py = H then 0
          else S.image_shadow_texture_py
        image_shadow_texture_ny :=
          if env.AllowShadow = true ∧ S.image_shadow_texture_ny = H then 0
          else S.image_shadow_texture_ny
        image_shadow_texture_pz :=
          if env.AllowShadow = true ∧ S.image_shadow_texture_pz = H then 0
          else S.image_shadow_texture_pz
        image_shadow_texture_nz :=
          if env.AllowShadow = true ∧ S.image_shadow_texture_nz = H then 0
          else S.image_shadow_texture_nz },
     (List.finRange nTex).flatMap (fun i =>
        if (S.texture_units i).texture_2d = H then
          [.glActiveTexture (env.PicaTexture i.val).Enum, .glBindTexture GL_TEXTURE_2D 0]
        else []) ++
      (if S.texture_cube_unit.texture_cube = H then
        [.glActiveTexture env.TextureCube.Enum, .glBindTexture GL_TEXTURE_CUBE_MAP 0]
       else []) ++
      (if env.AllowShadow = true then
        (if S.image_shadow_buffer = H then
          [.glBindImageTexture env.ShadowBuffer 0 0 GL_FALSE 0 GL_READ_WRITE GL_R32UI]
         else []) ++
        (if S.image_shadow_texture_px = H then
          [.glBindImageTexture env.ShadowTexturePX 0 0 GL_FALSE 0 GL_READ_ONLY GL_R32UI]
         else []) ++
        (if S.image_shadow_texture_nx = H then
          [.glBindImageTexture env.ShadowTextureNX 0 0 GL_FALSE 0 GL_READ_ONLY GL_R32UI]
         else []) ++
        (if S.image_shadow_texture_py = H then
          [.glBindImageTexture env.ShadowTexturePY 0 0 GL_FALSE 0 GL_READ_ONLY GL_R32UI]
         else []) ++
        (if S.image_shadow_texture_ny = H then
          [.glBindImageTexture env.ShadowTextureNY 0 0 GL_FALSE 0 GL_READ_ONLY GL_R32UI]
         else []) ++
        (if S.image_shadow_texture_pz = H then
          [.glBindImageTexture env.ShadowTexturePZ 0 0 GL_FALSE 0 GL_READ_ONLY GL_R32UI]
         else []) ++
        (if S.image_shadow_texture_nz = H then
          [.glBindImageTexture env.ShadowTextureNZ 0 0 GL_FALSE 0 GL_READ_ONLY GL_R32UI]
         else [])
       else [])) := by
  unfold OpenGLState.ResetTexture
  simp only [ResetTexture_units_eq, ResetTexture_cube_eq, ResetTexture_shadowImages_eq]
  cases env.AllowShadow <;> simp

/-- C5. Invalidation correctness of `ResetTexture`: for every shadow `S` and
handle `H`, after `ResetTexture(H)` every 2D slot, the cube slot and, iff
`AllowShadow` is set, the shadow buffer slot and the six shadow cube-face slots
hold 0 where they held `H` and are otherwise unchanged, as is every other field
of the shadow; the trace has one unbind for each slot that held `H`, in the
order of the scan, and no other call; and for `H ≠ 0` no scanned slot holds `H`
afterwards. -/
theorem ResetTexture_invalidation {nTex nClip : Nat} (env : Env) (H : GLuint)
    (S : OpenGLState nTex nClip) :
    (OpenGLState.ResetTexture env H S).1 =
      { S with
        texture_units := fun i =>
          if (S.texture_units i).texture_2d = H then { S.texture_units i with texture_2d := 0 }
          else S.texture_units i
        texture_cube_unit :=
          if S.texture_cube_unit.texture_cube = H then
            { S.texture_cube_unit with texture_cube := 0 }
          else S.texture_cube_unit
        image_shadow_buffer :=
          if env.AllowShadow = true ∧ S.image_shadow_buffer = H then 0
          else S.image_shadow_buffer
        image_shadow_texture_px :=
          if env.AllowShadow = true ∧ S.image_shadow_texture_px = H then 0
          else S.image_shadow_texture_px
        image_shadow_texture_nx :=
          if env.AllowShadow = true ∧ S.image_shadow_texture_nx = H then 0
          else S.image_shadow_texture_nx
        image_shadow_texture_py :=
          if env.AllowShadow = true ∧ S.image_shadow_texture_py = H then 0
          else S.image_shadow_texture_py
        image_shadow_texture_ny :=
          if env.AllowShadow = true ∧ S.image_shadow_texture_ny = H then 0
          else S.image_shadow_texture_ny
        image_shadow_texture_pz :=
          if env.AllowShadow = true ∧ S.image_shadow_texture_pz = H then 0
          else S.image_shadow_texture_pz
        image_shadow_texture_nz :=
          if env.AllowShadow = true ∧ S.image_shadow_texture_nz = H then 0
          else S.image_shadow_texture_nz } ∧
    (OpenGLState.ResetTexture env H S).2 =
      (List.finRange nTex).flatMap (fun i =>
        if (S.texture_units i).texture_2d = H then
          [.glActiveTexture (env.PicaTexture i.val).Enum, .glBindTexture GL_TEXTURE_2D 0]
        else []) ++
      (if S.texture_cube_unit.texture_cube = H then
        [.glActiveTexture env.TextureCube.Enum, .glBindTexture GL_TEXTURE_CUBE_MAP 0]
       else []) ++
      (if env.AllowShadow = true then
        (if S.image_shadow_buffer = H then
          [.glBindImageTexture env.ShadowBuffer 0 0 GL_FALSE 0 GL_READ_WRITE GL_R32UI]
         else []) ++
        (if S.image_shadow_texture_px = H then
          [.glBindImageTexture env.ShadowTexturePX 0 0 GL_FALSE 0 GL_READ_ONLY GL_R32UI]
         else []) ++
        (if S.image_shadow_texture_nx = H then
          [.glBindImageTexture env.ShadowTextureNX 0 0 GL_FALSE 0 GL_READ_ONLY GL_R32UI]
         else []) ++
        (if S.image_shadow_texture_py = H then
          [.glBindImageTexture env.ShadowTexturePY 0 0 GL_FALSE 0 GL_READ_ONLY GL_R32UI]
         else []) ++
        (if S.image_shadow_texture_ny = H then
          [.glBindImageTexture env.ShadowTextureNY 0 0 GL_FALSE 0 GL_READ_ONLY GL_R32UI]
         else []) ++
        (if S.image_shadow_texture_pz = H then
          [.glBindImageTexture env.ShadowTexturePZ 0 0 GL_FALSE 0 GL_READ_ONLY GL_R32UI]
         else []) ++
        (if S.image_shadow_texture_nz = H then
          [.glBindImageTexture env.ShadowTextureNZ 0 0 GL_FALSE 0 GL_READ_ONLY GL_R32UI]
         else [])
       else []) ∧
    (H ≠ 0 →
      (∀ i, ((OpenGLState.ResetTexture env H S).1.texture_units i).texture_2d ≠ H) ∧
      (OpenGLState.ResetTexture env H S).1.texture_cube_unit.texture_cube ≠ H ∧
      (env.AllowShadow = true →
        (OpenGLState.ResetTexture env H S).1.image_shadow_buffer ≠ H ∧
        (OpenGLState.ResetTexture env H S).1.image_shadow_texture_px ≠ H ∧
        (OpenGLState.ResetTexture env H S).1.image_shadow_texture_nx ≠ H ∧
        (OpenGLState.ResetTexture env H S).1.image_shadow_texture_py ≠ H ∧
        (OpenGLState.ResetTexture env H S).1.image_shadow_texture_ny ≠ H ∧
        (OpenGLState.ResetTexture env H S).1.image_shadow_texture_pz ≠ H ∧
        (OpenGLState.ResetTexture env H S).1.image_shadow_texture_nz ≠ H)) := by
  have h := ResetTexture_eq env H S
  refine ⟨by rw [h], by rw [h], ?_⟩
  intro hH
  have h0 : ∀ v : GLuint, (if v = H then 0 else v) ≠ H := by
    intro v
    split
    · exact fun h0 => hH h0.symm
    · assumption
  rw [h]
  refine ⟨?_, ?_, ?_⟩
  · intro i
    simp only
    split
    · exact fun h0 => hH h0.symm
    · assumption
  · simp only
    split
    · exact fun h0 => hH h0.symm
    · assumption
  · intro hA
    simp only [hA, true_and]
    exact ⟨h0 _, h0 _, h0 _, h0 _, h0 _, h0 _, h0 _⟩

/-- C5 at a sample shadow: texture unit 1, the cube unit and the +X shadow
image hold the handle 5; after `ResetTexture(5)` no scanned slot holds 5 and
the trace is the three unbinds; unit 2, which holds 9, is untouched. -/
theorem ResetTexture_invalidation_witness :
    (5 : GLuint) ≠ 0 ∧
    (∀ i, ((OpenGLState.ResetTexture sampleEnv 5 sampleTextures).1.texture_units i).texture_2d
      ≠ 5) ∧
    (OpenGLState.ResetTexture sampleEnv 5 sampleTextures).1.texture_cube_unit.texture_cube ≠ 5 ∧
    ((OpenGLState.ResetTexture sampleEnv 5 sampleTextures).1.texture_units 2).texture_2d = 9 ∧
    (OpenGLState.ResetTexture sampleEnv 5 sampleTextures).2 =
      [.glActiveTexture (GL_TEXTURE0 + 1), .glBindTexture GL_TEXTURE_2D 0,
       .glActiveTexture (GL_TEXTURE0 + 6), .glBindTexture GL_TEXTURE_CUBE_MAP 0,
       .glBindImageTexture 1 0 0 GL_FALSE 0 GL_READ_ONLY GL_R32UI] :=
  ⟨by decide,
   ((ResetTexture_invalidation sampleEnv 5 sampleTextures).2.2 (by decide)).1,
   ((ResetTexture_invalidation sampleEnv 5 sampleTextures).2.2 (by decide)).2.1,
   by decide, by decide⟩

/-! ## Binding helpers -/

/-- C6. Binding-helper contract: each of `BindVertexArray`, `BindUniformBuffer`,
`BindTexture2D(index, .)`, `BindSampler(index, .)`, `BindTextureCube`,
`BindReadFramebuffer` and `BindShaderProgram`, for every shadow `S` and handle
`h`, returns the value its slot held in `S`, issues exactly one bind call with
`h` (the texture binds after selecting the unit), whether or not the slot
already held `h`, and leaves the shadow equal to `S` with the slot set to `h`. -/
theorem Bind_helper_contract {nTex nClip : Nat} (env : Env) (S : OpenGLState nTex nClip)
    (h : GLuint) (index : Fin nTex) :
    ((OpenGLState.BindVertexArray h S).1 = S.draw.vertex_array ∧
      (OpenGLState.BindVertexArray h S).2.2 = [.glBindVertexArray h] ∧
      (OpenGLState.BindVertexArray h S).2.1 =
        { S with draw := { S.draw with vertex_array := h } }) ∧
    ((OpenGLState.BindUniformBuffer h S).1 = S.draw.uniform_buffer ∧
      (OpenGLState.BindUniformBuffer h S).2.2 = [.glBindBuffer GL_UNIFORM_BUFFER h] ∧
      (OpenGLState.BindUniformBuffer h S).2.1 =
        { S with draw := { S.draw with uniform_buffer := h } }) ∧
    ((OpenGLState.BindTexture2D env index h S).1 = (S.texture_units index).texture_2d ∧
      (OpenGLState.BindTexture2D env index h S).2.2 =
        [.glActiveTexture (env.PicaTexture index.val).Enum, .glBindTexture GL_TEXTURE_2D h] ∧
      (OpenGLState.BindTexture2D env index h S).2.1 =
        { S with
          texture_units := fun i =>
            if i = index then { S.texture_units index with texture_2d := h }
            else S.texture_units i }) ∧
    ((OpenGLState.BindSampler index h S).1 = (S.texture_units index).sampler ∧
      (OpenGLState.BindSampler index h S).2.2 = [.glBindSampler index.val h] ∧
      (OpenGLState.BindSampler index h S).2.1 =
        { S with
          texture_units := fun i =>
            if i = index then { S.texture_units index with sampler := h }
            else S.texture_units i }) ∧
    ((OpenGLState.BindTextureCube env h S).1 = S.texture_cube_unit.texture_cube ∧
      (OpenGLState.BindTextureCube env h S).2.2 =
        [.glActiveTexture env.TextureCube.Enum, .glBindTexture GL_TEXTURE_CUBE_MAP h] ∧
      (OpenGLState.BindTextureCube env h S).2.1 =
        { S with texture_cube_unit := { S.texture_cube_unit with texture_cube := h } }) ∧
    ((OpenGLState.BindReadFramebuffer h S).1 = S.draw.read_framebuffer ∧
      (OpenGLState.BindReadFramebuffer h S).2.2 = [.glBindFramebuffer GL_READ_FRAMEBUFFER h] ∧
      (OpenGLState.BindReadFramebuffer h S).2.1 =
        { S with draw := { S.draw with read_framebuffer := h } }) ∧
    ((OpenGLState.BindShaderProgram h S).1 = S.draw.shader_program ∧
      (OpenGLState.BindShaderProgram h S).2.2 = [.glUseProgram h] ∧
      (OpenGLState.BindShaderProgram h S).2.1 =
        { S with draw := { S.draw with shader_program := h } }) := by
  refine ⟨⟨rfl, rfl, rfl⟩, ⟨rfl, rfl, rfl⟩, ⟨rfl, rfl, ?_⟩, ⟨rfl, rfl, ?_⟩, ⟨rfl, rfl, rfl⟩,
    ⟨rfl, rfl, rfl⟩, ⟨rfl, rfl, rfl⟩⟩
  · simp only [OpenGLState.BindTexture2D]
    congr 1
    funext i
    by_cases hi : i = index
    · subst hi; simp
    · simp [hi]
  · simp only [OpenGLState.BindSampler]
    congr 1
    funext i
    by_cases hi : i = index
    · subst hi; simp
    · simp [hi]

/-- C7. Bind/restore round trip: for every shadow `S`, unit `i` and handle `A`,
`previous = BindTexture2D(i, A)` followed by `BindTexture2D(i, previous)` leaves
the whole shadow, and so the 2D slot of unit `i`, as in `S`, and the second call
issues the bind with `previous`.  Instance: on the sample shadow
`BindTexture2D(2, 42)` returns 0, and `BindTexture2D(2, 0)` then puts slot 2
back to 0 and issues the bind of 0 on unit 2. -/
theorem BindTexture2D_round_trip {nTex nClip : Nat} (env : Env) (S : OpenGLState nTex nClip)
    (i : Fin nTex) (A : GLuint) :
    (OpenGLState.BindTexture2D env i (OpenGLState.BindTexture2D env i A S).1
        (OpenGLState.BindTexture2D env i A S).2.1).2.1 = S ∧
    ((OpenGLState.BindTexture2D env i (OpenGLState.BindTexture2D env i A S).1
        (OpenGLState.BindTexture2D env i A S).2.1).2.1.texture_units i).texture_2d =
      (S.texture_units i).texture_2d ∧
    (OpenGLState.BindTexture2D env i (OpenGLState.BindTexture2D env i A S).1
        (OpenGLState.BindTexture2D env i A S).2.1).2.2 =
      [.glActiveTexture (env.PicaTexture i.val).Enum,
       .glBindTexture GL_TEXTURE_2D (S.texture_units i).texture_2d] ∧
    (OpenGLState.BindTexture2D sampleEnv 2 42 sampleState).1 = 0 ∧
    ((OpenGLState.BindTexture2D sampleEnv 2 0
        (OpenGLState.BindTexture2D sampleEnv 2 42 sampleState).2.1).2.1.texture_units 2).texture_2d
      = 0 ∧
    (OpenGLState.BindTexture2D sampleEnv 2 0
        (OpenGLState.BindTexture2D sampleEnv 2 42 sampleState).2.1).2.2 =
      [.glActiveTexture (GL_TEXTURE0 + 2), .glBindTexture GL_TEXTURE_2D 0] := by
  have hS : (OpenGLState.BindTexture2D env i (OpenGLState.BindTexture2D env i A S).1
      (OpenGLState.BindTexture2D env i A S).2.1).2.1 = S := by
    simp only [OpenGLState.BindTexture2D, Function.update_same, Function.update_idem]
    have : Function.update S.texture_units i
        { texture_2d := (S.texture_units i).texture_2d, sampler := (S.texture_units i).sampler }
        = S.texture_units := Function.update_eq_self i S.texture_units
    rw [this]
  refine ⟨hS, by rw [hS], rfl, rfl, ?_, rfl⟩
  simp [OpenGLState.BindTexture2D]

/-- C10. `BindDrawFramebuffer` is diffed: for every shadow `S` and handle `f` it
returns `S.draw.draw_framebuffer`, issues exactly one draw-framebuffer bind with
`f` when `f` differs from that value and no call when they are equal, and in
both cases leaves the shadow equal to `S` with `draw_framebuffer` set to `f`. -/
theorem BindDrawFramebuffer_diffed {nTex nClip : Nat} (S : OpenGLState nTex nClip)
    (f : GLuint) :
    (OpenGLState.BindDrawFramebuffer f S).1 = S.draw.draw_framebuffer ∧
    (OpenGLState.BindDrawFramebuffer f S).2.2 =
      (if f ≠ S.draw.draw_framebuffer then [.glBindFramebuffer GL_DRAW_FRAMEBUFFER f]
       else []) ∧
    (OpenGLState.BindDrawFramebuffer f S).2.1.draw.draw_framebuffer = f ∧
    (OpenGLState.BindDrawFramebuffer f S).2.1 =
      { S with draw := { S.draw with draw_framebuffer := f } } := by
  unfold OpenGLState.BindDrawFramebuffer
  by_cases h : S.draw.draw_framebuffer = f
  · subst h; simp
  · have h2 : ¬ f = S.draw.draw_framebuffer := fun e => h e.symm
    simp [h, h2]

/-! ## Partial reconciler -/

/-- C8. Scope of `SubApply`: for every prior shadow `S` and candidate `D`, every
call in the trace is a depth, stencil or color write-mask, a framebuffer bind,
the scissor-test toggle, the scissor rectangle or the viewport; the trace is
the three masks, then the read and the draw framebuffer bind, each present
exactly when the framebuffer of `D` differs from that of `S`, then the scissor
toggle, the scissor rectangle and the viewport, each once with the values of
`D`. -/
theorem SubApply_scope {nTex nClip : Nat} (S D : OpenGLState nTex nClip) :
    (∀ c ∈ (OpenGLState.SubApply D S).2, c.inSubApplyScope = true) ∧
    (OpenGLState.SubApply D S).2 =
      [.glDepthMask D.depth.write_mask, .glStencilMask D.stencil.write_mask,
       .glColorMask D.color_mask.red_enabled D.color_mask.green_enabled
         D.color_mask.blue_enabled D.color_mask.alpha_enabled] ++
      (if D.draw.read_framebuffer ≠ S.draw.read_framebuffer then
        [.glBindFramebuffer GL_READ_FRAMEBUFFER D.draw.read_framebuffer]
       else []) ++
      (if D.draw.draw_framebuffer ≠ S.draw.draw_framebuffer then
        [.glBindFramebuffer GL_DRAW_FRAMEBUFFER D.draw.draw_framebuffer]
       else []) ++
      [if D.scissor.enabled then .glEnable GL_SCISSOR_TEST else .glDisable GL_SCISSOR_TEST,
       .glScissor D.scissor.x D.scissor.y D.scissor.width D.scissor.height,
       .glViewport D.viewport.x D.viewport.y D.viewport.width D.viewport.height] ∧
    ((∃ h, GLCall.glBindFramebuffer GL_READ_FRAMEBUFFER h ∈ (OpenGLState.SubApply D S).2) ↔
      D.draw.read_framebuffer ≠ S.draw.read_framebuffer) ∧
    ((∃ h, GLCall.glBindFramebuffer GL_DRAW_FRAMEBUFFER h ∈ (OpenGLState.SubApply D S).2) ↔
      D.draw.draw_framebuffer ≠ S.draw.draw_framebuffer) := by
  have hrd : GL_READ_FRAMEBUFFER ≠ GL_DRAW_FRAMEBUFFER := by decide
  have hdr : GL_DRAW_FRAMEBUFFER ≠ GL_READ_FRAMEBUFFER := by decide
  simp only [OpenGLState.SubApply, List.flatten, List.append_nil]
  by_cases h1 : D.draw.read_framebuffer = S.draw.read_framebuffer <;>
    by_cases h2 : D.draw.draw_framebuffer = S.draw.draw_framebuffer <;>
    cases D.scissor.enabled <;>
    simp [h1, h2, hrd, hdr, GLCall.inSubApplyScope]

/-- C9. Postcondition of `SubApply`: for every prior shadow `S` and candidate
`D`, the shadow after `SubApply(D)` is `D`, in every field, also those for which
`SubApply` issued no device call. -/
theorem SubApply_shadow_eq {nTex nClip : Nat} (S D : OpenGLState nTex nClip) :
    (OpenGLState.SubApply D S).1 = D :=
  rfl

/-! ## The other invalidation hooks -/

theorem ResetSampler_units_foldl {nTex nClip : Nat} (handle : GLuint)
    (l : List (Fin nTex)) (hl : l.Nodup) (st : OpenGLState nTex nClip × List GLCall) :
    l.foldl (fun (st : OpenGLState nTex nClip × List GLCall) i =>
      if (st.1.texture_units i).sampler = handle then
        ({ st.1 with
            texture_units := Function.update st.1.texture_units i
              { st.1.texture_units i with sampler := 0 } },
         st.2 ++ [.glBindSampler i.val 0])
      else st) st =
    ({ st.1 with
        texture_units := fun i =>
          if i ∈ l ∧ (st.1.texture_units i).sampler = handle then
            { st.1.texture_units i with sampler := 0 }
          else st.1.texture_units i },
     st.2 ++ l.flatMap (fun i =>
       if (st.1.texture_units i).sampler = handle then [.glBindSampler i.val 0] else [])) := by
  induction l generalizing st with
  | nil => simp
  | cons a l ih =>
    rw [List.nodup_cons] at hl
    rw [List.foldl_cons, ih hl.2]
    by_cases ha : (st.1.texture_units a).sampler = handle
    · simp only [ha, if_true, List.flatMap_cons, List.append_assoc]
      refine Prod.ext ?_ ?_
      · simp only
        congr 1
        funext i
        by_cases hia : i = a
        · subst hia
          simp [hl.1, ha]
        · simp [hia, Function.update_noteq hia]
      · simp only
        congr 2
        apply flatMap_congr_mem
        intro b hb
        have hba : b ≠ a := fun h => hl.1 (h ▸ hb)
        simp [Function.update_noteq hba]
    · simp only [ha, if_false, List.flatMap_cons, List.nil_append]
      refine Prod.ext ?_ rfl
      simp only
      congr 1
      funext i
      by_cases hia : i = a
      · subst hia
        simp [ha]
      · simp [hia]

theorem ResetSampler_eq {nTex nClip : Nat} (env : Env) (H : GLuint)
    (S : OpenGLState nTex nClip) :
    OpenGLState.ResetSampler env H S =
    ({ S with
        texture_units := fun i =>
          if (S.texture_units i).sampler = H then { S.texture_units i with sampler := 0 }
          else S.texture_units i
        texture_cube_unit :=
          if S.texture_cube_unit.sampler = H then { S.texture_cube_unit with sampler := 0 }
          else S.texture_cube_unit },
     (List.finRange nTex).flatMap (fun i =>
        if (S.texture_units i).sampler = H then [.glBindSampler i.val 0] else []) ++
      (if S.texture_cube_unit.sampler = H then [.glBindSampler env.TextureCube.id 0]
       else [])) := by
  unfold OpenGLState.ResetSampler OpenGLState.ResetSampler.units
  rw [ResetSampler_units_foldl H _ (List.nodup_finRange nTex)]
  by_cases h : S.texture_cube_unit.sampler = H <;> simp [h, List.mem_finRange]

/-- C11. `ResetFramebuffer` treats the read and the draw slot independently: for
every shadow `S` and handle `H`, the read slot is 0 afterwards exactly where it
held `H`, with one unbind of the read target, and likewise the draw slot with
one unbind of the draw target; a slot that did not hold `H` keeps its value and
gets no call, and no other field changes.  Instance: with read = 5 and draw = 9,
`ResetFramebuffer(5)` gives read = 0 with one read-target unbind and draw = 9. -/
theorem ResetFramebuffer_independent {nTex nClip : Nat} (S : OpenGLState nTex nClip)
    (H : GLuint) :
    (OpenGLState.ResetFramebuffer H S).1 =
      { S with
        draw :=
          { S.draw with
            read_framebuffer :=
              if S.draw.read_framebuffer = H then 0 else S.draw.read_framebuffer
            draw_framebuffer :=
              if S.draw.draw_framebuffer = H then 0 else S.draw.draw_framebuffer } } ∧
    (OpenGLState.ResetFramebuffer H S).2 =
      (if S.draw.read_framebuffer = H then [.glBindFramebuffer GL_READ_FRAMEBUFFER 0]
       else []) ++
      (if S.draw.draw_framebuffer = H then [.glBindFramebuffer GL_DRAW_FRAMEBUFFER 0]
       else []) ∧
    (OpenGLState.ResetFramebuffer 5 sampleFramebuffers).1.draw.read_framebuffer = 0 ∧
    (OpenGLState.ResetFramebuffer 5 sampleFramebuffers).1.draw.draw_framebuffer = 9 ∧
    (OpenGLState.ResetFramebuffer 5 sampleFramebuffers).2 =
      [.glBindFramebuffer GL_READ_FRAMEBUFFER 0] := by
  refine ⟨?_, ?_, by decide, by decide, by decide⟩
  · unfold OpenGLState.ResetFramebuffer
    by_cases h1 : S.draw.read_framebuffer = H <;>
      by_cases h2 : S.draw.draw_framebuffer = H <;> simp [h1, h2]
  · unfold OpenGLState.ResetFramebuffer
    by_cases h1 : S.draw.read_framebuffer = H <;>
      by_cases h2 : S.draw.draw_framebuffer = H <;> simp [h1, h2]

/-- C12. The remaining invalidation hooks scrub exactly their own slots: for
every shadow `S` and handle `H`, `ResetSampler(H)` zeroes every texture-unit
sampler slot and the cube sampler slot that held `H`, `ResetBuffer(H)` the
vertex-buffer and the uniform-buffer slot, `ResetProgram`, `ResetPipeline` and
`ResetVertexArray` their single slot, each exactly where it held `H`, with one
unbind per scrubbed slot in the order of the scan and no other call or change;
when no slot of the kind holds `H` the hook issues no call and leaves the shadow
as it was. -/
theorem Reset_hooks_scrub {nTex nClip : Nat} (env : Env) (S : OpenGLState nTex nClip)
    (H : GLuint) :
    (OpenGLState.ResetSampler env H S =
      ({ S with
          texture_units := fun i =>
            if (S.texture_units i).sampler = H then { S.texture_units i with sampler := 0 }
            else S.texture_units i
          texture_cube_unit :=
            if S.texture_cube_unit.sampler = H then { S.texture_cube_unit with sampler := 0 }
            else S.texture_cube_unit },
       (List.finRange nTex).flatMap (fun i =>
          if (S.texture_units i).sampler = H then [.glBindSampler i.val 0] else []) ++
        (if S.texture_cube_unit.sampler = H then [.glBindSampler env.TextureCube.id 0]
         else [])) ∧
      ((∀ i, (S.texture_units i).sampler ≠ H) → S.texture_cube_unit.sampler ≠ H →
        OpenGLState.ResetSampler env H S = (S, []))) ∧
    (OpenGLState.ResetBuffer H S =
      ({ S with
          draw :=
            { S.draw with
              vertex_buffer := if S.draw.vertex_buffer = H then 0 else S.draw.vertex_buffer
              uniform_buffer :=
                if S.draw.uniform_buffer = H then 0 else S.draw.uniform_buffer } },
       (if S.draw.vertex_buffer = H then [.glBindBuffer GL_ARRAY_BUFFER 0] else []) ++
        (if S.draw.uniform_buffer = H then [.glBindBuffer GL_UNIFORM_BUFFER 0] else [])) ∧
      (S.draw.vertex_buffer ≠ H → S.draw.uniform_buffer ≠ H →
        OpenGLState.ResetBuffer H S = (S, []))) ∧
    (OpenGLState.ResetProgram H S =
      ({ S with
          draw :=
            { S.draw with
              shader_program :=
                if S.draw.shader_program = H then 0 else S.draw.shader_program } },
       if S.draw.shader_program = H then [.glUseProgram 0] else []) ∧
      (S.draw.shader_program ≠ H → OpenGLState.ResetProgram H S = (S, []))) ∧
    (OpenGLState.ResetPipeline H S =
      ({ S with
          draw :=
            { S.draw with
              program_pipeline :=
                if S.draw.program_pipeline = H then 0 else S.draw.program_pipeline } },
       if S.draw.program_pipeline = H then [.glBindProgramPipeline 0] else []) ∧
      (S.draw.program_pipeline ≠ H → OpenGLState.ResetPipeline H S = (S, []))) ∧
    (OpenGLState.ResetVertexArray H S =
      ({ S with
          draw :=
            { S.draw with
              vertex_array := if S.draw.vertex_array = H then 0 else S.draw.vertex_array } },
       if S.draw.vertex_array = H then [.glBindVertexArray 0] else []) ∧
      (S.draw.vertex_array ≠ H → OpenGLState.ResetVertexArray H S = (S, []))) := by
  refine ⟨⟨ResetSampler_eq env H S, ?_⟩, ⟨?_, ?_⟩, ⟨?_, ?_⟩, ⟨?_, ?_⟩, ⟨?_, ?_⟩⟩
  · intro hu hc
    rw [ResetSampler_eq]
    simp [hu, hc, flatMap_const_nil]
  · unfold OpenGLState.ResetBuffer
    by_cases h1 : S.draw.vertex_buffer = H <;>
      by_cases h2 : S.draw.uniform_buffer = H <;> simp [h1, h2]
  · intro h1 h2
    simp [OpenGLState.ResetBuffer, h1, h2]
  · unfold OpenGLState.ResetProgram
    by_cases h1 : S.draw.shader_program = H <;> simp [h1]
  · intro h1
    simp [OpenGLState.ResetProgram, h1]
  · unfold OpenGLState.ResetPipeline
    by_cases h1 : S.draw.program_pipeline = H <;> simp [h1]
  · intro h1
    simp [OpenGLState.ResetPipeline, h1]
  · unfold OpenGLState.ResetVertexArray
    by_cases h1 : S.draw.vertex_array = H <;> simp [h1]
  · intro h1
    simp [OpenGLState.ResetVertexArray, h1]

/-- C12 at the sample shadow, in which no sampler, buffer, program, pipeline or
vertex-array slot holds the handle 7: none of the five hooks issues a call or
changes the shadow. -/
theorem Reset_hooks_scrub_witness :
    OpenGLState.ResetSampler sampleEnv 7 sampleState = (sampleState, []) ∧
    OpenGLState.ResetBuffer 7 sampleState = (sampleState, []) ∧
    OpenGLState.ResetProgram 7 sampleState = (sampleState, []) ∧
    OpenGLState.ResetPipeline 7 sampleState = (sampleState, []) ∧
    OpenGLState.ResetVertexArray 7 sampleState = (sampleState, []) :=
  ⟨(Reset_hooks_scrub sampleEnv sampleState 7).1.2 (by decide) (by decide),
   (Reset_hooks_scrub sampleEnv sampleState 7).2.1.2 (by decide) (by decide),
   (Reset_hooks_scrub sampleEnv sampleState 7).2.2.1.2 (by decide),
   (Reset_hooks_scrub sampleEnv sampleState 7).2.2.2.1.2 (by decide),
   (Reset_hooks_scrub sampleEnv sampleState 7).2.2.2.2.2 (by decide)⟩

/-! ## Membership in the trace of `Apply` -/

theorem mem_issue {nTex nClip : Nat} (env : Env) (D : OpenGLState nTex nClip)
    (d : DiffedField nTex nClip → Bool) (F : DiffedField nTex nClip) (c : GLCall) :
    c ∈ DiffedField.issue env D d F ↔ d F = true ∧ c ∈ F.calls env D := by
  unfold DiffedField.issue
  split <;> simp_all

/-- A call is in the emission exactly when it is an unconditional call or one of
the calls of a selected diffed field. -/
theorem mem_emission {nTex nClip : Nat} (env : Env) (D : OpenGLState nTex nClip)
    (d : DiffedField nTex nClip → Bool) (c : GLCall) :
    c ∈ emission env D d ↔
      c ∈ unconditionalCalls D ∨ ∃ F, d F = true ∧ c ∈ F.calls env D := by
  rw [unconditionalCalls_eq]
  simp only [emission, List.mem_append, List.mem_flatMap, List.mem_finRange, true_and,
    mem_issue]
  constructor
  · intro h
    simp only [or_assoc] at h
    rcases h with h | h | h | h | ⟨a, h | h⟩ | h | h | h | h | h | h | h | h | h | h | h | h |
      h | h | h | h | h | h | h | h | ⟨a, h⟩
    all_goals first
      | exact Or.inl (Or.inl (Or.inl h))
      | exact Or.inl (Or.inl (Or.inr h))
      | exact Or.inl (Or.inr h)
      | exact Or.inr ⟨_, h⟩
  · rintro (h | ⟨F, hF, hc⟩)
    · rcases h with (h | h) | h <;> simp [h]
    · cases F with
      | texture_2d i => simp only [or_assoc]; exact Or.inr (Or.inr (Or.inr (Or.inr (Or.inl ⟨i, Or.inl ⟨hF, hc⟩⟩))))
      | sampler i => simp only [or_assoc]; exact Or.inr (Or.inr (Or.inr (Or.inr (Or.inl ⟨i, Or.inr ⟨hF, hc⟩⟩))))
      | clip_distance i => exact Or.inr ⟨i, hF, hc⟩
      | _ => simp [hF, hc]

theorem mem_Apply_trace {nTex nClip : Nat} (env : Env) (S D : OpenGLState nTex nClip)
    (c : GLCall) :
    c ∈ (OpenGLState.Apply env D S).2 ↔
      c ∈ unconditionalCalls D ∨
        ∃ F, DiffedField.differs D S F = true ∧ c ∈ F.calls env D := by
  rw [Apply_trace_eq_emission, mem_emission]

/-! ## Blending and the logic op -/

theorem clip_cap_ne (i : Nat) (c : Nat) (hc : c < 0x3000) : GL_CLIP_DISTANCE0 + i ≠ c := by
  have h : (0x3000 : Nat) + i ≠ c := by omega
  exact h

theorem toggle_mem_unconditionalCalls {nTex nClip : Nat} (D : OpenGLState nTex nClip)
    (cap : GLenum)
    (h : GLCall.glEnable cap ∈ unconditionalCalls D ∨ GLCall.glDisable cap ∈ unconditionalCalls D) :
    cap = GL_CULL_FACE ∨ cap = GL_DEPTH_TEST ∨ cap = GL_STENCIL_TEST ∨ cap = GL_SCISSOR_TEST := by
  simp only [unconditionalCalls, List.mem_append] at h
  revert h
  cases D.cull.enabled <;> cases D.depth.test_enabled <;> cases D.stencil.test_enabled <;>
    cases D.scissor.enabled <;> simp <;> tauto

theorem glLogicOp_not_mem_unconditionalCalls {nTex nClip : Nat} (D : OpenGLState nTex nClip)
    (op : GLenum) : GLCall.glLogicOp op ∉ unconditionalCalls D := by
  simp only [unconditionalCalls, List.mem_append]
  cases D.cull.enabled <;> cases D.depth.test_enabled <;> cases D.stencil.test_enabled <;>
    cases D.scissor.enabled <;> simp

theorem toggle_mem_clip_calls {nTex nClip : Nat} (env : Env) (D : OpenGLState nTex nClip)
    (i : Fin nClip) (cap : GLenum)
    (h : GLCall.glEnable cap ∈ DiffedField.calls env D (.clip_distance i) ∨
      GLCall.glDisable cap ∈ DiffedField.calls env D (.clip_distance i)) :
    cap = GL_CLIP_DISTANCE0 + i.val := by
  simp only [DiffedField.calls] at h
  split at h
  · split at h <;> simp at h <;> exact h
  · simp at h

/-- C18. Blend enable and logic-op coupling in `Apply`: for every `S` and `D`,
the blend toggle (`glEnable` or `glDisable` of `GL_BLEND`, by the value in `D`)
is issued iff `D.blend.enabled` differs from `S.blend.enabled`; the inverse
toggle of `GL_COLOR_LOGIC_OP` (disable when blend is enabled, enable when it is
disabled) is issued iff moreover the device is not GLES, so never on GLES; and
`glLogicOp` is issued, with `D.logic_op`, iff the device is not GLES and
`D.logic_op` differs from `S.logic_op`. -/
theorem Apply_blend_logic_op {nTex nClip : Nat} (env : Env) (S D : OpenGLState nTex nClip) :
    (GLCall.glEnable GL_BLEND ∈ (OpenGLState.Apply env D S).2 ↔
      D.blend.enabled ≠ S.blend.enabled ∧ D.blend.enabled = true) ∧
    (GLCall.glDisable GL_BLEND ∈ (OpenGLState.Apply env D S).2 ↔
      D.blend.enabled ≠ S.blend.enabled ∧ D.blend.enabled = false) ∧
    (GLCall.glDisable GL_COLOR_LOGIC_OP ∈ (OpenGLState.Apply env D S).2 ↔
      D.blend.enabled ≠ S.blend.enabled ∧ env.GLES = false ∧ D.blend.enabled = true) ∧
    (GLCall.glEnable GL_COLOR_LOGIC_OP ∈ (OpenGLState.Apply env D S).2 ↔
      D.blend.enabled ≠ S.blend.enabled ∧ env.GLES = false ∧ D.blend.enabled = false) ∧
    (∀ op, GLCall.glLogicOp op ∈ (OpenGLState.Apply env D S).2 ↔
      env.GLES = false ∧ D.logic_op ≠ S.logic_op ∧ op = D.logic_op) := by
  have hu1 : ∀ cap, cap = GL_BLEND ∨ cap = GL_COLOR_LOGIC_OP →
      GLCall.glEnable cap ∉ unconditionalCalls D := by
    intro cap hcap h
    have := toggle_mem_unconditionalCalls D cap (Or.inl h)
    rcases hcap with rfl | rfl <;> revert this <;> decide
  have hu2 : ∀ cap, cap = GL_BLEND ∨ cap = GL_COLOR_LOGIC_OP →
      GLCall.glDisable cap ∉ unconditionalCalls D := by
    intro cap hcap h
    have := toggle_mem_unconditionalCalls D cap (Or.inr h)
    rcases hcap with rfl | rfl <;> revert this <;> decide
  have hbl : GL_BLEND ≠ GL_COLOR_LOGIC_OP := by decide
  have hlb : GL_COLOR_LOGIC_OP ≠ GL_BLEND := by decide
  refine ⟨?_, ?_, ?_, ?_, ?_⟩
  · rw [mem_Apply_trace]
    constructor
    · rintro (h | ⟨F, hF, hc⟩)
      · exact absurd h (hu1 _ (Or.inl rfl))
      · cases F with
        | blend_enabled =>
          cases hb : D.blend.enabled <;> simp_all [DiffedField.calls, DiffedField.differs]
        | clip_distance i =>
          exact absurd (toggle_mem_clip_calls env D i _ (Or.inl hc)).symm
            (clip_cap_ne _ _ (by decide))
        | _ => simp_all [DiffedField.calls, DiffedField.differs]
    · rintro ⟨h1, h2⟩
      exact Or.inr ⟨.blend_enabled, by simp [DiffedField.differs, h1],
        by simp [DiffedField.calls, h2]⟩
  · rw [mem_Apply_trace]
    constructor
    · rintro (h | ⟨F, hF, hc⟩)
      · exact absurd h (hu2 _ (Or.inl rfl))
      · cases F with
        | blend_enabled =>
          cases hb : D.blend.enabled <;> simp_all [DiffedField.calls, DiffedField.differs]
        | clip_distance i =>
          exact absurd (toggle_mem_clip_calls env D i _ (Or.inr hc)).symm
            (clip_cap_ne _ _ (by decide))
        | _ => simp_all [DiffedField.calls, DiffedField.differs]
    · rintro ⟨h1, h2⟩
      exact Or.inr ⟨.blend_enabled, by simp [DiffedField.differs, h1],
        by simp [DiffedField.calls, h2]⟩
  · rw [mem_Apply_trace]
    constructor
    · rintro (h | ⟨F, hF, hc⟩)
      · exact absurd h (hu2 _ (Or.inr rfl))
      · cases F with
        | blend_enabled =>
          cases hb : D.blend.enabled <;> simp_all [DiffedField.calls, DiffedField.differs]
        | clip_distance i =>
          exact absurd (toggle_mem_clip_calls env D i _ (Or.inr hc)).symm
            (clip_cap_ne _ _ (by decide))
        | _ => simp_all [DiffedField.calls, DiffedField.differs]
    · rintro ⟨h1, h2, h3⟩
      exact Or.inr ⟨.blend_enabled, by simp [DiffedField.differs, h1],
        by simp [DiffedField.calls, h2, h3]⟩
  · rw [mem_Apply_trace]
    constructor
    · rintro (h | ⟨F, hF, hc⟩)
      · exact absurd h (hu1 _ (Or.inr rfl))
      · cases F with
        | blend_enabled =>
          cases hb : D.blend.enabled <;> simp_all [DiffedField.calls, DiffedField.differs]
        | clip_distance i =>
          exact absurd (toggle_mem_clip_calls env D i _ (Or.inl hc)).symm
            (clip_cap_ne _ _ (by decide))
        | _ => simp_all [DiffedField.calls, DiffedField.differs]
    · rintro ⟨h1, h2, h3⟩
      exact Or.inr ⟨.blend_enabled, by simp [DiffedField.differs, h1],
        by simp [DiffedField.calls, h2, h3]⟩
  · intro op
    rw [mem_Apply_trace]
    constructor
    · rintro (h | ⟨F, hF, hc⟩)
      · exact absurd h (glLogicOp_not_mem_unconditionalCalls D op)
      · cases F with
        | blend_enabled =>
          cases hb : D.blend.enabled <;> simp_all [DiffedField.calls, DiffedField.differs]
        | clip_distance i =>
          cases hb : D.clip_distance i <;> simp_all [DiffedField.calls, DiffedField.differs]
        | _ => simp_all [DiffedField.calls, DiffedField.differs]
    · rintro ⟨h1, h2, h3⟩
      exact Or.inr ⟨.logic_op, by simp [DiffedField.differs, h2],
        by simp [DiffedField.calls, h1, h3]⟩

/-! ## The constructor and the first scenario -/

/-- C15. What the constructor leaves in a descriptor, whatever value `lf` the
member `texture_buffer_lut_lf` had before: culling enabled, back, CCW; depth
test off, less, write on; all four color channels writable; stencil test off,
always, reference 0, masks 0xFF, all three actions keep; blend off, add
equations, factors one and zero, color (0,0,0,0); logic op copy; every texture
unit, the cube unit, the RG and RGBA LUT, every shadow image, every draw binding
and the renderbuffer 0; scissor off with zero rectangle; zero viewport; all clip
distances off.  The linear-filter LUT binding is not assigned: it is still
`lf`, which for 0xDEADBEEF is not 0. -/
theorem ctor_defaults (nTex nClip : Nat) (lf : TextureBufferLUT) :
    (OpenGLState.ctor nTex nClip lf).cull =
      { enabled := true, mode := GL_BACK, front_face := GL_CCW } ∧
    (OpenGLState.ctor nTex nClip lf).depth =
      { test_enabled := false, test_func := GL_LESS, write_mask := GL_TRUE } ∧
    (OpenGLState.ctor nTex nClip lf).color_mask =
      { red_enabled := GL_TRUE, green_enabled := GL_TRUE, blue_enabled := GL_TRUE,
        alpha_enabled := GL_TRUE } ∧
    (OpenGLState.ctor nTex nClip lf).stencil =
      { test_enabled := false, test_func := GL_ALWAYS, test_ref := 0, test_mask := 0xFF,
        write_mask := 0xFF, action_stencil_fail := GL_KEEP, action_depth_fail := GL_KEEP,
        action_depth_pass := GL_KEEP } ∧
    (OpenGLState.ctor nTex nClip lf).blend =
      { enabled := false, rgb_equation := GL_FUNC_ADD, a_equation := GL_FUNC_ADD,
        src_rgb_func := GL_ONE, dst_rgb_func := GL_ZERO, src_a_func := GL_ONE,
        dst_a_func := GL_ZERO, color := { red := 0, green := 0, blue := 0, alpha := 0 } } ∧
    (OpenGLState.ctor nTex nClip lf).logic_op = GL_COPY ∧
    (∀ i, (OpenGLState.ctor nTex nClip lf).texture_units i = { texture_2d := 0, sampler := 0 }) ∧
    (OpenGLState.ctor nTex nClip lf).texture_cube_unit = { texture_cube := 0, sampler := 0 } ∧
    (OpenGLState.ctor nTex nClip lf).texture_buffer_lut_rg = { texture_buffer := 0 } ∧
    (OpenGLState.ctor nTex nClip lf).texture_buffer_lut_rgba = { texture_buffer := 0 } ∧
    (OpenGLState.ctor nTex nClip lf).image_shadow_buffer = 0 ∧
    (OpenGLState.ctor nTex nClip lf).image_shadow_texture_px = 0 ∧
    (OpenGLState.ctor nTex nClip lf).image_shadow_texture_nx = 0 ∧
    (OpenGLState.ctor nTex nClip lf).image_shadow_texture_py = 0 ∧
    (OpenGLState.ctor nTex nClip lf).image_shadow_texture_ny = 0 ∧
    (OpenGLState.ctor nTex nClip lf).image_shadow_texture_pz = 0 ∧
    (OpenGLState.ctor nTex nClip lf).image_shadow_texture_nz = 0 ∧
    (OpenGLState.ctor nTex nClip lf).draw =
      { read_framebuffer := 0, draw_framebuffer := 0, vertex_array := 0, vertex_buffer := 0,
        uniform_buffer := 0, shader_program := 0, program_pipeline := 0 } ∧
    (OpenGLState.ctor nTex nClip lf).scissor =
      { enabled := false, x := 0, y := 0, width := 0, height := 0 } ∧
    (OpenGLState.ctor nTex nClip lf).viewport = { x := 0, y := 0, width := 0, height := 0 } ∧
    (∀ i, (OpenGLState.ctor nTex nClip lf).clip_distance i = false) ∧
    (OpenGLState.ctor nTex nClip lf).renderbuffer = 0 ∧
    (OpenGLState.ctor nTex nClip lf).texture_buffer_lut_lf = lf ∧
    (OpenGLState.ctor 3 2 { texture_buffer := 0xDEADBEEF }).texture_buffer_lut_lf.texture_buffer
      ≠ 0 := by
  refine ⟨rfl, rfl, rfl, rfl, rfl, rfl, fun _ => rfl, rfl, rfl, rfl, rfl, rfl, rfl, rfl, rfl,
    rfl, rfl, rfl, rfl, rfl, fun _ => rfl, rfl, rfl, by decide⟩

theorem differs_ctor {nTex nClip : Nat} (lfS lfD : TextureBufferLUT) :
    DiffedField.differs (OpenGLState.ctor nTex nClip lfD) (OpenGLState.ctor nTex nClip lfS) =
      fun G => decide (G = .texture_buffer_lut_lf ∧ lfD.texture_buffer ≠ lfS.texture_buffer) := by
  funext G
  cases G <;> simp [DiffedField.differs, OpenGLState.ctor]

theorem emission_lut_lf {nTex nClip : Nat} (env : Env) (D : OpenGLState nTex nClip)
    (p : Prop) [Decidable p] :
    emission env D (fun G => decide (G = .texture_buffer_lut_lf ∧ p)) =
      OpenGLState.Apply.rasterizer D ++ blendParameterCalls D ++
        (if p then DiffedField.calls env D .texture_buffer_lut_lf else []) ++
        OpenGLState.Apply.scissorViewport D := by
  by_cases hp : p <;>
    simp [emission, DiffedField.issue, flatMap_const_nil, hp]

theorem Apply_default_trace {nTex nClip : Nat} (env : Env) (lfS lfD : TextureBufferLUT) :
    (OpenGLState.Apply env (OpenGLState.ctor nTex nClip lfD)
        (OpenGLState.ctor nTex nClip lfS)).2 =
      [.glEnable GL_CULL_FACE, .glCullFace GL_BACK, .glFrontFace GL_CCW,
       .glDisable GL_DEPTH_TEST, .glDepthFunc GL_LESS, .glDepthMask GL_TRUE,
       .glColorMask GL_TRUE GL_TRUE GL_TRUE GL_TRUE,
       .glDisable GL_STENCIL_TEST, .glStencilFunc GL_ALWAYS 0 0xFF,
       .glStencilOp GL_KEEP GL_KEEP GL_KEEP, .glStencilMask 0xFF,
       .glBlendColor 0 0 0 0, .glBlendFuncSeparate GL_ONE GL_ZERO GL_ONE GL_ZERO,
       .glBlendEquationSeparate GL_FUNC_ADD GL_FUNC_ADD] ++
      (if lfD.texture_buffer ≠ lfS.texture_buffer then
        [.glActiveTexture env.TextureBufferLUT_LF.Enum,
         .glBindTexture GL_TEXTURE_BUFFER lfD.texture_buffer]
       else []) ++
      [.glDisable GL_SCISSOR_TEST, .glScissor 0 0 0 0, .glViewport 0 0 0 0] := by
  rw [Apply_trace_eq_emission, differs_ctor, emission_lut_lf]
  simp [OpenGLState.Apply.rasterizer, blendParameterCalls, OpenGLState.Apply.scissorViewport,
    List.flatten, OpenGLState.ctor, DiffedField.calls]

/-- C16, as the code has it. With a default-constructed shadow, `Apply` of a
default-constructed descriptor issues exactly the seventeen unconditional
calls with the default values, among them the cull enable with mode back and
front face CCW, the depth-test disable, the full-write color mask, the
stencil-test disable and the stencil function (always, 0, 0xFF), and besides
them only the bind of the linear-filter LUT buffer, when the member the
constructor leaves unassigned differs between the two.  It issues no blend
enable or disable, blend being off in both; no 2D-texture, cube-texture or
sampler bind; no texture bind and no unit selection other than that of the
linear-filter LUT, so none for the RG and RGBA LUTs; no image bind; and
afterwards the shadow is the descriptor. -/
theorem Apply_default_scenario {nTex nClip : Nat} (env : Env) (lfS lfD : TextureBufferLUT) :
    (OpenGLState.Apply env (OpenGLState.ctor nTex nClip lfD)
        (OpenGLState.ctor nTex nClip lfS)).2 =
      [.glEnable GL_CULL_FACE, .glCullFace GL_BACK, .glFrontFace GL_CCW,
       .glDisable GL_DEPTH_TEST, .glDepthFunc GL_LESS, .glDepthMask GL_TRUE,
       .glColorMask GL_TRUE GL_TRUE GL_TRUE GL_TRUE,
       .glDisable GL_STENCIL_TEST, .glStencilFunc GL_ALWAYS 0 0xFF,
       .glStencilOp GL_KEEP GL_KEEP GL_KEEP, .glStencilMask 0xFF,
       .glBlendColor 0 0 0 0, .glBlendFuncSeparate GL_ONE GL_ZERO GL_ONE GL_ZERO,
       .glBlendEquationSeparate GL_FUNC_ADD GL_FUNC_ADD] ++
      (if lfD.texture_buffer ≠ lfS.texture_buffer then
        [.glActiveTexture env.TextureBufferLUT_LF.Enum,
         .glBindTexture GL_TEXTURE_BUFFER lfD.texture_buffer]
       else []) ++
      [.glDisable GL_SCISSOR_TEST, .glScissor 0 0 0 0, .glViewport 0 0 0 0] ∧
    GLCall.glEnable GL_CULL_FACE ∈
      (OpenGLState.Apply env (OpenGLState.ctor nTex nClip lfD)
        (OpenGLState.ctor nTex nClip lfS)).2 ∧
    GLCall.glCullFace GL_BACK ∈
      (OpenGLState.Apply env (OpenGLState.ctor nTex nClip lfD)
        (OpenGLState.ctor nTex nClip lfS)).2 ∧
    GLCall.glFrontFace GL_CCW ∈
      (OpenGLState.Apply env (OpenGLState.ctor nTex nClip lfD)
        (OpenGLState.ctor nTex nClip lfS)).2 ∧
    GLCall.glDisable GL_DEPTH_TEST ∈
      (OpenGLState.Apply env (OpenGLState.ctor nTex nClip lfD)
        (OpenGLState.ctor nTex nClip lfS)).2 ∧
    GLCall.glColorMask GL_TRUE GL_TRUE GL_TRUE GL_TRUE ∈
      (OpenGLState.Apply env (OpenGLState.ctor nTex nClip lfD)
        (OpenGLState.ctor nTex nClip lfS)).2 ∧
    GLCall.glDisable GL_STENCIL_TEST ∈
      (OpenGLState.Apply env (OpenGLState.ctor nTex nClip lfD)
        (OpenGLState.ctor nTex nClip lfS)).2 ∧
    GLCall.glStencilFunc GL_ALWAYS 0 0xFF ∈
      (OpenGLState.Apply env (OpenGLState.ctor nTex nClip lfD)
        (OpenGLState.ctor nTex nClip lfS)).2 ∧
    GLCall.glEnable GL_BLEND ∉
      (OpenGLState.Apply env (OpenGLState.ctor nTex nClip lfD)
        (OpenGLState.ctor nTex nClip lfS)).2 ∧
    GLCall.glDisable GL_BLEND ∉
      (OpenGLState.Apply env (OpenGLState.ctor nTex nClip lfD)
        (OpenGLState.ctor nTex nClip lfS)).2 ∧
    (∀ h, GLCall.glBindTexture GL_TEXTURE_2D h ∉
      (OpenGLState.Apply env (OpenGLState.ctor nTex nClip lfD)
        (OpenGLState.ctor nTex nClip lfS)).2) ∧
    (∀ h, GLCall.glBindTexture GL_TEXTURE_CUBE_MAP h ∉
      (OpenGLState.Apply env (OpenGLState.ctor nTex nClip lfD)
        (OpenGLState.ctor nTex nClip lfS)).2) ∧
    (∀ u h, GLCall.glBindSampler u h ∉
      (OpenGLState.Apply env (OpenGLState.ctor nTex nClip lfD)
        (OpenGLState.ctor nTex nClip lfS)).2) ∧
    (∀ target h, GLCall.glBindTexture target h ∈
      (OpenGLState.Apply env (OpenGLState.ctor nTex nClip lfD)
        (OpenGLState.ctor nTex nClip lfS)).2 →
      target = GL_TEXTURE_BUFFER ∧ h = lfD.texture_buffer ∧
        lfD.texture_buffer ≠ lfS.texture_buffer) ∧
    (∀ e, GLCall.glActiveTexture e ∈
      (OpenGLState.Apply env (OpenGLState.ctor nTex nClip lfD)
        (OpenGLState.ctor nTex nClip lfS)).2 →
      e = env.TextureBufferLUT_LF.Enum ∧ lfD.texture_buffer ≠ lfS.texture_buffer) ∧
    (∀ unit texture level layered layer access fmt,
      GLCall.glBindImageTexture unit texture level layered layer access fmt ∉
        (OpenGLState.Apply env (OpenGLState.ctor nTex nClip lfD)
          (OpenGLState.ctor nTex nClip lfS)).2) ∧
    (OpenGLState.Apply env (OpenGLState.ctor nTex nClip lfD)
        (OpenGLState.ctor nTex nClip lfS)).1 = OpenGLState.ctor nTex nClip lfD := by
  have hu : ∀ c, c ∈ unconditionalCalls (OpenGLState.ctor nTex nClip lfD) →
      c ∈ (OpenGLState.Apply env (OpenGLState.ctor nTex nClip lfD)
        (OpenGLState.ctor nTex nClip lfS)).2 := fun c hc => (mem_Apply_trace _ _ _ c).2 (Or.inl hc)
  have hn : ∀ c, c ∉ unconditionalCalls (OpenGLState.ctor nTex nClip lfD) →
      c ∉ DiffedField.calls env (OpenGLState.ctor nTex nClip lfD)
        (DiffedField.texture_buffer_lut_lf) →
      c ∉ (OpenGLState.Apply env (OpenGLState.ctor nTex nClip lfD)
        (OpenGLState.ctor nTex nClip lfS)).2 := by
    intro c h1 h2 h
    rw [mem_Apply_trace, differs_ctor] at h
    rcases h with h | ⟨F, hF, hc⟩
    · exact h1 h
    · simp only [decide_eq_true_eq] at hF
      rw [hF.1] at hc
      exact h2 hc
  have hTB : GL_TEXTURE_2D ≠ GL_TEXTURE_BUFFER := by decide
  have hCB : GL_TEXTURE_CUBE_MAP ≠ GL_TEXTURE_BUFFER := by decide
  have hA : ∀ target h, GLCall.glBindTexture target h ∈
      (OpenGLState.Apply env (OpenGLState.ctor nTex nClip lfD)
        (OpenGLState.ctor nTex nClip lfS)).2 →
      target = GL_TEXTURE_BUFFER ∧ h = lfD.texture_buffer ∧
        lfD.texture_buffer ≠ lfS.texture_buffer := by
    intro target h hm
    rw [Apply_default_trace] at hm
    by_cases hne : lfD.texture_buffer = lfS.texture_buffer
    · simp [hne] at hm
    · simp [hne] at hm
      exact ⟨hm.1, hm.2, hne⟩
  have hB : ∀ e, GLCall.glActiveTexture e ∈
      (OpenGLState.Apply env (OpenGLState.ctor nTex nClip lfD)
        (OpenGLState.ctor nTex nClip lfS)).2 →
      e = env.TextureBufferLUT_LF.Enum ∧ lfD.texture_buffer ≠ lfS.texture_buffer := by
    intro e hm
    rw [Apply_default_trace] at hm
    by_cases hne : lfD.texture_buffer = lfS.texture_buffer
    · simp [hne] at hm
    · simp [hne] at hm
      exact ⟨hm, hne⟩
  have hC : ∀ unit texture level layered layer access fmt,
      GLCall.glBindImageTexture unit texture level layered layer access fmt ∉
        (OpenGLState.Apply env (OpenGLState.ctor nTex nClip lfD)
          (OpenGLState.ctor nTex nClip lfS)).2 := by
    intro unit texture level layered layer access fmt hm
    rw [Apply_default_trace] at hm
    by_cases hne : lfD.texture_buffer = lfS.texture_buffer <;> simp [hne] at hm
  refine ⟨Apply_default_trace env lfS lfD, hu _ ?_, hu _ ?_, hu _ ?_, hu _ ?_, hu _ ?_, hu _ ?_,
    hu _ ?_, hn _ ?_ ?_, hn _ ?_ ?_, fun h => hn _ ?_ ?_, fun h => hn _ ?_ ?_,
    fun u h => hn _ ?_ ?_, hA, hB, hC, rfl⟩
  all_goals first
    | (simp [unconditionalCalls, OpenGLState.ctor, DiffedField.calls, hTB, hCB]; done)
    | (simp [unconditionalCalls, OpenGLState.ctor, DiffedField.calls, hTB, hCB]; decide)

/-- C16 as stated fails: with the sample shadow and the sample descriptor, both
as the constructor leaves them, `Apply` issues neither `glDisable(GL_BLEND)`
nor `glEnable(GL_BLEND)`: the device does not receive a blend-disable. -/
theorem Apply_default_scenario_counterexample :
    GLCall.glDisable GL_BLEND ∉ (OpenGLState.Apply sampleEnv sampleState sampleState).2 ∧
    GLCall.glEnable GL_BLEND ∉ (OpenGLState.Apply sampleEnv sampleState sampleState).2 := by
  decide

/-! ## `SubApply` followed by `Apply` -/

/-- C20. The hazard of `SubApply` followed by `Apply`: the sample shadow has
shader program 0 and the candidate shader program 7, all else equal; the traces
of `SubApply(D)` and of the `Apply(D)` that follows contain no `glUseProgram`
at all, whereas `Apply(D)` issued directly from the shadow contains
`glUseProgram(7)`. -/
theorem SubApply_then_Apply_hazard :
    ∃ S D : OpenGLState 3 2,
      S.draw.shader_program = 0 ∧ D.draw.shader_program = 7 ∧
      (∀ h, GLCall.glUseProgram h ∉
        (OpenGLState.SubApply D S).2 ++
          (OpenGLState.Apply sampleEnv D (OpenGLState.SubApply D S).1).2) ∧
      GLCall.glUseProgram 7 ∈ (OpenGLState.Apply sampleEnv D S).2 := by
  refine ⟨sampleState, sampleProgram7, rfl, rfl, ?_, by decide⟩
  intro h
  have e : (OpenGLState.SubApply sampleProgram7 sampleState).2 ++
      (OpenGLState.Apply sampleEnv sampleProgram7
        (OpenGLState.SubApply sampleProgram7 sampleState).1).2 =
      [.glDepthMask 1, .glStencilMask 255, .glColorMask 1 1 1 1, .glDisable GL_SCISSOR_TEST,
       .glScissor 0 0 0 0, .glViewport 0 0 0 0] ++ unconditionalCalls sampleProgram7 := by
    decide
  rw [e]
  simp [unconditionalCalls, sampleProgram7, sampleState, OpenGLState.ctor]

theorem infix_append_left_of {α : Type} {l a : List α} (b : List α) (h : l <:+: a) :
    l <:+: a ++ b := by
  rcases h with ⟨s, t, rfl⟩
  exact ⟨s, t ++ b, by simp [List.append_assoc]⟩

theorem infix_append_right_of {α : Type} {l b : List α} (a : List α) (h : l <:+: b) :
    l <:+: a ++ b := by
  rcases h with ⟨s, t, rfl⟩
  exact ⟨a ++ s, t, by simp [List.append_assoc]⟩

theorem infix_flatMap_of_mem {α β : Type} (f : α → List β) (l : List α) (a : α) (ha : a ∈ l) :
    f a <:+: l.flatMap f := by
  induction l with
  | nil => simp at ha
  | cons b l ih =>
    rw [List.flatMap_cons]
    rcases List.mem_cons.mp ha with rfl | h
    · exact infix_append_left_of _ (List.infix_refl _)
    · exact infix_append_right_of _ (ih h)

/-- The calls issued for a diffed field form a contiguous block of the
emission. -/
theorem issue_infix_emission {nTex nClip : Nat} (env : Env) (D : OpenGLState nTex nClip)
    (d : DiffedField nTex nClip → Bool) (F : DiffedField nTex nClip) :
    DiffedField.issue env D d F <:+: emission env D d := by
  unfold emission
  cases F with
  | texture_2d i =>
    have h := infix_flatMap_of_mem (fun i => DiffedField.issue env D d (.texture_2d i) ++
      DiffedField.issue env D d (.sampler i)) (List.finRange nTex) i (List.mem_finRange i)
    have h2 : DiffedField.issue env D d (.texture_2d i) <:+:
        (List.finRange nTex).flatMap (fun i => DiffedField.issue env D d (.texture_2d i) ++
          DiffedField.issue env D d (.sampler i)) :=
      List.IsInfix.trans (infix_append_left_of _ (List.infix_refl _)) h
    repeat (first
      | exact infix_append_right_of _ h2
      | apply infix_append_left_of)
  | sampler i =>
    have h := infix_flatMap_of_mem (fun i => DiffedField.issue env D d (.texture_2d i) ++
      DiffedField.issue env D d (.sampler i)) (List.finRange nTex) i (List.mem_finRange i)
    have h2 : DiffedField.issue env D d (.sampler i) <:+:
        (List.finRange nTex).flatMap (fun i => DiffedField.issue env D d (.texture_2d i) ++
          DiffedField.issue env D d (.sampler i)) :=
      List.IsInfix.trans (infix_append_right_of _ (List.infix_refl _)) h
    repeat (first
      | exact infix_append_right_of _ h2
      | apply infix_append_left_of)
  | clip_distance i =>
    exact infix_append_right_of _
      (infix_flatMap_of_mem (fun i => DiffedField.issue env D d (.clip_distance i))
        (List.finRange nClip) i (List.mem_finRange i))
  | _ =>
    repeat (first
      | exact infix_append_right_of _ (List.infix_refl _)
      | apply infix_append_left_of)

theorem calls_infix_Apply_trace {nTex nClip : Nat} (env : Env) (S D : OpenGLState nTex nClip)
    (F : DiffedField nTex nClip) (h : DiffedField.differs D S F = true) :
    F.calls env D <:+: (OpenGLState.Apply env D S).2 := by
  have := issue_infix_emission env D (DiffedField.differs D S) F
  rw [Apply_trace_eq_emission]
  simpa [DiffedField.issue, h] using this

/-! ## Invalidation and handle reuse -/

/-- C19. Invalidation defeats handle reuse: for every shadow `S`, handle
`H ≠ 0` and texture unit `i`, after `ResetTexture(H)` an `Apply(D)` with
`D.texture_units[i].texture_2d = H` issues the selection of unit `i` followed by
the bind of `H` to `GL_TEXTURE_2D`, and `BindTexture2D(i, H)` returns a value
other than `H`; and after `ResetProgram(H)` an `Apply(D)` with
`D.draw.shader_program = H` issues `glUseProgram(H)`. -/
theorem Reset_defeats_handle_reuse {nTex nClip : Nat} (env : Env)
    (S : OpenGLState nTex nClip) (H : GLuint) (hH : H ≠ 0) (i : Fin nTex) :
    (∀ D : OpenGLState nTex nClip, (D.texture_units i).texture_2d = H →
      [GLCall.glActiveTexture (env.PicaTexture i.val).Enum, GLCall.glBindTexture GL_TEXTURE_2D H]
        <:+: (OpenGLState.Apply env D (OpenGLState.ResetTexture env H S).1).2) ∧
    (OpenGLState.BindTexture2D env i H (OpenGLState.ResetTexture env H S).1).1 ≠ H ∧
    (∀ D : OpenGLState nTex nClip, D.draw.shader_program = H →
      GLCall.glUseProgram H ∈ (OpenGLState.Apply env D (OpenGLState.ResetProgram H S).1).2) := by
  have hslot : ((OpenGLState.ResetTexture env H S).1.texture_units i).texture_2d ≠ H := by
    rw [ResetTexture_eq]
    simp only
    split
    · exact fun h0 => hH h0.symm
    · assumption
  have hprog : (OpenGLState.ResetProgram H S).1.draw.shader_program ≠ H := by
    unfold OpenGLState.ResetProgram
    split
    · exact fun h0 => hH h0.symm
    · assumption
  refine ⟨?_, hslot, ?_⟩
  · intro D hD
    have hd : DiffedField.differs D (OpenGLState.ResetTexture env H S).1 (.texture_2d i) = true := by
      simp only [DiffedField.differs, decide_eq_true_eq, hD]
      exact fun h => hslot h.symm
    have := calls_infix_Apply_trace env (OpenGLState.ResetTexture env H S).1 D _ hd
    simpa [DiffedField.calls, hD] using this
  · intro D hD
    rw [mem_Apply_trace]
    refine Or.inr ⟨.shader_program, ?_, ?_⟩
    · simp only [DiffedField.differs, decide_eq_true_eq, hD]
      exact fun h => hprog h.symm
    · simp [DiffedField.calls, hD]

/-- C19 at the sample shadow in which texture unit 1 holds the handle 5: after
`ResetTexture(5)`, `Apply` of that same descriptor binds 5 on unit 1 again, and
`BindTexture2D(1, 5)` returns 0. -/
theorem Reset_defeats_handle_reuse_witness :
    (5 : GLuint) ≠ 0 ∧
    [GLCall.glActiveTexture (GL_TEXTURE0 + 1), GLCall.glBindTexture GL_TEXTURE_2D 5] <:+:
      (OpenGLState.Apply sampleEnv sampleTextures
        (OpenGLState.ResetTexture sampleEnv 5 sampleTextures).1).2 ∧
    (OpenGLState.BindTexture2D sampleEnv 1 5
      (OpenGLState.ResetTexture sampleEnv 5 sampleTextures).1).1 = 0 :=
  ⟨by decide,
   (Reset_defeats_handle_reuse sampleEnv sampleTextures 5 (by decide) 1).1 sampleTextures rfl,
   by decide⟩

theorem calls_eq_nil_of_not_capable {nTex nClip : Nat} (env : Env) (D : OpenGLState nTex nClip)
    (F : DiffedField nTex nClip) (h : F.capable env = false) : F.calls env D = [] := by
  cases F <;> simp_all [DiffedField.capable, DiffedField.calls]

theorem toggle_mem_blend_calls {nTex nClip : Nat} (env : Env) (D : OpenGLState nTex nClip)
    (cap : GLenum)
    (h : GLCall.glEnable cap ∈ DiffedField.calls env D (.blend_enabled : DiffedField nTex nClip) ∨
      GLCall.glDisable cap ∈ DiffedField.calls env D (.blend_enabled : DiffedField nTex nClip)) :
    cap = GL_BLEND ∨ cap = GL_COLOR_LOGIC_OP := by
  simp only [DiffedField.calls, List.mem_append] at h
  revert h
  cases D.blend.enabled <;> cases env.GLES <;> simp <;> tauto

theorem unconditionalCalls_kind {nTex nClip : Nat} (D : OpenGLState nTex nClip) (c : GLCall)
    (h : c ∈ unconditionalCalls D) :
    (∃ cap, c = .glEnable cap) ∨ (∃ cap, c = .glDisable cap) ∨ c.isParameterCall = true := by
  simp only [unconditionalCalls, List.mem_append] at h
  rcases h with ((((((h | h) | h) | h) | h) | h) | h) | h
  all_goals first
    | (split at h <;> simp only [List.mem_singleton] at h <;> subst h <;> simp)
    | (simp only [List.mem_cons, List.mem_singleton, List.not_mem_nil, or_false] at h
       repeat' rcases h with h | h
       all_goals simp [GLCall.isParameterCall])

theorem toggle_of_mem_blend_calls {nTex nClip : Nat} (env : Env) (D : OpenGLState nTex nClip)
    (c : GLCall)
    (h : c ∈ DiffedField.calls env D (.blend_enabled : DiffedField nTex nClip)) :
    (∃ cap, c = .glEnable cap) ∨ (∃ cap, c = .glDisable cap) := by
  simp only [DiffedField.calls, List.mem_append] at h
  rcases h with h | h
  · split at h <;> simp only [List.mem_singleton] at h <;> subst h <;> simp
  · split at h
    · split at h <;> simp only [List.mem_singleton] at h <;> subst h <;> simp
    · simp at h

theorem toggle_of_mem_clip_calls {nTex nClip : Nat} (env : Env) (D : OpenGLState nTex nClip)
    (i : Fin nClip) (c : GLCall) (h : c ∈ DiffedField.calls env D (.clip_distance i)) :
    (∃ cap, c = .glEnable cap) ∨ (∃ cap, c = .glDisable cap) := by
  simp only [DiffedField.calls] at h
  split at h
  · split at h <;> simp only [List.mem_singleton] at h <;> subst h <;> simp
  · simp at h

/-- A call of the trace that is neither a toggle nor a parameter call is a call
of a diffed field, other than blend enable and the clip distances, that differs
from the shadow. -/
theorem bind_mem_Apply_trace {nTex nClip : Nat} (env : Env) (S D : OpenGLState nTex nClip)
    (c : GLCall) (h : c ∈ (OpenGLState.Apply env D S).2)
    (h1 : ∀ cap, c ≠ .glEnable cap) (h2 : ∀ cap, c ≠ .glDisable cap)
    (h3 : c.isParameterCall = false) :
    ∃ F, DiffedField.differs D S F = true ∧ c ∈ F.calls env D ∧
      F ≠ .blend_enabled ∧ ∀ i, F ≠ .clip_distance i := by
  rw [mem_Apply_trace] at h
  rcases h with h | ⟨F, hF, hc⟩
  · exfalso
    rcases unconditionalCalls_kind D c h with ⟨cap, h⟩ | ⟨cap, h⟩ | h
    · exact h1 _ h
    · exact h2 _ h
    · rw [h] at h3; exact Bool.noConfusion h3
  · refine ⟨F, hF, hc, ?_, ?_⟩
    · rintro rfl
      rcases toggle_of_mem_blend_calls env D c hc with ⟨cap, h⟩ | ⟨cap, h⟩
      · exact h1 _ h
      · exact h2 _ h
    · rintro i rfl
      rcases toggle_of_mem_clip_calls env D i c hc with ⟨cap, h⟩ | ⟨cap, h⟩
      · exact h1 _ h
      · exact h2 _ h

/-! ## Per-slot diff of the bindings -/

/-- C17. Per-slot binding diff in `Apply`, for every prior shadow `S` and
candidate `D`.  The trace is the emission sequence in which exactly the diffed
fields that differ between `D` and `S` are issued.  A field that differs has its
calls, with the value of `D`, as a contiguous block of the trace; a call of the
trace that is not unconditional belongs to a field that differs and that the
device is capable of; a field the device is not capable of (a shadow image
without `AllowShadow`, a clip distance on GLES without the extension, the logic
op on GLES) has no calls.  In particular each framebuffer, vertex-array, buffer,
program and pipeline bind is in the trace iff its slot differs, and then with
the handle of `D`; an image bind is in the trace only with `AllowShadow`; and
the toggle of clip distance `i` is in the trace iff the flag differs and the
device exposes clip distances. -/
theorem Apply_per_slot_diff {nTex nClip : Nat} (env : Env) (S D : OpenGLState nTex nClip) :
    (OpenGLState.Apply env D S).2 = emission env D (DiffedField.differs D S) ∧
    (∀ F, DiffedField.differs D S F = true →
      F.calls env D <:+: (OpenGLState.Apply env D S).2) ∧
    (∀ c, c ∈ (OpenGLState.Apply env D S).2 → c ∉ unconditionalCalls D →
      ∃ F, DiffedField.differs D S F = true ∧ F.capable env = true ∧ c ∈ F.calls env D) ∧
    (∀ F : DiffedField nTex nClip, F.capable env = false → F.calls env D = []) ∧
    (∀ h, GLCall.glBindFramebuffer GL_READ_FRAMEBUFFER h ∈ (OpenGLState.Apply env D S).2 ↔
      D.draw.read_framebuffer ≠ S.draw.read_framebuffer ∧ h = D.draw.read_framebuffer) ∧
    (∀ h, GLCall.glBindFramebuffer GL_DRAW_FRAMEBUFFER h ∈ (OpenGLState.Apply env D S).2 ↔
      D.draw.draw_framebuffer ≠ S.draw.draw_framebuffer ∧ h = D.draw.draw_framebuffer) ∧
    (∀ h, GLCall.glBindVertexArray h ∈ (OpenGLState.Apply env D S).2 ↔
      D.draw.vertex_array ≠ S.draw.vertex_array ∧ h = D.draw.vertex_array) ∧
    (∀ h, GLCall.glBindBuffer GL_ARRAY_BUFFER h ∈ (OpenGLState.Apply env D S).2 ↔
      D.draw.vertex_buffer ≠ S.draw.vertex_buffer ∧ h = D.draw.vertex_buffer) ∧
    (∀ h, GLCall.glBindBuffer GL_UNIFORM_BUFFER h ∈ (OpenGLState.Apply env D S).2 ↔
      D.draw.uniform_buffer ≠ S.draw.uniform_buffer ∧ h = D.draw.uniform_buffer) ∧
    (∀ h, GLCall.glUseProgram h ∈ (OpenGLState.Apply env D S).2 ↔
      D.draw.shader_program ≠ S.draw.shader_program ∧ h = D.draw.shader_program) ∧
    (∀ h, GLCall.glBindProgramPipeline h ∈ (OpenGLState.Apply env D S).2 ↔
      D.draw.program_pipeline ≠ S.draw.program_pipeline ∧ h = D.draw.program_pipeline) ∧
    (∀ u h lv ly la ac fm, GLCall.glBindImageTexture u h lv ly la ac fm ∈
      (OpenGLState.Apply env D S).2 → env.AllowShadow = true) ∧
    (∀ i : Fin nClip, GLCall.glEnable (GL_CLIP_DISTANCE0 + i.val) ∈
        (OpenGLState.Apply env D S).2 ↔
      D.clip_distance i ≠ S.clip_distance i ∧
        (!env.GLES || env.GLAD_GL_EXT_clip_cull_distance) = true ∧
        D.clip_distance i = true) ∧
    (∀ i : Fin nClip, GLCall.glDisable (GL_CLIP_DISTANCE0 + i.val) ∈
        (OpenGLState.Apply env D S).2 ↔
      D.clip_distance i ≠ S.clip_distance i ∧
        (!env.GLES || env.GLAD_GL_EXT_clip_cull_distance) = true ∧
        D.clip_distance i = false) := by
  have hrd : GL_READ_FRAMEBUFFER ≠ GL_DRAW_FRAMEBUFFER := by decide
  have hdr : GL_DRAW_FRAMEBUFFER ≠ GL_READ_FRAMEBUFFER := by decide
  have hau : GL_ARRAY_BUFFER ≠ GL_UNIFORM_BUFFER := by decide
  have hua : GL_UNIFORM_BUFFER ≠ GL_ARRAY_BUFFER := by decide
  refine ⟨Apply_trace_eq_emission env D S, fun F hF => calls_infix_Apply_trace env S D F hF,
    ?_, fun F hF => calls_eq_nil_of_not_capable env D F hF, ?_, ?_, ?_, ?_, ?_, ?_, ?_, ?_, ?_,
    ?_⟩
  · intro c hc hu
    rcases (mem_Apply_trace env S D c).1 hc with h | ⟨F, hF, hcF⟩
    · exact absurd h hu
    · refine ⟨F, hF, ?_, hcF⟩
      cases hcap : F.capable env
      · rw [calls_eq_nil_of_not_capable env D F hcap] at hcF
        simp at hcF
      · rfl
  · intro h
    constructor
    · intro hm
      obtain ⟨F, hF, hc, hb, hcl⟩ := bind_mem_Apply_trace env S D _ hm (by simp) (by simp) rfl
      cases F with
      | blend_enabled => exact absurd rfl hb
      | clip_distance i => exact absurd rfl (hcl i)
      | _ => simp_all [DiffedField.calls, DiffedField.differs]
    · rintro ⟨h1, rfl⟩
      exact (mem_Apply_trace env S D _).2 (Or.inr ⟨.read_framebuffer, by simp [DiffedField.differs, h1],
        by simp [DiffedField.calls]⟩)
  · intro h
    constructor
    · intro hm
      obtain ⟨F, hF, hc, hb, hcl⟩ := bind_mem_Apply_trace env S D _ hm (by simp) (by simp) rfl
      cases F with
      | blend_enabled => exact absurd rfl hb
      | clip_distance i => exact absurd rfl (hcl i)
      | _ => simp_all [DiffedField.calls, DiffedField.differs]
    · rintro ⟨h1, rfl⟩
      exact (mem_Apply_trace env S D _).2 (Or.inr ⟨.draw_framebuffer, by simp [DiffedField.differs, h1],
        by simp [DiffedField.calls]⟩)
  · intro h
    constructor
    · intro hm
      obtain ⟨F, hF, hc, hb, hcl⟩ := bind_mem_Apply_trace env S D _ hm (by simp) (by simp) rfl
      cases F with
      | blend_enabled => exact absurd rfl hb
      | clip_distance i => exact absurd rfl (hcl i)
      | _ => simp_all [DiffedField.calls, DiffedField.differs]
    · rintro ⟨h1, rfl⟩
      exact (mem_Apply_trace env S D _).2 (Or.inr ⟨.vertex_array, by simp [DiffedField.differs, h1],
        by simp [DiffedField.calls]⟩)
  · intro h
    constructor
    · intro hm
      obtain ⟨F, hF, hc, hb, hcl⟩ := bind_mem_Apply_trace env S D _ hm (by simp) (by simp) rfl
      cases F with
      | blend_enabled => exact absurd rfl hb
      | clip_distance i => exact absurd rfl (hcl i)
      | _ => simp_all [DiffedField.calls, DiffedField.differs]
    · rintro ⟨h1, rfl⟩
      exact (mem_Apply_trace env S D _).2 (Or.inr ⟨.vertex_buffer, by simp [DiffedField.differs, h1],
        by simp [DiffedField.calls]⟩)
  · intro h
    constructor
    · intro hm
      obtain ⟨F, hF, hc, hb, hcl⟩ := bind_mem_Apply_trace env S D _ hm (by simp) (by simp) rfl
      cases F with
      | blend_enabled => exact absurd rfl hb
      | clip_distance i => exact absurd rfl (hcl i)
      | _ => simp_all [DiffedField.calls, DiffedField.differs]
    · rintro ⟨h1, rfl⟩
      exact (mem_Apply_trace env S D _).2 (Or.inr ⟨.uniform_buffer, by simp [DiffedField.differs, h1],
        by simp [DiffedField.calls]⟩)
  · intro h
    constructor
    · intro hm
      obtain ⟨F, hF, hc, hb, hcl⟩ := bind_mem_Apply_trace env S D _ hm (by simp) (by simp) rfl
      cases F with
      | blend_enabled => exact absurd rfl hb
      | clip_distance i => exact absurd rfl (hcl i)
      | _ => simp_all [DiffedField.calls, DiffedField.differs]
    · rintro ⟨h1, rfl⟩
      exact (mem_Apply_trace env S D _).2 (Or.inr ⟨.shader_program, by simp [DiffedField.differs, h1],
        by simp [DiffedField.calls]⟩)
  · intro h
    constructor
    · intro hm
      obtain ⟨F, hF, hc, hb, hcl⟩ := bind_mem_Apply_trace env S D _ hm (by simp) (by simp) rfl
      cases F with
      | blend_enabled => exact absurd rfl hb
      | clip_distance i => exact absurd rfl (hcl i)
      | _ => simp_all [DiffedField.calls, DiffedField.differs]
    · rintro ⟨h1, rfl⟩
      exact (mem_Apply_trace env S D _).2 (Or.inr ⟨.program_pipeline, by simp [DiffedField.differs, h1],
        by simp [DiffedField.calls]⟩)
  · intro u h lv ly la ac fm hm
    obtain ⟨F, hF, hc, hb, hcl⟩ := bind_mem_Apply_trace env S D _ hm (by simp) (by simp) rfl
    cases F with
    | blend_enabled => exact absurd rfl hb
    | clip_distance i => exact absurd rfl (hcl i)
    | _ => simp_all [DiffedField.calls, DiffedField.differs]
  · intro i
    constructor
    · intro hm
      rcases (mem_Apply_trace env S D _).1 hm with h | ⟨F, hF, hc⟩
      · rcases toggle_mem_unconditionalCalls D _ (Or.inl h) with h | h | h | h <;>
          exact absurd h (clip_cap_ne _ _ (by decide))
      · cases F with
        | blend_enabled =>
          rcases toggle_mem_blend_calls env D _ (Or.inl hc) with h | h <;>
            exact absurd h (clip_cap_ne _ _ (by decide))
        | clip_distance j =>
          have hj := toggle_mem_clip_calls env D j _ (Or.inl hc)
          have hij : i = j := Fin.ext (Nat.add_left_cancel hj)
          subst hij
          simp only [DiffedField.differs, decide_eq_true_eq] at hF
          simp only [DiffedField.calls] at hc
          refine ⟨hF, ?_, ?_⟩
          · by_contra hcap
            simp [hcap] at hc
          · cases hcd : D.clip_distance i <;> simp_all
        | _ => simp [DiffedField.calls] at hc
    · rintro ⟨h1, h2, h3⟩
      exact (mem_Apply_trace env S D _).2 (Or.inr ⟨.clip_distance i,
        by simp [DiffedField.differs, h1], by simp [DiffedField.calls, h2, h3]⟩)
  · intro i
    constructor
    · intro hm
      rcases (mem_Apply_trace env S D _).1 hm with h | ⟨F, hF, hc⟩
      · rcases toggle_mem_unconditionalCalls D _ (Or.inr h) with h | h | h | h <;>
          exact absurd h (clip_cap_ne _ _ (by decide))
      · cases F with
        | blend_enabled =>
          rcases toggle_mem_blend_calls env D _ (Or.inr hc) with h | h <;>
            exact absurd h (clip_cap_ne _ _ (by decide))
        | clip_distance j =>
          have hj := toggle_mem_clip_calls env D j _ (Or.inr hc)
          have hij : i = j := Fin.ext (Nat.add_left_cancel hj)
          subst hij
          simp only [DiffedField.differs, decide_eq_true_eq] at hF
          simp only [DiffedField.calls] at hc
          refine ⟨hF, ?_, ?_⟩
          · by_contra hcap
            simp [hcap] at hc
          · cases hcd : D.clip_distance i <;> simp_all
        | _ => simp [DiffedField.calls] at hc
    · rintro ⟨h1, h2, h3⟩
      exact (mem_Apply_trace env S D _).2 (Or.inr ⟨.clip_distance i,
        by simp [DiffedField.differs, h1], by simp [DiffedField.calls, h2, h3]⟩)

/-- C17 at the sample shadow and the candidate with shader program 7: the
program slot differs, so its bind `glUseProgram(7)` is a block of the trace. -/
theorem Apply_per_slot_diff_witness :
    DiffedField.differs sampleProgram7 sampleState .shader_program = true ∧
    [GLCall.glUseProgram 7] <:+: (OpenGLState.Apply sampleEnv sampleProgram7 sampleState).2 :=
  ⟨by decide,
   (Apply_per_slot_diff sampleEnv sampleState sampleProgram7).2.1 .shader_program (by decide)⟩

theorem flatMap_ite_eq_filter {α β : Type} (p : α → Bool) (f : α → List β) (l : List α) :
    l.flatMap (fun a => if p a then f a else []) = (l.filter p).flatMap f := by
  induction l with
  | nil => rfl
  | cons a l ih =>
    cases h : p a <;> simp [List.flatMap_cons, List.filter_cons, h, ih]

theorem Apply_trace_eq_all {nTex nClip : Nat} (env : Env) (S D : OpenGLState nTex nClip) :
    (OpenGLState.Apply env D S).2 =
      (AppliedField.all nTex nClip).flatMap (fun t =>
        if AppliedField.issued D S t then t.calls env D else []) := by
  rw [Apply_trace_eq_emission]
  simp only [emission, AppliedField.all, List.flatMap_append, List.flatMap_cons,
    List.flatMap_nil, List.flatMap_assoc, List.flatMap_map, AppliedField.issued,
    AppliedField.calls, DiffedField.issue, OpenGLState.Apply.rasterizer, blendParameterCalls,
    OpenGLState.Apply.scissorViewport, List.flatten, if_true, List.append_nil,
    List.append_assoc, List.cons_append, List.nil_append, List.singleton_append]

theorem pairwise_rank_of_map_eq_range' {nTex nClip : Nat}
    (l : List (AppliedField nTex nClip)) (s k : Nat)
    (h : l.map AppliedField.rank = List.range' s k) :
    l.Pairwise (fun a b => a.rank < b.rank) ∧ ∀ a ∈ l, s ≤ a.rank ∧ a.rank < s + k := by
  constructor
  · have hp : (l.map AppliedField.rank).Pairwise (· < ·) := by
      rw [h]
      exact List.pairwise_lt_range' s k
    exact (List.pairwise_map.1 hp)
  · intro a ha
    have hm : a.rank ∈ l.map AppliedField.rank := List.mem_map_of_mem _ ha
    rw [h, List.mem_range'_1] at hm
    exact hm

theorem rank_first_block (nTex nClip : Nat) :
    ([.cull_enabled, .cull_mode, .cull_front_face, .depth_test_enabled,
      .depth_test_func, .depth_write_mask, .color_mask, .stencil_test_enabled,
      .stencil_test_func, .stencil_action, .stencil_write_mask, .diffed .blend_enabled,
      .blend_color, .blend_func, .blend_equation, .diffed .logic_op] :
        List (AppliedField nTex nClip)).map AppliedField.rank = List.range' 0 16 := by
  simp [AppliedField.rank, List.range']

theorem rank_middle_block (nTex nClip : Nat) :
    ([.diffed .texture_cube, .diffed .texture_cube_sampler,
      .diffed .texture_buffer_lut_lf, .diffed .texture_buffer_lut_rg,
      .diffed .texture_buffer_lut_rgba, .diffed .image_shadow_buffer,
      .diffed .image_shadow_texture_px, .diffed .image_shadow_texture_nx,
      .diffed .image_shadow_texture_py, .diffed .image_shadow_texture_ny,
      .diffed .image_shadow_texture_pz, .diffed .image_shadow_texture_nz,
      .diffed .read_framebuffer, .diffed .draw_framebuffer, .diffed .vertex_array,
      .diffed .vertex_buffer, .diffed .uniform_buffer, .diffed .shader_program,
      .diffed .program_pipeline, .scissor_enabled, .scissor_rect, .viewport] :
        List (AppliedField nTex nClip)).map AppliedField.rank = List.range' (16 + 2 * nTex) 22 := by
  simp only [List.map_cons, List.map_nil, AppliedField.rank]
  repeat rw [List.range'_succ]
  rw [List.range'_zero]
  simp only [List.cons.injEq, and_true, true_and]
  repeat' apply And.intro
  all_goals omega

theorem rank_texture_block (nTex nClip : Nat) :
    ((List.finRange nTex).flatMap (fun i =>
      ([.diffed (.texture_2d i), .diffed (.sampler i)] : List (AppliedField nTex nClip)))).Pairwise (fun a b => a.rank < b.rank) ∧
    ∀ a ∈ (List.finRange nTex).flatMap (fun i =>
      ([.diffed (.texture_2d i), .diffed (.sampler i)] : List (AppliedField nTex nClip))),
      16 ≤ a.rank ∧ a.rank < 16 + 2 * nTex := by
  constructor
  · rw [List.pairwise_flatMap]
    refine ⟨fun i _ => by simp [AppliedField.rank], ?_⟩
    refine (List.pairwise_lt_finRange nTex).imp ?_
    intro i j hij x hx y hy
    simp only [List.mem_cons, List.mem_singleton, List.not_mem_nil, or_false] at hx hy
    have hij2 : i.val < j.val := hij
    rcases hx with rfl | rfl <;> rcases hy with rfl | rfl <;> simp only [AppliedField.rank] <;>
      omega
  · intro a ha
    simp only [List.mem_flatMap, List.mem_finRange, true_and, List.mem_cons,
      List.mem_singleton, List.not_mem_nil, or_false] at ha
    obtain ⟨i, rfl | rfl⟩ := ha <;> simp only [AppliedField.rank] <;> omega

theorem rank_clip_block (nTex nClip : Nat) :
    ((List.finRange nClip).map (fun i =>
      (.diffed (.clip_distance i) : AppliedField nTex nClip))).Pairwise (fun a b => a.rank < b.rank) ∧
    ∀ a ∈ (List.finRange nClip).map (fun i =>
      (.diffed (.clip_distance i) : AppliedField nTex nClip)), 38 + 2 * nTex ≤ a.rank := by
  constructor
  · rw [List.pairwise_map]
    refine (List.pairwise_lt_finRange nClip).imp ?_
    intro i j hij
    have hij2 : i.val < j.val := hij
    simp only [AppliedField.rank]
    omega
  · intro a ha
    simp only [List.mem_map, List.mem_finRange, true_and] at ha
    obtain ⟨i, rfl⟩ := ha
    simp only [AppliedField.rank]
    omega

theorem all_pairwise_rank (nTex nClip : Nat) :
    (AppliedField.all nTex nClip).Pairwise (fun a b => a.rank < b.rank) := by
  unfold AppliedField.all
  obtain ⟨pA, hA⟩ := pairwise_rank_of_map_eq_range' _ _ _ (rank_first_block nTex nClip)
  obtain ⟨pB, hB⟩ := pairwise_rank_of_map_eq_range' _ _ _ (rank_middle_block nTex nClip)
  obtain ⟨pT, hT⟩ := rank_texture_block nTex nClip
  obtain ⟨pC, hC⟩ := rank_clip_block nTex nClip
  rw [List.pairwise_append, List.pairwise_append, List.pairwise_append]
  refine ⟨⟨⟨pA, pT, ?_⟩, pB, ?_⟩, pC, ?_⟩
  · intro a ha b hb
    have := hA a ha
    have := hT b hb
    omega
  · intro a ha b hb
    have hb2 := hB b hb
    rcases List.mem_append.mp ha with ha | ha
    · have := hA a ha
      omega
    · have := hT a ha
      omega
  · intro a ha b hb
    have hb2 := hC b hb
    rcases List.mem_append.mp ha with ha | ha
    · rcases List.mem_append.mp ha with ha | ha
      · have := hA a ha
        omega
      · have := hT a ha
        omega
    · have := hB a ha
      omega

theorem mem_all {nTex nClip : Nat} (t : AppliedField nTex nClip) :
    t ∈ AppliedField.all nTex nClip := by
  unfold AppliedField.all
  simp only [List.mem_append, List.mem_flatMap, List.mem_map, List.mem_finRange, true_and,
    List.mem_cons, List.mem_singleton, List.not_mem_nil, or_false]
  cases t with
  | diffed F =>
    cases F with
    | texture_2d i => exact Or.inl (Or.inl (Or.inr ⟨i, Or.inl rfl⟩))
    | sampler i => exact Or.inl (Or.inl (Or.inr ⟨i, Or.inr rfl⟩))
    | clip_distance i => exact Or.inr ⟨i, rfl⟩
    | _ => simp
  | _ => simp

/-! ## Emission order -/

/-- C14. Emission order of `Apply`: for every `S` and `D` the trace is the
concatenation of the calls of the fields `Apply` issues (the unconditional ones
and the diffed ones that differ), each field once, in strictly increasing place
of the emission order: cull and front face, depth, the depth and color masks,
stencil with its write mask, blend enable and op, the texture units by
increasing index, the cube unit, the buffer LUTs (LF, RG, RGBA), the shadow
images (buffer, +X, -X, +Y, -Y, +Z, -Z), read framebuffer, draw framebuffer,
vertex array, vertex buffer, uniform buffer, shader program, program pipeline,
scissor, viewport, clip distances.  So of two calls that are both issued, the
one of the earlier field precedes the other. -/
theorem Apply_emission_order {nTex nClip : Nat} (env : Env) (S D : OpenGLState nTex nClip) :
    ∃ ts : List (AppliedField nTex nClip),
      ts.Pairwise (fun a b => a.rank < b.rank) ∧
      (∀ t, t ∈ ts ↔ AppliedField.issued D S t = true) ∧
      (OpenGLState.Apply env D S).2 = ts.flatMap (AppliedField.calls env D) := by
  refine ⟨(AppliedField.all nTex nClip).filter (AppliedField.issued D S),
    (all_pairwise_rank nTex nClip).filter _, ?_, ?_⟩
  · intro t
    simp [List.mem_filter, mem_all]
  · rw [Apply_trace_eq_all, flatMap_ite_eq_filter]

/-! ## Running a trace on the device -/

theorem Device.run_nil (dev : Device) : dev.run [] = dev := rfl

theorem Device.run_cons (dev : Device) (c : GLCall) (tr : List GLCall) :
    dev.run (c :: tr) = (dev.exec c).run tr := rfl

theorem Device.run_append (dev : Device) (a b : List GLCall) :
    dev.run (a ++ b) = (dev.run a).run b := by
  simp [Device.run, List.foldl_append]

/-- Frame: the calls of a field leave every cell alone except the cell of the
field and, for blend enable, the enable flag of the color logic op. -/
theorem run_calls_frame {nTex nClip : Nat} (env : Env) (D : OpenGLState nTex nClip)
    (t : AppliedField nTex nClip) (dev : Device) (x : Cell) (hx : x ≠ t.cell env)
    (hl : x ≠ .capability GL_COLOR_LOGIC_OP) :
    (dev.run (t.calls env D)).cell x = dev.cell x := by
  cases t with
  | diffed F =>
    cases F <;>
    simp only [AppliedField.calls, DiffedField.calls, AppliedField.cell] at hx ⊢ <;>
    (repeat' split) <;>
    simp [Device.run_cons, Device.run_nil, Device.run_append, Device.exec, Device.write,
      Function.update_apply, hx, hl]
  | _ =>
    simp only [AppliedField.calls, AppliedField.cell] at hx ⊢
    (repeat' split) <;>
    simp [Device.run_cons, Device.run_nil, Device.exec, Device.write,
      Function.update_apply, hx]

/-- Effect: the calls of a field the device is capable of leave the cell of the
field in the state the descriptor records. -/
theorem run_calls_effect {nTex nClip : Nat} (env : Env) (D : OpenGLState nTex nClip)
    (t : AppliedField nTex nClip) (ht : t.applied env = true) (dev : Device) :
    (dev.run (t.calls env D)).cell (t.cell env) = some (t.setting env D) := by
  have hbl : GL_BLEND ≠ GL_COLOR_LOGIC_OP := by decide
  cases t with
  | diffed F =>
    cases F <;>
    simp only [AppliedField.applied, DiffedField.capable] at ht <;>
    simp only [AppliedField.calls, DiffedField.calls, AppliedField.cell,
      AppliedField.setting] <;>
    (repeat' split) <;>
    simp_all [Device.run_cons, Device.run_nil, Device.run_append, Device.exec, Device.write,
      Function.update_apply]
  | _ =>
    simp only [AppliedField.calls, AppliedField.cell, AppliedField.setting]
    (repeat' split) <;>
    simp [Device.run_cons, Device.run_nil, Device.exec, Device.write, Function.update_apply]

theorem cell_ne_color_logic_op {nTex nClip : Nat} (env : Env) (t : AppliedField nTex nClip) :
    t.cell env ≠ .capability GL_COLOR_LOGIC_OP := by
  have h1 : GL_CULL_FACE ≠ GL_COLOR_LOGIC_OP := by decide
  have h2 : GL_DEPTH_TEST ≠ GL_COLOR_LOGIC_OP := by decide
  have h3 : GL_STENCIL_TEST ≠ GL_COLOR_LOGIC_OP := by decide
  have h4 : GL_SCISSOR_TEST ≠ GL_COLOR_LOGIC_OP := by decide
  have h5 : GL_BLEND ≠ GL_COLOR_LOGIC_OP := by decide
  cases t with
  | diffed F =>
    cases F with
    | clip_distance i =>
      simp only [AppliedField.cell, ne_eq, Cell.capability.injEq]
      exact clip_cap_ne _ _ (by decide)
    | _ => simp [AppliedField.cell, h5]
  | _ => simp [AppliedField.cell, h1, h2, h3, h4]

set_option linter.unusedTactic false in
set_option linter.unreachableTactic false in
set_option maxHeartbeats 4000000 in
theorem cell_injective {nTex nClip : Nat} (env : Env) (hd : env.Distinct nTex)
    (t t' : AppliedField nTex nClip) (h : t.cell env = t'.cell env) : t = t' := by
  obtain ⟨hp, hc, hl, hi⟩ := hd
  simp only [List.nodup_cons, List.mem_cons, List.mem_singleton, List.not_mem_nil, or_false,
    not_or, List.nodup_nil, and_true, not_false_eq_true] at hl hi
  cases t with
  | diffed F =>
    cases F <;>
    (cases t' with
     | diffed F' =>
       cases F' <;> first
      | rfl
      | (simp [AppliedField.cell] at h; done)
      | (simp only [AppliedField.cell, Cell.capability.injEq, Cell.texture.injEq,
          Cell.sampler.injEq, Cell.image.injEq, Cell.framebuffer.injEq, Cell.buffer.injEq] at h
         first
         | exact absurd h (by decide)
         | exact absurd h (clip_cap_ne _ _ (by decide))
         | exact absurd h.symm (clip_cap_ne _ _ (by decide))
         | (have e := Fin.ext (Nat.add_left_cancel h); subst e; rfl)
         | (have e := hp _ _ h.1; subst e; rfl)
         | exact absurd h.2 (by decide)
         | (have e := Fin.ext h; subst e; rfl)
         | exact absurd h (hc _)
         | exact absurd h.symm (hc _)
         | (simp_all; done))
     | _ => first
      | rfl
      | (simp [AppliedField.cell] at h; done)
      | (simp only [AppliedField.cell, Cell.capability.injEq, Cell.texture.injEq,
          Cell.sampler.injEq, Cell.image.injEq, Cell.framebuffer.injEq, Cell.buffer.injEq] at h
         first
         | exact absurd h (by decide)
         | exact absurd h (clip_cap_ne _ _ (by decide))
         | exact absurd h.symm (clip_cap_ne _ _ (by decide))
         | (have e := Fin.ext (Nat.add_left_cancel h); subst e; rfl)
         | (have e := hp _ _ h.1; subst e; rfl)
         | exact absurd h.2 (by decide)
         | (have e := Fin.ext h; subst e; rfl)
         | exact absurd h (hc _)
         | exact absurd h.symm (hc _)
         | (simp_all; done)))
  | _ =>
    cases t' with
     | diffed F' =>
       cases F' <;> first
      | rfl
      | (simp [AppliedField.cell] at h; done)
      | (simp only [AppliedField.cell, Cell.capability.injEq, Cell.texture.injEq,
          Cell.sampler.injEq, Cell.image.injEq, Cell.framebuffer.injEq, Cell.buffer.injEq] at h
         first
         | exact absurd h (by decide)
         | exact absurd h (clip_cap_ne _ _ (by decide))
         | exact absurd h.symm (clip_cap_ne _ _ (by decide))
         | (have e := Fin.ext (Nat.add_left_cancel h); subst e; rfl)
         | (have e := hp _ _ h.1; subst e; rfl)
         | exact absurd h.2 (by decide)
         | (have e := Fin.ext h; subst e; rfl)
         | exact absurd h (hc _)
         | exact absurd h.symm (hc _)
         | (simp_all; done))
     | _ => first
      | rfl
      | (simp [AppliedField.cell] at h; done)
      | (simp only [AppliedField.cell, Cell.capability.injEq, Cell.texture.injEq,
          Cell.sampler.injEq, Cell.image.injEq, Cell.framebuffer.injEq, Cell.buffer.injEq] at h
         first
         | exact absurd h (by decide)
         | exact absurd h (clip_cap_ne _ _ (by decide))
         | exact absurd h.symm (clip_cap_ne _ _ (by decide))
         | (have e := Fin.ext (Nat.add_left_cancel h); subst e; rfl)
         | (have e := hp _ _ h.1; subst e; rfl)
         | exact absurd h.2 (by decide)
         | (have e := Fin.ext h; subst e; rfl)
         | exact absurd h (hc _)
         | exact absurd h.symm (hc _)
         | (simp_all; done))

/-- The cell of a field after a sequence of blocks, one per field of the list
`l`, the block of a field being its calls when `p` selects it and empty
otherwise: the state the descriptor records when the field is in the list and
selected, and the state before otherwise. -/
theorem run_blocks_cell {nTex nClip : Nat} (env : Env) (hd : env.Distinct nTex)
    (D : OpenGLState nTex nClip) (p : AppliedField nTex nClip → Bool)
    (l : List (AppliedField nTex nClip)) (t0 : AppliedField nTex nClip)
    (h0 : t0.applied env = true) (dev : Device) :
    (dev.run (l.flatMap (fun t => if p t = true then t.calls env D else []))).cell
        (t0.cell env) =
      if t0 ∈ l ∧ p t0 = true then some (t0.setting env D) else dev.cell (t0.cell env) := by
  induction l generalizing dev with
  | nil => simp [Device.run_nil]
  | cons t l ih =>
    rw [List.flatMap_cons, Device.run_append, ih]
    by_cases ht : t = t0
    · subst ht
      by_cases hp : p t = true
      · simp [hp, run_calls_effect env D t h0]
      · simp [hp, Device.run_nil]
    · have hcell : (dev.run (if p t = true then t.calls env D else [])).cell (t0.cell env) =
          dev.cell (t0.cell env) := by
        split
        · exact run_calls_frame env D t dev _
            (fun h => ht (cell_injective env hd _ _ h).symm) (cell_ne_color_logic_op env t0)
        · rfl
      have hne : t0 ≠ t := fun h => ht h.symm
      have hmem : (t0 ∈ t :: l ∧ p t0 = true) = (t0 ∈ l ∧ p t0 = true) := by
        simp [List.mem_cons, hne]
      rw [hcell]
      simp only [hmem]

/-- An operation whose trace is one block per field of `L`, the calls of the
field for a descriptor `D'` where `p` selects it, and whose resulting shadow
records on each field of `L` what `D'` records where `p` selects the field and
what the shadow before recorded otherwise, keeps the shadow faithful on `L`. -/
theorem faithful_of_blocks {nTex nClip : Nat} (env : Env) (hd : env.Distinct nTex)
    (S S' D' : OpenGLState nTex nClip) (p : AppliedField nTex nClip → Bool)
    (L : List (AppliedField nTex nClip)) (tr : List GLCall)
    (htr : tr = L.flatMap (fun t => if p t = true then t.calls env D' else []))
    (hS : ∀ t ∈ L, t.applied env = true →
      t.setting env S' = if p t = true then t.setting env D' else t.setting env S) :
    Faithful env L S S' tr := by
  intro dev t hmem h0 hpre
  unfold Agrees at hpre ⊢
  rw [htr, run_blocks_cell env hd D' p L t h0 dev, hS t hmem h0]
  by_cases hp : p t = true
  · simp [hp, hmem]
  · simp [hp, hpre]

theorem setting_eq_of_not_issued {nTex nClip : Nat} (env : Env) (S D : OpenGLState nTex nClip)
    (t : AppliedField nTex nClip) (h : AppliedField.issued D S t ≠ true) :
    t.setting env D = t.setting env S := by
  cases t with
  | diffed F =>
    cases F <;> simp_all [AppliedField.issued, DiffedField.differs, AppliedField.setting]
  | _ => simp [AppliedField.issued] at h

theorem setting_of_issued {nTex nClip : Nat} (env : Env) (S D : OpenGLState nTex nClip)
    (t : AppliedField nTex nClip) :
    t.setting env D =
      if AppliedField.issued D S t = true then t.setting env D else t.setting env S := by
  split
  · rfl
  · rename_i h
    exact setting_eq_of_not_issued env S D t h

theorem Apply_faithful {nTex nClip : Nat} (env : Env) (hd : env.Distinct nTex)
    (S D : OpenGLState nTex nClip) :
    Faithful env (AppliedField.all nTex nClip) S (OpenGLState.Apply env D S).1
      (OpenGLState.Apply env D S).2 :=
  faithful_of_blocks env hd S _ D (AppliedField.issued D S) _ _ (Apply_trace_eq_all env S D)
    (fun t _ _ => setting_of_issued env S D t)

theorem SubApply_faithful {nTex nClip : Nat} (env : Env) (hd : env.Distinct nTex)
    (S D : OpenGLState nTex nClip) :
    Faithful env (subApplyFields nTex nClip) S (OpenGLState.SubApply D S).1
      (OpenGLState.SubApply D S).2 := by
  refine faithful_of_blocks env hd S _ D (AppliedField.issued D S) _ _ ?_
    (fun t _ _ => setting_of_issued env S D t)
  simp [OpenGLState.SubApply, subApplyFields, List.flatten, AppliedField.issued,
    AppliedField.calls, DiffedField.calls, DiffedField.differs]

theorem flatMap_single_true {α β : Type} (a : α) (f : α → List β) :
    f a = [a].flatMap (fun t => if (fun _ : α => true) t = true then f t else []) := by
  simp

/-- A helper that issues the calls of one field for the shadow it leaves keeps
the shadow faithful on that field. -/
theorem faithful_of_bind {nTex nClip : Nat} (env : Env) (hd : env.Distinct nTex)
    (S S' : OpenGLState nTex nClip) (t : AppliedField nTex nClip) (tr : List GLCall)
    (htr : tr = t.calls env S') : Faithful env [t] S S' tr :=
  faithful_of_blocks env hd S S' S' (fun _ => true) [t] tr
    (htr.trans (flatMap_single_true t (fun t => t.calls env S')))
    (fun _ _ _ => by simp)

theorem BindDrawFramebuffer_faithful {nTex nClip : Nat} (env : Env) (hd : env.Distinct nTex)
    (S : OpenGLState nTex nClip) (f : GLuint) :
    Faithful env [.diffed .draw_framebuffer] S (OpenGLState.BindDrawFramebuffer f S).2.1
      (OpenGLState.BindDrawFramebuffer f S).2.2 := by
  refine faithful_of_blocks env hd S _
    { S with draw := { S.draw with draw_framebuffer := f } }
    (fun _ => decide (S.draw.draw_framebuffer ≠ f)) _ _ ?_ ?_
  · by_cases h : S.draw.draw_framebuffer = f <;>
      simp [OpenGLState.BindDrawFramebuffer, h, AppliedField.calls, DiffedField.calls]
  · intro t ht _
    simp only [List.mem_singleton] at ht
    subst ht
    by_cases h : S.draw.draw_framebuffer = f <;>
      simp [OpenGLState.BindDrawFramebuffer, h, AppliedField.setting]

/-- The unbind calls of `ResetTexture` are the calls of the scanned fields that
held the handle, for a descriptor with 0 in every binding slot. -/
theorem ResetTexture_trace_blocks {nTex nClip : Nat} (env : Env) (H : GLuint)
    (S : OpenGLState nTex nClip) :
    (OpenGLState.ResetTexture env H S).2 =
      (textureSlots nTex nClip).flatMap (fun t =>
        if AppliedField.holds S H t = true then
          t.calls env (OpenGLState.ctor nTex nClip { texture_buffer := 0 })
        else []) := by
  rw [ResetTexture_eq]
  simp only [textureSlots, List.flatMap_append, List.flatMap_map, List.flatMap_cons,
    List.flatMap_nil, AppliedField.holds, DiffedField.holds, AppliedField.calls,
    DiffedField.calls, OpenGLState.ctor, decide_eq_true_eq, List.append_nil]
  cases env.AllowShadow <;> simp

theorem ResetTexture_faithful {nTex nClip : Nat} (env : Env) (hd : env.Distinct nTex)
    (S : OpenGLState nTex nClip) (H : GLuint) :
    Faithful env (textureSlots nTex nClip) S (OpenGLState.ResetTexture env H S).1
      (OpenGLState.ResetTexture env H S).2 := by
  refine faithful_of_blocks env hd S _ (OpenGLState.ctor nTex nClip { texture_buffer := 0 })
    (AppliedField.holds S H) _ _ (ResetTexture_trace_blocks env H S) ?_
  intro t ht h0
  rw [ResetTexture_eq]
  simp only [textureSlots, List.mem_append, List.mem_map, List.mem_finRange, true_and,
    List.mem_cons, List.mem_singleton, List.not_mem_nil, or_false] at ht
  rcases ht with ⟨i, rfl⟩ | ht
  · by_cases h : (S.texture_units i).texture_2d = H <;>
      simp [AppliedField.setting, AppliedField.holds, DiffedField.holds, OpenGLState.ctor, h]
  · simp only [AppliedField.applied, DiffedField.capable] at h0
    rcases ht with rfl | rfl | rfl | rfl | rfl | rfl | rfl | rfl <;>
      simp only [AppliedField.setting, AppliedField.holds, DiffedField.holds,
        OpenGLState.ctor, decide_eq_true_eq] <;>
      split <;> simp_all

theorem ResetSampler_trace_blocks {nTex nClip : Nat} (env : Env) (H : GLuint)
    (S : OpenGLState nTex nClip) :
    (OpenGLState.ResetSampler env H S).2 =
      (samplerSlots nTex nClip).flatMap (fun t =>
        if AppliedField.holds S H t = true then
          t.calls env (OpenGLState.ctor nTex nClip { texture_buffer := 0 })
        else []) := by
  rw [ResetSampler_eq]
  simp only [samplerSlots, List.flatMap_append, List.flatMap_map, List.flatMap_cons,
    List.flatMap_nil, AppliedField.holds, DiffedField.holds, AppliedField.calls,
    DiffedField.calls, OpenGLState.ctor, decide_eq_true_eq, List.append_nil]

theorem ResetSampler_faithful {nTex nClip : Nat} (env : Env) (hd : env.Distinct nTex)
    (S : OpenGLState nTex nClip) (H : GLuint) :
    Faithful env (samplerSlots nTex nClip) S (OpenGLState.ResetSampler env H S).1
      (OpenGLState.ResetSampler env H S).2 := by
  refine faithful_of_blocks env hd S _ (OpenGLState.ctor nTex nClip { texture_buffer := 0 })
    (AppliedField.holds S H) _ _ (ResetSampler_trace_blocks env H S) ?_
  intro t ht h0
  rw [ResetSampler_eq]
  simp only [samplerSlots, List.mem_append, List.mem_map, List.mem_finRange, true_and,
    List.mem_cons, List.mem_singleton, List.not_mem_nil, or_false] at ht
  rcases ht with ⟨i, rfl⟩ | rfl
  · by_cases h : (S.texture_units i).sampler = H <;>
      simp [AppliedField.setting, AppliedField.holds, DiffedField.holds, OpenGLState.ctor, h]
  · by_cases h : S.texture_cube_unit.sampler = H <;>
      simp [AppliedField.setting, AppliedField.holds, DiffedField.holds, OpenGLState.ctor, h]

theorem ResetProgram_faithful {nTex nClip : Nat} (env : Env) (hd : env.Distinct nTex)
    (S : OpenGLState nTex nClip) (H : GLuint) :
    Faithful env [.diffed .shader_program] S (OpenGLState.ResetProgram H S).1
      (OpenGLState.ResetProgram H S).2 := by
  refine faithful_of_blocks env hd S _ (OpenGLState.ctor nTex nClip { texture_buffer := 0 })
    (AppliedField.holds S H) _ _ ?_ ?_
  · by_cases h : S.draw.shader_program = H <;>
      simp [OpenGLState.ResetProgram, AppliedField.holds, DiffedField.holds,
        AppliedField.calls, DiffedField.calls, OpenGLState.ctor, h]
  · intro t ht _
    simp only [List.mem_singleton] at ht
    subst ht
    by_cases h : S.draw.shader_program = H <;>
      simp [OpenGLState.ResetProgram, AppliedField.setting, AppliedField.holds,
        DiffedField.holds, OpenGLState.ctor, h]

theorem ResetPipeline_faithful {nTex nClip : Nat} (env : Env) (hd : env.Distinct nTex)
    (S : OpenGLState nTex nClip) (H : GLuint) :
    Faithful env [.diffed .program_pipeline] S (OpenGLState.ResetPipeline H S).1
      (OpenGLState.ResetPipeline H S).2 := by
  refine faithful_of_blocks env hd S _ (OpenGLState.ctor nTex nClip { texture_buffer := 0 })
    (AppliedField.holds S H) _ _ ?_ ?_
  · by_cases h : S.draw.program_pipeline = H <;>
      simp [OpenGLState.ResetPipeline, AppliedField.holds, DiffedField.holds,
        AppliedField.calls, DiffedField.calls, OpenGLState.ctor, h]
  · intro t ht _
    simp only [List.mem_singleton] at ht
    subst ht
    by_cases h : S.draw.program_pipeline = H <;>
      simp [OpenGLState.ResetPipeline, AppliedField.setting, AppliedField.holds,
        DiffedField.holds, OpenGLState.ctor, h]

theorem ResetVertexArray_faithful {nTex nClip : Nat} (env : Env) (hd : env.Distinct nTex)
    (S : OpenGLState nTex nClip) (H : GLuint) :
    Faithful env [.diffed .vertex_array] S (OpenGLState.ResetVertexArray H S).1
      (OpenGLState.ResetVertexArray H S).2 := by
  refine faithful_of_blocks env hd S _ (OpenGLState.ctor nTex nClip { texture_buffer := 0 })
    (AppliedField.holds S H) _ _ ?_ ?_
  · by_cases h : S.draw.vertex_array = H <;>
      simp [OpenGLState.ResetVertexArray, AppliedField.holds, DiffedField.holds,
        AppliedField.calls, DiffedField.calls, OpenGLState.ctor, h]
  · intro t ht _
    simp only [List.mem_singleton] at ht
    subst ht
    by_cases h : S.draw.vertex_array = H <;>
      simp [OpenGLState.ResetVertexArray, AppliedField.setting, AppliedField.holds,
        DiffedField.holds, OpenGLState.ctor, h]

theorem ResetBuffer_faithful {nTex nClip : Nat} (env : Env) (hd : env.Distinct nTex)
    (S : OpenGLState nTex nClip) (H : GLuint) :
    Faithful env [.diffed .vertex_buffer, .diffed .uniform_buffer] S
      (OpenGLState.ResetBuffer H S).1 (OpenGLState.ResetBuffer H S).2 := by
  refine faithful_of_blocks env hd S _ (OpenGLState.ctor nTex nClip { texture_buffer := 0 })
    (AppliedField.holds S H) _ _ ?_ ?_
  · by_cases h : S.draw.vertex_buffer = H <;> by_cases h' : S.draw.uniform_buffer = H <;>
      simp [OpenGLState.ResetBuffer, AppliedField.holds, DiffedField.holds,
        AppliedField.calls, DiffedField.calls, OpenGLState.ctor, h, h']
  · intro t ht _
    simp only [List.mem_cons, List.mem_singleton, List.not_mem_nil, or_false] at ht
    by_cases h : S.draw.vertex_buffer = H <;> by_cases h' : S.draw.uniform_buffer = H <;>
      rcases ht with rfl | rfl <;>
      simp [OpenGLState.ResetBuffer, AppliedField.setting, AppliedField.holds,
        DiffedField.holds, OpenGLState.ctor, h, h']

theorem ResetFramebuffer_faithful {nTex nClip : Nat} (env : Env) (hd : env.Distinct nTex)
    (S : OpenGLState nTex nClip) (H : GLuint) :
    Faithful env [.diffed .read_framebuffer, .diffed .draw_framebuffer] S
      (OpenGLState.ResetFramebuffer H S).1 (OpenGLState.ResetFramebuffer H S).2 := by
  refine faithful_of_blocks env hd S _ (OpenGLState.ctor nTex nClip { texture_buffer := 0 })
    (AppliedField.holds S H) _ _ ?_ ?_
  · by_cases h : S.draw.read_framebuffer = H <;> by_cases h' : S.draw.draw_framebuffer = H <;>
      simp [OpenGLState.ResetFramebuffer, AppliedField.holds, DiffedField.holds,
        AppliedField.calls, DiffedField.calls, OpenGLState.ctor, h, h']
  · intro t ht _
    simp only [List.mem_cons, List.mem_singleton, List.not_mem_nil, or_false] at ht
    by_cases h : S.draw.read_framebuffer = H <;> by_cases h' : S.draw.draw_framebuffer = H <;>
      rcases ht with rfl | rfl <;>
      simp [OpenGLState.ResetFramebuffer, AppliedField.setting, AppliedField.holds,
        DiffedField.holds, OpenGLState.ctor, h, h']

/-- Only the calls of the blend enable write the enable flag of the color logic
op. -/
theorem run_calls_frame_logic {nTex nClip : Nat} (env : Env) (D : OpenGLState nTex nClip)
    (t : AppliedField nTex nClip) (ht : t ≠ .diffed .blend_enabled) (dev : Device) :
    (dev.run (t.calls env D)).cell (.capability GL_COLOR_LOGIC_OP) =
      dev.cell (.capability GL_COLOR_LOGIC_OP) := by
  have hc : ∀ i : Nat, GL_COLOR_LOGIC_OP ≠ GL_CLIP_DISTANCE0 + i :=
    fun i h => clip_cap_ne i GL_COLOR_LOGIC_OP (by decide) h.symm
  cases t with
  | diffed F =>
    cases F <;>
    first
    | exact absurd rfl ht
    | (simp only [AppliedField.calls, DiffedField.calls]
       (repeat' split) <;>
       simp [Device.run_cons, Device.run_nil, Device.exec, Device.write,
         Function.update_apply, hc])
  | _ =>
    have h1 : GL_COLOR_LOGIC_OP ≠ GL_CULL_FACE := by decide
    have h2 : GL_COLOR_LOGIC_OP ≠ GL_DEPTH_TEST := by decide
    have h3 : GL_COLOR_LOGIC_OP ≠ GL_STENCIL_TEST := by decide
    have h4 : GL_COLOR_LOGIC_OP ≠ GL_SCISSOR_TEST := by decide
    simp only [AppliedField.calls]
    (repeat' split) <;>
    simp [Device.run_cons, Device.run_nil, Device.exec, Device.write,
      Function.update_apply, h1, h2, h3, h4]

theorem run_blend_calls_logic {nTex nClip : Nat} (env : Env) (hg : env.GLES = false)
    (D : OpenGLState nTex nClip) (dev : Device) :
    (dev.run (AppliedField.calls env D (.diffed .blend_enabled))).cell
        (.capability GL_COLOR_LOGIC_OP) = some (logicOpToggle D) := by
  cases h : D.blend.enabled <;>
    simp [AppliedField.calls, DiffedField.calls, logicOpToggle, hg, h, Device.run_cons,
      Device.run_nil, Device.exec, Device.write]

theorem run_blocks_logic {nTex nClip : Nat} (env : Env) (hg : env.GLES = false)
    (D : OpenGLState nTex nClip) (p : AppliedField nTex nClip → Bool)
    (l : List (AppliedField nTex nClip)) (dev : Device) :
    (dev.run (l.flatMap (fun t => if p t = true then t.calls env D else []))).cell
        (.capability GL_COLOR_LOGIC_OP) =
      if .diffed .blend_enabled ∈ l ∧ p (.diffed .blend_enabled) = true then
        some (logicOpToggle D)
      else dev.cell (.capability GL_COLOR_LOGIC_OP) := by
  induction l generalizing dev with
  | nil => simp [Device.run_nil]
  | cons t l ih =>
    rw [List.flatMap_cons, Device.run_append, ih]
    by_cases ht : t = .diffed .blend_enabled
    · subst ht
      by_cases hp : p (.diffed .blend_enabled) = true
      · simp [hp, run_blend_calls_logic env hg D]
      · simp [hp, Device.run_nil]
    · have hcell : (dev.run (if p t = true then t.calls env D else [])).cell
          (.capability GL_COLOR_LOGIC_OP) = dev.cell (.capability GL_COLOR_LOGIC_OP) := by
        split
        · exact run_calls_frame_logic env D t ht dev
        · rfl
      have hne : AppliedField.diffed DiffedField.blend_enabled ≠ t := fun h => ht h.symm
      have hmem : (AppliedField.diffed DiffedField.blend_enabled ∈ t :: l ∧
          p (.diffed .blend_enabled) = true) =
          (AppliedField.diffed DiffedField.blend_enabled ∈ l ∧
            p (.diffed .blend_enabled) = true) := by
        simp [List.mem_cons, hne]
      rw [hcell]
      simp only [hmem]

theorem Apply_logic_toggle {nTex nClip : Nat} (env : Env) (hg : env.GLES = false)
    (S D : OpenGLState nTex nClip) (dev : Device)
    (hpre : dev.cell (.capability GL_COLOR_LOGIC_OP) = some (logicOpToggle S)) :
    (dev.run (OpenGLState.Apply env D S).2).cell (.capability GL_COLOR_LOGIC_OP) =
      some (logicOpToggle D) := by
  rw [Apply_trace_eq_all, run_blocks_logic env hg D]
  split
  · rfl
  · rename_i h
    have hm : AppliedField.diffed DiffedField.blend_enabled ∈ AppliedField.all nTex nClip :=
      mem_all _
    have hb : D.blend.enabled = S.blend.enabled := by
      by_contra hb
      exact h ⟨hm, by simp [AppliedField.issued, DiffedField.differs, hb]⟩
    rw [hpre, logicOpToggle, logicOpToggle, hb]

theorem sampleEnv_Distinct : sampleEnv.Distinct 3 := by
  unfold Env.Distinct
  refine ⟨?_, ?_, ?_, ?_⟩
  · decide
  · decide
  · decide
  · decide

/-! ## The shadow and the device -/

/-- C13. Global shadow invariant (device fidelity).  The device is a state
updated by the emitted trace: each call writes the cell its arguments name, a
texture bind the binding of its target on the unit `glActiveTexture` selected
last.  For every environment whose unit tables name distinct units (every
setting of the GLES, AllowShadow and clip-distance capability flags), every
shadow `S` and every device, a field on which the shadow and the device agree
before an operation has them agree after it, for each field the operation is
responsible for and the device has: after `Apply(D)` every applied field (the
list holds all of them), and off GLES also the enable flag of the color logic
op that goes with the blend enable; after `SubApply` the write masks, the two
framebuffer bindings, the scissor test, the scissor rectangle and the
viewport; after each binding helper its slot; after each invalidation hook
the slots it scans. -/
theorem Global_shadow_invariant {nTex nClip : Nat} (env : Env) (hd : env.Distinct nTex)
    (S D : OpenGLState nTex nClip) (index : Fin nTex) (h H : GLuint) :
    (Faithful env (AppliedField.all nTex nClip) S (OpenGLState.Apply env D S).1
        (OpenGLState.Apply env D S).2 ∧
      (∀ t : AppliedField nTex nClip, t ∈ AppliedField.all nTex nClip) ∧
      (env.GLES = false → ∀ dev : Device,
        dev.cell (.capability GL_COLOR_LOGIC_OP) = some (logicOpToggle S) →
        (dev.run (OpenGLState.Apply env D S).2).cell (.capability GL_COLOR_LOGIC_OP) =
          some (logicOpToggle (OpenGLState.Apply env D S).1))) ∧
    Faithful env (subApplyFields nTex nClip) S (OpenGLState.SubApply D S).1
      (OpenGLState.SubApply D S).2 ∧
    (Faithful env [.diffed .vertex_array] S (OpenGLState.BindVertexArray h S).2.1
        (OpenGLState.BindVertexArray h S).2.2 ∧
      Faithful env [.diffed .uniform_buffer] S (OpenGLState.BindUniformBuffer h S).2.1
        (OpenGLState.BindUniformBuffer h S).2.2 ∧
      Faithful env [.diffed (.texture_2d index)] S
        (OpenGLState.BindTexture2D env index h S).2.1
        (OpenGLState.BindTexture2D env index h S).2.2 ∧
      Faithful env [.diffed (.sampler index)] S (OpenGLState.BindSampler index h S).2.1
        (OpenGLState.BindSampler index h S).2.2 ∧
      Faithful env [.diffed .texture_cube] S (OpenGLState.BindTextureCube env h S).2.1
        (OpenGLState.BindTextureCube env h S).2.2 ∧
      Faithful env [.diffed .read_framebuffer] S (OpenGLState.BindReadFramebuffer h S).2.1
        (OpenGLState.BindReadFramebuffer h S).2.2 ∧
      Faithful env [.diffed .draw_framebuffer] S (OpenGLState.BindDrawFramebuffer h S).2.1
        (OpenGLState.BindDrawFramebuffer h S).2.2 ∧
      Faithful env [.diffed .shader_program] S (OpenGLState.BindShaderProgram h S).2.1
        (OpenGLState.BindShaderProgram h S).2.2) ∧
    (Faithful env (textureSlots nTex nClip) S (OpenGLState.ResetTexture env H S).1
        (OpenGLState.ResetTexture env H S).2 ∧
      Faithful env (samplerSlots nTex nClip) S (OpenGLState.ResetSampler env H S).1
        (OpenGLState.ResetSampler env H S).2 ∧
      Faithful env [.diffed .shader_program] S (OpenGLState.ResetProgram H S).1
        (OpenGLState.ResetProgram H S).2 ∧
      Faithful env [.diffed .program_pipeline] S (OpenGLState.ResetPipeline H S).1
        (OpenGLState.ResetPipeline H S).2 ∧
      Faithful env [.diffed .vertex_buffer, .diffed .uniform_buffer] S
        (OpenGLState.ResetBuffer H S).1 (OpenGLState.ResetBuffer H S).2 ∧
      Faithful env [.diffed .vertex_array] S (OpenGLState.ResetVertexArray H S).1
        (OpenGLState.ResetVertexArray H S).2 ∧
      Faithful env [.diffed .read_framebuffer, .diffed .draw_framebuffer] S
        (OpenGLState.ResetFramebuffer H S).1 (OpenGLState.ResetFramebuffer H S).2) := by
  refine ⟨⟨Apply_faithful env hd S D, mem_all, fun hg dev hpre =>
      Apply_logic_toggle env hg S D dev hpre⟩, SubApply_faithful env hd S D,
    ⟨?_, ?_, ?_, ?_, ?_, ?_, BindDrawFramebuffer_faithful env hd S h, ?_⟩,
    ResetTexture_faithful env hd S H, ResetSampler_faithful env hd S H,
    ResetProgram_faithful env hd S H, ResetPipeline_faithful env hd S H,
    ResetBuffer_faithful env hd S H, ResetVertexArray_faithful env hd S H,
    ResetFramebuffer_faithful env hd S H⟩
  all_goals first
    | exact faithful_of_bind env hd S _ _ _ rfl
    | exact faithful_of_bind env hd S _ _ _
        (by simp [OpenGLState.BindTexture2D, OpenGLState.BindSampler, AppliedField.calls,
          DiffedField.calls])

/-- The invariant on the sample environment: on the sample device, where the
program binding holds program 0 as the sample shadow records, applying the
descriptor with program 7 leaves the program binding of the device at 7. -/
theorem Global_shadow_invariant_witness :
    sampleEnv.Distinct 3 ∧
    (sampleDevice.run (OpenGLState.Apply sampleEnv sampleProgram7 sampleState).2).cell
      .program = some (.glUseProgram 7) :=
  ⟨sampleEnv_Distinct,
   (Global_shadow_invariant sampleEnv sampleEnv_Distinct sampleState sampleProgram7 0 0 0).1.1
     sampleDevice (.diffed .shader_program) (mem_all _) rfl rfl⟩

/-! ## Idempotence of the hooks -/

theorem ClearedFrom_refl {nTex nClip : Nat} (S : OpenGLState nTex nClip) :
    OpenGLState.ClearedFrom S S := by
  simp [OpenGLState.ClearedFrom]

theorem ResetTexture_cleared {nTex nClip : Nat} (env : Env) (H : GLuint)
    (S : OpenGLState nTex nClip) :
    OpenGLState.ClearedFrom (OpenGLState.ResetTexture env H S).1 S := by
  rw [ResetTexture_eq]
  simp only [OpenGLState.ClearedFrom, true_and]
  refine ⟨fun i => ?_, ?_, ?_, ?_, ?_, ?_, ?_, ?_, ?_, ?_⟩
  all_goals first
    | (split <;> simp)

theorem ResetTexture_idem {nTex nClip : Nat} (env : Env) (H : GLuint) (hH : H ≠ 0)
    (S : OpenGLState nTex nClip) :
    OpenGLState.ResetTexture env H (OpenGLState.ResetTexture env H S).1 =
      ((OpenGLState.ResetTexture env H S).1, []) := by
  have h0 : (0 : GLuint) ≠ H := fun h => hH h.symm
  have hp : ∀ (a : GLuint), (if a = H then (0 : GLuint) else a) ≠ H := fun a h => by
    split at h
    · exact h0 h
    · rename_i hne
      exact hne h
  have hu : ∀ u : TextureUnitState,
      (if u.texture_2d = H then { u with texture_2d := 0 } else u).texture_2d ≠ H := fun u h => by
    split at h
    · exact h0 h
    · rename_i hne
      exact hne h
  have hc : ∀ u : TextureCubeUnit,
      (if u.texture_cube = H then { u with texture_cube := 0 } else u).texture_cube ≠ H :=
    fun u h => by
      split at h
      · exact h0 h
      · rename_i hne
        exact hne h
  rw [ResetTexture_eq env H (OpenGLState.ResetTexture env H S).1, ResetTexture_eq env H S]
  cases hA : env.AllowShadow <;> simp [hu, hc, hp, flatMap_const_nil]

theorem ite_zero_self (a : GLuint) (c : Prop) [Decidable c] (h : c → a = 0) :
    (if c then (0 : GLuint) else a) = a := by
  split
  · rename_i hc
    exact (h hc).symm
  · rfl

theorem ResetTexture_zero {nTex nClip : Nat} (env : Env) (S : OpenGLState nTex nClip) :
    (OpenGLState.ResetTexture env 0 S).1 = S := by
  rw [ResetTexture_eq]
  have hu : (fun i => if (S.texture_units i).texture_2d = 0 then
      { S.texture_units i with texture_2d := 0 } else S.texture_units i) = S.texture_units := by
    funext i
    split
    · rename_i h
      rw [← h]
    · rfl
  have hc : (if S.texture_cube_unit.texture_cube = 0 then
      { S.texture_cube_unit with texture_cube := 0 } else S.texture_cube_unit) =
      S.texture_cube_unit := by
    split
    · rename_i h
      rw [← h]
    · rfl
  simp only [hu, hc]
  rw [ite_zero_self _ _ (fun h => h.2), ite_zero_self _ _ (fun h => h.2),
    ite_zero_self _ _ (fun h => h.2), ite_zero_self _ _ (fun h => h.2),
    ite_zero_self _ _ (fun h => h.2), ite_zero_self _ _ (fun h => h.2),
    ite_zero_self _ _ (fun h => h.2)]

theorem ResetSampler_cleared {nTex nClip : Nat} (env : Env) (H : GLuint)
    (S : OpenGLState nTex nClip) :
    OpenGLState.ClearedFrom (OpenGLState.ResetSampler env H S).1 S := by
  rw [ResetSampler_eq]
  simp only [OpenGLState.ClearedFrom, true_and, or_true, and_true, true_or]
  refine ⟨fun i => ?_, ?_⟩
  all_goals (split <;> simp)

theorem ResetSampler_idem {nTex nClip : Nat} (env : Env) (H : GLuint) (hH : H ≠ 0)
    (S : OpenGLState nTex nClip) :
    OpenGLState.ResetSampler env H (OpenGLState.ResetSampler env H S).1 =
      ((OpenGLState.ResetSampler env H S).1, []) := by
  have h0 : (0 : GLuint) ≠ H := fun h => hH h.symm
  have hu : ∀ u : TextureUnitState,
      (if u.sampler = H then { u with sampler := 0 } else u).sampler ≠ H := fun u h => by
    split at h
    · exact h0 h
    · rename_i hne
      exact hne h
  have hc : ∀ u : TextureCubeUnit,
      (if u.sampler = H then { u with sampler := 0 } else u).sampler ≠ H := fun u h => by
    split at h
    · exact h0 h
    · rename_i hne
      exact hne h
  rw [ResetSampler_eq env H (OpenGLState.ResetSampler env H S).1, ResetSampler_eq env H S]
  simp [hu, hc, flatMap_const_nil]

theorem ResetSampler_zero {nTex nClip : Nat} (env : Env) (S : OpenGLState nTex nClip) :
    (OpenGLState.ResetSampler env 0 S).1 = S := by
  rw [ResetSampler_eq]
  have hu : (fun i => if (S.texture_units i).sampler = 0 then
      { S.texture_units i with sampler := 0 } else S.texture_units i) = S.texture_units := by
    funext i
    split
    · rename_i h
      rw [← h]
    · rfl
  have hc : (if S.texture_cube_unit.sampler = 0 then
      { S.texture_cube_unit with sampler := 0 } else S.texture_cube_unit) =
      S.texture_cube_unit := by
    split
    · rename_i h
      rw [← h]
    · rfl
  simp only [hu, hc]

theorem ResetProgram_cleared {nTex nClip : Nat} (H : GLuint) (S : OpenGLState nTex nClip) :
    OpenGLState.ClearedFrom (OpenGLState.ResetProgram H S).1 S := by
  by_cases h1 : S.draw.shader_program = H <;>
    simp [OpenGLState.ResetProgram, OpenGLState.ClearedFrom, h1]

theorem ResetProgram_idem {nTex nClip : Nat} (H : GLuint) (hH : H ≠ 0)
    (S : OpenGLState nTex nClip) :
    OpenGLState.ResetProgram H (OpenGLState.ResetProgram H S).1 =
      ((OpenGLState.ResetProgram H S).1, []) := by
  have h0 : (0 : GLuint) ≠ H := fun h => hH h.symm
  by_cases h1 : S.draw.shader_program = H <;>
    simp [OpenGLState.ResetProgram, h1, h0]

theorem ResetProgram_zero {nTex nClip : Nat} (S : OpenGLState nTex nClip) :
    (OpenGLState.ResetProgram 0 S).1 = S := by
  by_cases h1 : S.draw.shader_program = 0 <;>
    simp [OpenGLState.ResetProgram, h1]
  all_goals (cases S; rename_i draw _ _ _ _; cases draw; simp_all)

theorem ResetProgram_trace_blocks {nTex nClip : Nat} (env : Env) (H : GLuint)
    (S : OpenGLState nTex nClip) :
    (OpenGLState.ResetProgram H S).2 =
      ([.diffed .shader_program] : List (AppliedField nTex nClip)).flatMap (fun t =>
        if AppliedField.holds S H t = true then t.unbind env else []) := by
  by_cases h1 : S.draw.shader_program = H <;>
    simp [OpenGLState.ResetProgram, AppliedField.holds, DiffedField.holds, AppliedField.unbind,
      AppliedField.calls, DiffedField.calls, OpenGLState.ctor, h1]

theorem ResetPipeline_cleared {nTex nClip : Nat} (H : GLuint) (S : OpenGLState nTex nClip) :
    OpenGLState.ClearedFrom (OpenGLState.ResetPipeline H S).1 S := by
  by_cases h1 : S.draw.program_pipeline = H <;>
    simp [OpenGLState.ResetPipeline, OpenGLState.ClearedFrom, h1]

theorem ResetPipeline_idem {nTex nClip : Nat} (H : GLuint) (hH : H ≠ 0)
    (S : OpenGLState nTex nClip) :
    OpenGLState.ResetPipeline H (OpenGLState.ResetPipeline H S).1 =
      ((OpenGLState.ResetPipeline H S).1, []) := by
  have h0 : (0 : GLuint) ≠ H := fun h => hH h.symm
  by_cases h1 : S.draw.program_pipeline = H <;>
    simp [OpenGLState.ResetPipeline, h1, h0]

theorem ResetPipeline_zero {nTex nClip : Nat} (S : OpenGLState nTex nClip) :
    (OpenGLState.ResetPipeline 0 S).1 = S := by
  by_cases h1 : S.draw.program_pipeline = 0 <;>
    simp [OpenGLState.ResetPipeline, h1]
  all_goals (cases S; rename_i draw _ _ _ _; cases draw; simp_all)

theorem ResetPipeline_trace_blocks {nTex nClip : Nat} (env : Env) (H : GLuint)
    (S : OpenGLState nTex nClip) :
    (OpenGLState.ResetPipeline H S).2 =
      ([.diffed .program_pipeline] : List (AppliedField nTex nClip)).flatMap (fun t =>
        if AppliedField.holds S H t = true then t.unbind env else []) := by
  by_cases h1 : S.draw.program_pipeline = H <;>
    simp [OpenGLState.ResetPipeline, AppliedField.holds, DiffedField.holds, AppliedField.unbind,
      AppliedField.calls, DiffedField.calls, OpenGLState.ctor, h1]

theorem ResetVertexArray_cleared {nTex nClip : Nat} (H : GLuint) (S : OpenGLState nTex nClip) :
    OpenGLState.ClearedFrom (OpenGLState.ResetVertexArray H S).1 S := by
  by_cases h1 : S.draw.vertex_array = H <;>
    simp [OpenGLState.ResetVertexArray, OpenGLState.ClearedFrom, h1]

theorem ResetVertexArray_idem {nTex nClip : Nat} (H : GLuint) (hH : H ≠ 0)
    (S : OpenGLState nTex nClip) :
    OpenGLState.ResetVertexArray H (OpenGLState.ResetVertexArray H S).1 =
      ((OpenGLState.ResetVertexArray H S).1, []) := by
  have h0 : (0 : GLuint) ≠ H := fun h => hH h.symm
  by_cases h1 : S.draw.vertex_array = H <;>
    simp [OpenGLState.ResetVertexArray, h1, h0]

theorem ResetVertexArray_zero {nTex nClip : Nat} (S : OpenGLState nTex nClip) :
    (OpenGLState.ResetVertexArray 0 S).1 = S := by
  by_cases h1 : S.draw.vertex_array = 0 <;>
    simp [OpenGLState.ResetVertexArray, h1]
  all_goals (cases S; rename_i draw _ _ _ _; cases draw; simp_all)

theorem ResetVertexArray_trace_blocks {nTex nClip : Nat} (env : Env) (H : GLuint)
    (S : OpenGLState nTex nClip) :
    (OpenGLState.ResetVertexArray H S).2 =
      ([.diffed .vertex_array] : List (AppliedField nTex nClip)).flatMap (fun t =>
        if AppliedField.holds S H t = true then t.unbind env else []) := by
  by_cases h1 : S.draw.vertex_array = H <;>
    simp [OpenGLState.ResetVertexArray, AppliedField.holds, DiffedField.holds, AppliedField.unbind,
      AppliedField.calls, DiffedField.calls, OpenGLState.ctor, h1]

theorem ResetBuffer_cleared {nTex nClip : Nat} (H : GLuint) (S : OpenGLState nTex nClip) :
    OpenGLState.ClearedFrom (OpenGLState.ResetBuffer H S).1 S := by
  by_cases h1 : S.draw.vertex_buffer = H <;> by_cases h2 : S.draw.uniform_buffer = H <;>
    simp [OpenGLState.ResetBuffer, OpenGLState.ClearedFrom, h1, h2]

theorem ResetBuffer_idem {nTex nClip : Nat} (H : GLuint) (hH : H ≠ 0)
    (S : OpenGLState nTex nClip) :
    OpenGLState.ResetBuffer H (OpenGLState.ResetBuffer H S).1 =
      ((OpenGLState.ResetBuffer H S).1, []) := by
  have h0 : (0 : GLuint) ≠ H := fun h => hH h.symm
  by_cases h1 : S.draw.vertex_buffer = H <;> by_cases h2 : S.draw.uniform_buffer = H <;>
    simp [OpenGLState.ResetBuffer, h1, h2, h0]

theorem ResetBuffer_zero {nTex nClip : Nat} (S : OpenGLState nTex nClip) :
    (OpenGLState.ResetBuffer 0 S).1 = S := by
  by_cases h1 : S.draw.vertex_buffer = 0 <;> by_cases h2 : S.draw.uniform_buffer = 0 <;>
    simp [OpenGLState.ResetBuffer, h1, h2]
  all_goals (cases S; rename_i draw _ _ _ _; cases draw; simp_all)

theorem ResetBuffer_trace_blocks {nTex nClip : Nat} (env : Env) (H : GLuint)
    (S : OpenGLState nTex nClip) :
    (OpenGLState.ResetBuffer H S).2 =
      ([.diffed .vertex_buffer, .diffed .uniform_buffer] : List (AppliedField nTex nClip)).flatMap (fun t =>
        if AppliedField.holds S H t = true then t.unbind env else []) := by
  by_cases h1 : S.draw.vertex_buffer = H <;> by_cases h2 : S.draw.uniform_buffer = H <;>
    simp [OpenGLState.ResetBuffer, AppliedField.holds, DiffedField.holds, AppliedField.unbind,
      AppliedField.calls, DiffedField.calls, OpenGLState.ctor, h1, h2]

theorem ResetFramebuffer_cleared {nTex nClip : Nat} (H : GLuint) (S : OpenGLState nTex nClip) :
    OpenGLState.ClearedFrom (OpenGLState.ResetFramebuffer H S).1 S := by
  by_cases h1 : S.draw.read_framebuffer = H <;> by_cases h2 : S.draw.draw_framebuffer = H <;>
    simp [OpenGLState.ResetFramebuffer, OpenGLState.ClearedFrom, h1, h2]

theorem ResetFramebuffer_idem {nTex nClip : Nat} (H : GLuint) (hH : H ≠ 0)
    (S : OpenGLState nTex nClip) :
    OpenGLState.ResetFramebuffer H (OpenGLState.ResetFramebuffer H S).1 =
      ((OpenGLState.ResetFramebuffer H S).1, []) := by
  have h0 : (0 : GLuint) ≠ H := fun h => hH h.symm
  by_cases h1 : S.draw.read_framebuffer = H <;> by_cases h2 : S.draw.draw_framebuffer = H <;>
    simp [OpenGLState.ResetFramebuffer, h1, h2, h0]

theorem ResetFramebuffer_zero {nTex nClip : Nat} (S : OpenGLState nTex nClip) :
    (OpenGLState.ResetFramebuffer 0 S).1 = S := by
  by_cases h1 : S.draw.read_framebuffer = 0 <;> by_cases h2 : S.draw.draw_framebuffer = 0 <;>
    simp [OpenGLState.ResetFramebuffer, h1, h2]
  all_goals (cases S; rename_i draw _ _ _ _; cases draw; simp_all)

theorem ResetFramebuffer_trace_blocks {nTex nClip : Nat} (env : Env) (H : GLuint)
    (S : OpenGLState nTex nClip) :
    (OpenGLState.ResetFramebuffer H S).2 =
      ([.diffed .read_framebuffer, .diffed .draw_framebuffer] : List (AppliedField nTex nClip)).flatMap (fun t =>
        if AppliedField.holds S H t = true then t.unbind env else []) := by
  by_cases h1 : S.draw.read_framebuffer = H <;> by_cases h2 : S.draw.draw_framebuffer = H <;>
    simp [OpenGLState.ResetFramebuffer, AppliedField.holds, DiffedField.holds, AppliedField.unbind,
      AppliedField.calls, DiffedField.calls, OpenGLState.ctor, h1, h2]

/-! ## The hooks only clear, and clear once -/

/-- C21. The invalidation hooks are idempotent and only ever clear.  For every
shadow `S`, handle `H` and each of `ResetTexture`, `ResetSampler`,
`ResetProgram`, `ResetPipeline`, `ResetBuffer`, `ResetVertexArray` and
`ResetFramebuffer`: every field of the shadow after the hook is the field of
`S` or 0; for `H ≠ 0` a second consecutive call of the hook with `H` issues no
device call and leaves the shadow as the first call left it; and with `H = 0`
the shadow stays `S`, while the trace is one unbind for each scanned slot that
holds 0, in the order of the scan. -/
theorem Reset_hooks_idempotent {nTex nClip : Nat} (env : Env) (S : OpenGLState nTex nClip)
    (H : GLuint) :
    (OpenGLState.ClearedFrom (OpenGLState.ResetTexture env H S).1 S ∧
      (H ≠ 0 → OpenGLState.ResetTexture env H (OpenGLState.ResetTexture env H S).1 =
        ((OpenGLState.ResetTexture env H S).1, [])) ∧
      (OpenGLState.ResetTexture env 0 S).1 = S ∧
      (OpenGLState.ResetTexture env 0 S).2 =
        (textureSlots nTex nClip).flatMap (fun t =>
          if AppliedField.holds S 0 t = true then t.unbind env else [])) ∧
    (OpenGLState.ClearedFrom (OpenGLState.ResetSampler env H S).1 S ∧
      (H ≠ 0 → OpenGLState.ResetSampler env H (OpenGLState.ResetSampler env H S).1 =
        ((OpenGLState.ResetSampler env H S).1, [])) ∧
      (OpenGLState.ResetSampler env 0 S).1 = S ∧
      (OpenGLState.ResetSampler env 0 S).2 =
        (samplerSlots nTex nClip).flatMap (fun t =>
          if AppliedField.holds S 0 t = true then t.unbind env else [])) ∧
    (OpenGLState.ClearedFrom (OpenGLState.ResetProgram H S).1 S ∧
      (H ≠ 0 → OpenGLState.ResetProgram H (OpenGLState.ResetProgram H S).1 =
        ((OpenGLState.ResetProgram H S).1, [])) ∧
      (OpenGLState.ResetProgram 0 S).1 = S ∧
      (OpenGLState.ResetProgram 0 S).2 =
        ([.diffed .shader_program] : List (AppliedField nTex nClip)).flatMap (fun t =>
          if AppliedField.holds S 0 t = true then t.unbind env else [])) ∧
    (OpenGLState.ClearedFrom (OpenGLState.ResetPipeline H S).1 S ∧
      (H ≠ 0 → OpenGLState.ResetPipeline H (OpenGLState.ResetPipeline H S).1 =
        ((OpenGLState.ResetPipeline H S).1, [])) ∧
      (OpenGLState.ResetPipeline 0 S).1 = S ∧
      (OpenGLState.ResetPipeline 0 S).2 =
        ([.diffed .program_pipeline] : List (AppliedField nTex nClip)).flatMap (fun t =>
          if AppliedField.holds S 0 t = true then t.unbind env else [])) ∧
    (OpenGLState.ClearedFrom (OpenGLState.ResetBuffer H S).1 S ∧
      (H ≠ 0 → OpenGLState.ResetBuffer H (OpenGLState.ResetBuffer H S).1 =
        ((OpenGLState.ResetBuffer H S).1, [])) ∧
      (OpenGLState.ResetBuffer 0 S).1 = S ∧
      (OpenGLState.ResetBuffer 0 S).2 =
        ([.diffed .vertex_buffer, .diffed .uniform_buffer] : List (AppliedField nTex nClip)).flatMap (fun t =>
          if AppliedField.holds S 0 t = true then t.unbind env else [])) ∧
    (OpenGLState.ClearedFrom (OpenGLState.ResetVertexArray H S).1 S ∧
      (H ≠ 0 → OpenGLState.ResetVertexArray H (OpenGLState.ResetVertexArray H S).1 =
        ((OpenGLState.ResetVertexArray H S).1, [])) ∧
      (OpenGLState.ResetVertexArray 0 S).1 = S ∧
      (OpenGLState.ResetVertexArray 0 S).2 =
        ([.diffed .vertex_array] : List (AppliedField nTex nClip)).flatMap (fun t =>
          if AppliedField.holds S 0 t = true then t.unbind env else [])) ∧
    (OpenGLState.ClearedFrom (OpenGLState.ResetFramebuffer H S).1 S ∧
      (H ≠ 0 → OpenGLState.ResetFramebuffer H (OpenGLState.ResetFramebuffer H S).1 =
        ((OpenGLState.ResetFramebuffer H S).1, [])) ∧
      (OpenGLState.ResetFramebuffer 0 S).1 = S ∧
      (OpenGLState.ResetFramebuffer 0 S).2 =
        ([.diffed .read_framebuffer, .diffed .draw_framebuffer] : List (AppliedField nTex nClip)).flatMap (fun t =>
          if AppliedField.holds S 0 t = true then t.unbind env else [])) :=
  ⟨⟨ResetTexture_cleared env H S, fun hH => ResetTexture_idem env H hH S, ResetTexture_zero env S,
      ResetTexture_trace_blocks env 0 S⟩,
   ⟨ResetSampler_cleared env H S, fun hH => ResetSampler_idem env H hH S, ResetSampler_zero env S,
      ResetSampler_trace_blocks env 0 S⟩,
   ⟨ResetProgram_cleared H S, fun hH => ResetProgram_idem H hH S, ResetProgram_zero S,
      ResetProgram_trace_blocks env 0 S⟩,
   ⟨ResetPipeline_cleared H S, fun hH => ResetPipeline_idem H hH S, ResetPipeline_zero S,
      ResetPipeline_trace_blocks env 0 S⟩,
   ⟨ResetBuffer_cleared H S, fun hH => ResetBuffer_idem H hH S, ResetBuffer_zero S,
      ResetBuffer_trace_blocks env 0 S⟩,
   ⟨ResetVertexArray_cleared H S, fun hH => ResetVertexArray_idem H hH S, ResetVertexArray_zero S,
      ResetVertexArray_trace_blocks env 0 S⟩,
   ⟨ResetFramebuffer_cleared H S, fun hH => ResetFramebuffer_idem H hH S, ResetFramebuffer_zero S,
      ResetFramebuffer_trace_blocks env 0 S⟩⟩

/-- C21 on the sample shadow, where unit 1, the cube unit and the +X shadow
image hold the handle 5: the second `ResetTexture(5)` issues nothing and leaves
the shadow as the first left it. -/
theorem Reset_hooks_idempotent_witness :
    (5 : GLuint) ≠ 0 ∧
    OpenGLState.ResetTexture sampleEnv 5
        (OpenGLState.ResetTexture sampleEnv 5 sampleTextures).1 =
      ((OpenGLState.ResetTexture sampleEnv 5 sampleTextures).1, []) :=
  ⟨by decide, (Reset_hooks_idempotent sampleEnv sampleTextures 5).1.2.1 (by decide)⟩

end OpenGL

namespace Config

theorem Set_m_map {ConfigLocation : Type} [DecidableEq ConfigLocation]
    (layer : Layer ConfigLocation) (L : ConfigLocation) (v : String) :
    (layer.Set L v).m_map = Function.update layer.m_map L (some (some v)) := by
  unfold Layer.Set LayerMap.index LayerMap.assign
  rcases h : layer.m_map L with _ | _ | s
  · simp
  · simp
  · by_cases hs : s = v
    · subst hs
      simp [h]
    · simp [hs]

theorem Set_m_dirty {ConfigLocation : Type} [DecidableEq ConfigLocation]
    (layer : Layer ConfigLocation) (L : ConfigLocation) (v : String) :
    (layer.Set L v).m_dirty = (layer.m_dirty || decide (layer.m_map L ≠ some (some v))) := by
  unfold Layer.Set LayerMap.index LayerMap.assign
  rcases h : layer.m_map L with _ | _ | s
  · simp
  · simp
  · by_cases hs : s = v
    · subst hs
      simp
    · simp [hs]

theorem Get_string_eq_iff {ConfigLocation : Type} (layer : Layer ConfigLocation)
    (L : ConfigLocation) (v : String) :
    layer.Get detail.TryParse_string L = some v ↔ layer.m_map L = some (some v) := by
  unfold Layer.Get LayerMap.find detail.TryParse_string
  rcases h : layer.m_map L with _ | _ | s <;> simp

theorem DeleteKey_eq {ConfigLocation : Type} [DecidableEq ConfigLocation]
    (layer : Layer ConfigLocation) (L : ConfigLocation) :
    layer.DeleteKey L =
      if layer.Exists L = true then
        (true, { layer with m_map := Function.update layer.m_map L (some none), m_dirty := true })
      else (false, layer) := by
  unfold Layer.DeleteKey Layer.Exists LayerMap.find LayerMap.assign
  rcases h : layer.m_map L with _ | _ | s <;> simp

/-! ## Keys of a configuration layer -/

/-- C22. Config layer key semantics.  For every layer, location `L` and string
`v`: after `Set(L, v)`, `Exists(L)` is true and `Get<string>(L)` returns `v`;
`DeleteKey(L)` returns true exactly when `Exists(L)` was true before the call,
and after it `Exists(L)` is false and `Get(L)` returns nothing at every type;
both operations leave the map as it was at every other location; `Set` sets
the dirty flag exactly when the value stored at `L` changes, which is when
`Get<string>(L)` did not return `v` before, and otherwise leaves the layer as
it was; `DeleteKey` sets the dirty flag exactly when it returns true, and
otherwise leaves the layer as it was. -/
theorem Layer_key_semantics {ConfigLocation : Type} [DecidableEq ConfigLocation]
    (layer : Layer ConfigLocation) (L : ConfigLocation) (v : String) :
    ((layer.Set L v).Exists L = true ∧
      (layer.Set L v).Get detail.TryParse_string L = some v) ∧
    ((layer.DeleteKey L).1 = layer.Exists L ∧
      (layer.DeleteKey L).2.Exists L = false ∧
      ∀ (T : Type) (TryParse : String → Option T),
        (layer.DeleteKey L).2.Get TryParse L = none) ∧
    (∀ location, location ≠ L →
      (layer.Set L v).m_map location = layer.m_map location ∧
      (layer.DeleteKey L).2.m_map location = layer.m_map location) ∧
    ((layer.Set L v).m_dirty =
        (layer.m_dirty || decide ((layer.Set L v).m_map L ≠ layer.m_map L)) ∧
      ((layer.Set L v).m_map L ≠ layer.m_map L ↔
        layer.Get detail.TryParse_string L ≠ some v) ∧
      (layer.Get detail.TryParse_string L = some v → layer.Set L v = layer)) ∧
    ((layer.DeleteKey L).2.m_dirty = (layer.m_dirty || (layer.DeleteKey L).1) ∧
      ((layer.DeleteKey L).1 = false → (layer.DeleteKey L).2 = layer)) := by
  have hch : (layer.Set L v).m_map L ≠ layer.m_map L ↔ layer.m_map L ≠ some (some v) := by
    rw [Set_m_map, Function.update_same]
    exact ⟨fun h h' => h h'.symm, fun h h' => h h'.symm⟩
  refine ⟨⟨?_, ?_⟩, ⟨?_, ?_, ?_⟩, ?_, ⟨?_, ?_, ?_⟩, ?_, ?_⟩
  · simp [Layer.Exists, LayerMap.find, Set_m_map]
  · rw [Get_string_eq_iff, Set_m_map, Function.update_same]
  · rw [DeleteKey_eq]
    cases layer.Exists L <;> simp
  · rw [DeleteKey_eq]
    cases h : layer.Exists L
    · simpa using h
    · simp [Layer.Exists, LayerMap.find]
  · intro T TryParse
    rw [DeleteKey_eq]
    cases h : layer.Exists L
    · unfold Layer.Exists LayerMap.find at h
      unfold Layer.Get LayerMap.find
      rcases h' : layer.m_map L with _ | _ | s <;> simp_all
    · simp [Layer.Get, LayerMap.find]
  · intro location hne
    rw [Set_m_map, DeleteKey_eq]
    cases layer.Exists L <;> simp [Function.update_noteq hne]
  · rw [Set_m_dirty]
    congr 1
    exact decide_eq_decide.mpr hch.symm
  · rw [hch, not_iff_not, Get_string_eq_iff]
  · intro h
    rw [Get_string_eq_iff] at h
    have hm := Set_m_map layer L v
    have hd := Set_m_dirty layer L v
    rw [← h, Function.update_eq_self] at hm
    rw [h] at hd
    have hd' : (layer.Set L v).m_dirty = layer.m_dirty := by simpa using hd
    generalize layer.Set L v = layer' at hm hd'
    cases layer
    cases layer'
    simp_all
  · rw [DeleteKey_eq]
    cases layer.Exists L <;> simp
  · rw [DeleteKey_eq]
    cases layer.Exists L <;> simp

/-- C22 on the sample layer: setting `(Core, cpu)` leaves the location
`(Core, gpu)`, which has no entry, without one. -/
theorem Layer_key_semantics_witness :
    (("Core", "gpu") : String × String) ≠ ("Core", "cpu") ∧
    (sampleLayer.Set ("Core", "cpu") "2").m_map ("Core", "gpu") =
      sampleLayer.m_map ("Core", "gpu") :=
  ⟨by decide,
   ((Layer_key_semantics sampleLayer ("Core", "cpu") "2").2.2.1 ("Core", "gpu")
      (by decide)).1⟩

end Config
